import Mathlib

/-!
# JoystickCommunicator: the three-worker session of `example/main.c`

A shallow embedding of the shared control block (`main_cb_t`), of the console
actions (`ExecuteAction`), of the four raise operations, of `StrToAction`, of
one loop iteration of `ThreadWheelchair`, of `ThreadMain` and of
`ThreadConsole`, and of whole runs of the two spawned workers, followed by the
theorems about them.

Conventions of the embedding
* `int8_t` values are `Int`; a store into an `int8_t` field goes through
  `wrap_int8` (reduction modulo `2^8` into `[-128, 127]`).
* `unsigned int` flag masks are `Nat`; the code only applies `|`, `^` and `&`
  to them, which never leave the 32-bit range.
* C enumerations whose values are only carried around are `Nat` ordinals.
* `float` values are only copied by the code, never computed with; they are
  carried as their 32-bit pattern (`Nat`).
* The effects that a loop iteration has on the outside world (mutex, signal
  and semaphore operations, driver calls, console output) are collected in a
  trace of `Event`s, in program order.
* Characters are bytes (`Nat`); the line buffer is the list of its
  `CONSOLE_BFR_SIZE` bytes.
* A run of a worker is driven by the list of its wakes: what each wait
  returned, and what the other threads did to the control block meanwhile.
-/

namespace JoystickCommunicator

/-! ## Constants of `main.c` and of the driver headers -/

def CONSOLE_BFR_SIZE : Nat := 256
def FLAG_USER_QUIT : Nat := 0x01
def FLAG_CONSOLE_QUIT : Nat := 0x02
def FLAG_WHEELCHAIR_QUIT : Nat := 0x04
def FLAG_WHEELCHAIR_HEARTBEAT : Nat := 0x08

def MSP_RLINK_EV_DISCONNECTED : Nat := 0x01
def MSP_RLINK_EV_ERROR : Nat := 0x02
def MSP_RLINK_EV_DATA_READY : Nat := 0x04

/-- Ordinals of `msp_status_t`; only `MSP_OK` is ever compared against. -/
abbrev msp_status_t := Nat
def MSP_OK : msp_status_t := 0

/-- Ordinals of `msp_rlink_btn_t`. -/
abbrev msp_rlink_btn_t := Nat
def MSP_RLINK_BTN_YT : msp_rlink_btn_t := 0

/-- Number of lights, the last enumerator of `msp_rlink_light_t`. -/
def MSP_RLINK_LIGHT_NOF : Nat := 5

/-- Light identifiers `0 .. MSP_RLINK_LIGHT_NOF - 1`, the valid indices of the
`light` arrays. -/
abbrev msp_rlink_light_t := Fin 5
def MSP_RLINK_LIGHT_BRAKE : msp_rlink_light_t := 0
def MSP_RLINK_LIGHT_DIP : msp_rlink_light_t := 1
def MSP_RLINK_LIGHT_HAZARD : msp_rlink_light_t := 2
def MSP_RLINK_LIGHT_LEFT : msp_rlink_light_t := 3
def MSP_RLINK_LIGHT_RIGHT : msp_rlink_light_t := 4

/-- Ordinals of `msp_rlink_axis_id_t`. -/
abbrev msp_rlink_axis_id_t := Nat
def MSP_RLINK_AXIS_ID_0 : msp_rlink_axis_id_t := 0

/-- Axis directions, `msp_rlink_axis_dir_t`. -/
inductive msp_rlink_axis_dir_t where
  | MSP_RLINK_AXIS_DIR_NONE
  | MSP_RLINK_AXIS_DIR_UP
  | MSP_RLINK_AXIS_DIR_DOWN
  | MSP_RLINK_AXIS_DIR_NOF
  deriving DecidableEq, Repr

open msp_rlink_axis_dir_t

/-- Modelled from the spec: `msp_sigs_t` is declared in `msp_core.h`, which is
not among the sources. The wait primitives return `OK` on a signalled wake,
`TIMEOUT` when the window of a timed wait expired, and anything else is a
failure of the wait primitive. -/
inductive msp_sigs_t where
  | MSP_SIGS_OK
  | MSP_SIGS_TIMEOUT
  | MSP_SIGS_FAILED (code : Nat)
  deriving DecidableEq, Repr

open msp_sigs_t

/-! ## `action_t` -/

/-- Values of `action_t`. `StrToAction` casts an arbitrary `int` to `action_t`,
so every integer can reach `ExecuteAction`; the enumerators are the ordinals
`0 .. 20`. -/
abbrev action_t := Int
def ACTION_UP : action_t := 0
def ACTION_DOWN : action_t := 1
def ACTION_LEFT : action_t := 2
def ACTION_RIGHT : action_t := 3
def ACTION_NEUTRAL : action_t := 4
def ACTION_BUTTON_PRESS : action_t := 5
def ACTION_BUTTON_RELEASE : action_t := 6
def ACTION_TOGGLE_LIGHT_BRAKE : action_t := 7
def ACTION_TOGGLE_LIGHT_DIP : action_t := 8
def ACTION_TOGGLE_LIGHT_HAZARD : action_t := 9
def ACTION_TOGGLE_LIGHT_LEFT : action_t := 10
def ACTION_TOGGLE_LIGHT_RIGHT : action_t := 11
def ACTION_TOGGLE_HORN : action_t := 12
def ACTION_AXIS_0_UP : action_t := 13
def ACTION_AXIS_0_DOWN : action_t := 14
def ACTION_AXIS_0_STOP : action_t := 15
def ACTION_TOGGLE_HB : action_t := 16
def ACTION_TRIGGER_ERROR : action_t := 17
def ACTION_DUMP : action_t := 18
def ACTION_QUIT : action_t := 19
def ACTION_NOF : action_t := 20

/-! ## `incoming_t`, `outgoing_t`, `main_cb_t` -/

/-- Field `status` of `incoming_t`. -/
structure incoming_status_t where
  oon : Bool
  status : Nat
  warning : Nat
  deriving DecidableEq, Repr

/-- Field `hms` of `incoming_t`. -/
structure incoming_hms_t where
  mode : Nat
  profile : Nat
  inputProcess : Nat
  interProcess : Nat
  outputProcess : Nat
  selInput : Bool
  selInter : Bool
  selOutput : Bool
  deriving DecidableEq, Repr

/-- Field `battery` of `incoming_t`; `current` is a `float`. -/
structure incoming_battery_t where
  low : Bool
  gauge : Nat
  current : Nat
  deriving DecidableEq, Repr

/-- Field `velocity` of `incoming_t`; three `float`s. -/
structure incoming_velocity_t where
  m1Vel : Nat
  m2Vel : Nat
  turnVel : Nat
  deriving DecidableEq, Repr

/-- Field `speed` of `incoming_t`; `trueSpeed` is a `float`. -/
structure incoming_speed_t where
  speed : Nat
  trueSpeed : Nat
  speedLimitApplied : Nat
  deriving DecidableEq, Repr

/-- One element of the array `light` of `incoming_t`. -/
structure incoming_light_t where
  active : Bool
  lit : Bool
  deriving DecidableEq, Repr

/-- The telemetry struct `incoming_t`. -/
structure incoming_t where
  status : incoming_status_t
  hms : incoming_hms_t
  horn : Bool
  battery : incoming_battery_t
  velocity : incoming_velocity_t
  speed : incoming_speed_t
  light : msp_rlink_light_t → incoming_light_t

/-- The command struct `outgoing_t`. -/
structure outgoing_t where
  x : Int
  y : Int
  btn : Bool
  light : msp_rlink_light_t → Bool
  horn : Bool
  axis0 : msp_rlink_axis_dir_t
  error : Nat

/-- What `memset(&content, 0, sizeof(incoming_t))` leaves. -/
def incoming_zero : incoming_t :=
  { status := ⟨false, 0, 0⟩
    hms := ⟨0, 0, 0, 0, 0, false, false, false⟩
    horn := false
    battery := ⟨false, 0, 0⟩
    velocity := ⟨0, 0, 0⟩
    speed := ⟨0, 0, 0⟩
    light := fun _ => ⟨false, false⟩ }

/-- What `memset(&content, 0, sizeof(outgoing_t))` leaves. -/
def outgoing_zero : outgoing_t :=
  { x := 0
    y := 0
    btn := false
    light := fun _ => false
    horn := false
    axis0 := MSP_RLINK_AXIS_DIR_NONE
    error := 0 }

/-- The `flags` word of one of the three control sub-structs of `main_cb_t`
(the signal, semaphore and thread handles are identities; the signals are
named by `Signal` in the events). -/
structure control_t where
  flags : Nat
  deriving DecidableEq, Repr

/-- The `incoming` sub-struct of `main_cb_t` (content guarded by
`incoming.cs`). -/
structure incoming_box_t where
  content : incoming_t

/-- The `outgoing` sub-struct of `main_cb_t` (content guarded by
`outgoing.cs`). -/
structure outgoing_box_t where
  content : outgoing_t

/-- The shared control block `main_cb_t`. -/
structure main_cb_t where
  main : control_t
  wheelchair : control_t
  console : control_t
  incoming : incoming_box_t
  outgoing : outgoing_box_t

/-- The control block as `Connect` initialises it. -/
def Connect_init : main_cb_t :=
  { main := ⟨0⟩
    wheelchair := ⟨0⟩
    console := ⟨0⟩
    incoming := ⟨incoming_zero⟩
    outgoing := ⟨outgoing_zero⟩ }

/-! ## Events -/

/-- The two critical sections `incoming.cs` and `outgoing.cs`. -/
inductive Mutex where
  | incoming_cs
  | outgoing_cs
  deriving DecidableEq, Repr

/-- The three signals `main.signal`, `wheelchair.signal`, `console.signal`. -/
inductive Signal where
  | main
  | wheelchair
  | console
  deriving DecidableEq, Repr

/-- A call into the link driver, with the arguments passed by value. -/
inductive DriverCall where
  | Heartbeat
  | SetXy (x y : Int)
  | SetBtn (id : msp_rlink_btn_t) (pressed : Bool)
  | SetHorn (enable : Bool)
  | SetLight (id : Nat) (enable : Bool)
  | SetAxis (id : msp_rlink_axis_id_t) (dir : msp_rlink_axis_dir_t)
  | SetError (error : Nat)
  | GetStatus
  | GetDevStatus
  | GetMode
  | GetProfile
  | GetHms
  | GetHorn
  | GetBatteryInfo
  | GetVelocity
  | GetSpeed
  | GetLight (id : Nat)
  deriving DecidableEq, Repr

/-- The four semaphores `started` and `stopped` of the two spawned workers. -/
inductive Gate where
  | console_started
  | console_stopped
  | wheelchair_started
  | wheelchair_stopped
  deriving DecidableEq, Repr

/-- What `ThreadConsole` writes to the terminal: `printf("\n")`,
`printf("Invalid input\n")`, the menu of `PrintActions()`, and the echo
`printf("%c", ch)`. -/
inductive ConsoleText where
  | newline
  | invalid_input
  | actions
  | echo (ch : Int)
  deriving DecidableEq, Repr

/-- Externally visible effects of the workers, in program order. A store into
the line buffer of `ThreadConsole` is recorded with its index. -/
inductive Event where
  | mtx_Lock (m : Mutex)
  | mtx_Unlock (m : Mutex)
  | sig_MutexLock (s : Signal)
  | sig_CondVarSignal (s : Signal)
  | sig_MutexUnlock (s : Signal)
  | rlink (c : DriverCall)
  | dump (content : incoming_t)
  | sig_CondVarWaitTimed (s : Signal) (ms : Nat)
  | sig_CondVarWait (s : Signal)
  | sem_Post (g : Gate)
  | console (text : ConsoleText)
  | bfr_store (index : Nat)

/-- The semaphore posts of a trace, in order. -/
def semPosts : List Event → List Gate
  | [] => []
  | Event.sem_Post g :: t => g :: semPosts t
  | _ :: t => semPosts t

/-- The part of a trace that precedes the first post of the gate `g`. -/
def beforePost (g : Gate) : List Event → List Event
  | [] => []
  | Event.sem_Post g2 :: t => if g2 = g then [] else Event.sem_Post g2 :: beforePost g t
  | e :: t => e :: beforePost g t

/-- Whether the mutex of the signal `s` is held after the events of a trace,
given whether it was held before: the lock and unlock operations on `s` are
replayed (a wait on the condition variable returns with the mutex held, as it
was entered). -/
def holdsSignal (s : Signal) (held : Bool) : List Event → Bool
  | [] => held
  | Event.sig_MutexLock s2 :: t => holdsSignal s (if s2 = s then true else held) t
  | Event.sig_MutexUnlock s2 :: t => holdsSignal s (if s2 = s then false else held) t
  | _ :: t => holdsSignal s held t

/-- The driver calls of a trace, in order. -/
def driverCalls : List Event → List DriverCall
  | [] => []
  | Event.rlink c :: t => c :: driverCalls t
  | _ :: t => driverCalls t

/-- Whether a driver call is one of the field setters. -/
def DriverCall.isSetter : DriverCall → Bool
  | .SetXy _ _ => true
  | .SetBtn _ _ => true
  | .SetHorn _ => true
  | .SetLight _ _ => true
  | .SetAxis _ _ => true
  | .SetError _ => true
  | _ => false

/-- The field setter calls of a trace, in order. -/
def setterCalls (t : List Event) : List DriverCall :=
  (driverCalls t).filter DriverCall.isSetter

/-- The locks a worker holds: the shared-state mutexes and the signal
mutexes, most recently taken first. -/
structure held_t where
  mutexes : List Mutex
  signals : List Signal
  deriving DecidableEq, Repr

/-- The locks held after one event: a lock operation adds its mutex, an unlock
operation removes it, every other event leaves the locks as they are (a wait
on a condition variable returns with the signal mutex held, as it was
entered). -/
def heldAfterEvent (held : held_t) : Event → held_t
  | Event.mtx_Lock m => { held with mutexes := m :: held.mutexes }
  | Event.mtx_Unlock m => { held with mutexes := held.mutexes.erase m }
  | Event.sig_MutexLock sg => { held with signals := sg :: held.signals }
  | Event.sig_MutexUnlock sg => { held with signals := held.signals.erase sg }
  | _ => held

/-- The locks held after the events of a trace. -/
def heldAfter (held : held_t) : List Event → held_t
  | [] => held
  | e :: t => heldAfter (heldAfterEvent held e) t

/-- The driver calls of a trace, each with the locks that the worker holds
when it makes the call. -/
def callsWithLocks (held : held_t) : List Event → List (DriverCall × held_t)
  | [] => []
  | Event.rlink c :: t => (c, held) :: callsWithLocks held t
  | e :: t => callsWithLocks (heldAfterEvent held e) t

/-! ## Machine integers -/

/-- Conversion of an `int` to `int8_t`: reduction modulo `2^8` into
`[-128, 127]`. -/
def wrap_int8 (v : Int) : Int := (v + 128) % 256 - 128

/-! ## The raise operations -/

/-- `SignalToggleHeartbeat`. -/
def SignalToggleHeartbeat (self : main_cb_t) : main_cb_t × List Event :=
  ({ self with wheelchair := ⟨self.wheelchair.flags ||| FLAG_WHEELCHAIR_HEARTBEAT⟩ },
   [Event.sig_MutexLock Signal.wheelchair, Event.sig_CondVarSignal Signal.wheelchair,
    Event.sig_MutexUnlock Signal.wheelchair])

/-- `SignalUserWantsToQuit`. -/
def SignalUserWantsToQuit (self : main_cb_t) : main_cb_t × List Event :=
  ({ self with main := ⟨self.main.flags ||| FLAG_USER_QUIT⟩ },
   [Event.sig_MutexLock Signal.main, Event.sig_CondVarSignal Signal.main,
    Event.sig_MutexUnlock Signal.main])

/-- `SignalConsoleQuit`. -/
def SignalConsoleQuit (self : main_cb_t) : main_cb_t × List Event :=
  ({ self with console := ⟨self.console.flags ||| FLAG_CONSOLE_QUIT⟩ },
   [Event.sig_MutexLock Signal.console, Event.sig_CondVarSignal Signal.console,
    Event.sig_MutexUnlock Signal.console])

/-- `SignalWheelChairQuit`. -/
def SignalWheelChairQuit (self : main_cb_t) : main_cb_t × List Event :=
  ({ self with wheelchair := ⟨self.wheelchair.flags ||| FLAG_WHEELCHAIR_QUIT⟩ },
   [Event.sig_MutexLock Signal.wheelchair, Event.sig_CondVarSignal Signal.wheelchair,
    Event.sig_MutexUnlock Signal.wheelchair])

/-! ## `ExecuteAction` -/

/-- The bracket `msp_mtx_Lock(self->outgoing.cs); ...; msp_mtx_Unlock(...)`
around one update of the outgoing content. -/
def withOutgoing (self : main_cb_t) (f : outgoing_t → outgoing_t) :
    main_cb_t × List Event :=
  ({ self with outgoing := ⟨f self.outgoing.content⟩ },
   [Event.mtx_Lock Mutex.outgoing_cs, Event.mtx_Unlock Mutex.outgoing_cs])

/-- The statement `light[id] = !light[id]` on the outgoing content. -/
def toggleLight (id : msp_rlink_light_t) (o : outgoing_t) : outgoing_t :=
  { o with light := Function.update o.light id (!o.light id) }

/-- `ExecuteAction`: the `switch` over the action code. Each `case` label is
written as the ordinal of its enumerator, with the enumerator named beside it;
every code without a `case` (among them `ACTION_QUIT` and `ACTION_NOF`) takes
the empty `default` branch. -/
def ExecuteAction (self : main_cb_t) (action : action_t) : main_cb_t × List Event :=
  match action with
  | 0 => -- ACTION_UP
    withOutgoing self fun o =>
      if o.y < 100 then { o with y := wrap_int8 (o.y + 20) } else o
  | 1 => -- ACTION_DOWN
    withOutgoing self fun o =>
      if -100 < o.y then { o with y := wrap_int8 (o.y - 20) } else o
  | 2 => -- ACTION_LEFT
    withOutgoing self fun o =>
      if -100 < o.x then { o with x := wrap_int8 (o.x - 20) } else o
  | 3 => -- ACTION_RIGHT
    withOutgoing self fun o =>
      if o.x < 100 then { o with x := wrap_int8 (o.x + 20) } else o
  | 4 => -- ACTION_NEUTRAL
    withOutgoing self fun o => { o with x := 0, y := 0 }
  | 5 => -- ACTION_BUTTON_PRESS
    withOutgoing self fun o => { o with btn := true }
  | 6 => -- ACTION_BUTTON_RELEASE
    withOutgoing self fun o => { o with btn := false }
  | 7 => -- ACTION_TOGGLE_LIGHT_BRAKE
    withOutgoing self (toggleLight MSP_RLINK_LIGHT_BRAKE)
  | 8 => -- ACTION_TOGGLE_LIGHT_DIP
    withOutgoing self (toggleLight MSP_RLINK_LIGHT_DIP)
  | 9 => -- ACTION_TOGGLE_LIGHT_HAZARD
    withOutgoing self (toggleLight MSP_RLINK_LIGHT_HAZARD)
  | 10 => -- ACTION_TOGGLE_LIGHT_LEFT
    withOutgoing self (toggleLight MSP_RLINK_LIGHT_LEFT)
  | 11 => -- ACTION_TOGGLE_LIGHT_RIGHT
    withOutgoing self (toggleLight MSP_RLINK_LIGHT_RIGHT)
  | 12 => -- ACTION_TOGGLE_HORN
    withOutgoing self fun o => { o with horn := !o.horn }
  | 13 => -- ACTION_AXIS_0_UP
    withOutgoing self fun o => { o with axis0 := MSP_RLINK_AXIS_DIR_UP }
  | 14 => -- ACTION_AXIS_0_DOWN
    withOutgoing self fun o => { o with axis0 := MSP_RLINK_AXIS_DIR_DOWN }
  | 15 => -- ACTION_AXIS_0_STOP
    withOutgoing self fun o => { o with axis0 := MSP_RLINK_AXIS_DIR_NONE }
  | 16 => -- ACTION_TOGGLE_HB
    SignalToggleHeartbeat self
  | 17 => -- ACTION_TRIGGER_ERROR
    withOutgoing self fun o => { o with error := 0x01 }
  | 18 => -- ACTION_DUMP
    (self, [Event.mtx_Lock Mutex.incoming_cs, Event.mtx_Unlock Mutex.incoming_cs,
            Event.dump self.incoming.content])
  | _ =>
    (self, [])

/-- The control block after executing a sequence of actions, first to last. -/
def ExecuteActions (self : main_cb_t) : List action_t → main_cb_t
  | [] => self
  | a :: as => ExecuteActions (ExecuteAction self a).1 as

/-! ## `ThreadWheelchair` -/

/-- The local variables of `ThreadWheelchair` that live across iterations. -/
structure wheelchair_locals_t where
  running : Bool
  heartbeat : Bool
  previous : outgoing_t

/-- The locals on entry to the loop: `running = true`, `heartbeat = true`,
`previous` zeroed. -/
def wheelchair_locals_init : wheelchair_locals_t :=
  { running := true, heartbeat := true, previous := outgoing_zero }

/-- The `for` loop over the light ids in the timeout branch. -/
def diffLights (previous content : outgoing_t) : List Event :=
  (List.finRange 5).flatMap fun id =>
    if previous.light id ≠ content.light id then
      [Event.rlink (DriverCall.SetLight id.val (content.light id))]
    else []

/-- The `MSP_SIGS_TIMEOUT` branch: the driver calls that follow the snapshot
`content` of the outgoing state. -/
def diffOutgoing (heartbeat : Bool) (previous content : outgoing_t) : List Event :=
  (if heartbeat then [Event.rlink DriverCall.Heartbeat] else [])
  ++ (if previous.x ≠ content.x ∨ previous.y ≠ content.y then
        [Event.rlink (DriverCall.SetXy content.x content.y)] else [])
  ++ (if previous.btn ≠ content.btn then
        [Event.rlink (DriverCall.SetBtn MSP_RLINK_BTN_YT content.btn)] else [])
  ++ (if previous.horn ≠ content.horn then
        [Event.rlink (DriverCall.SetHorn content.horn)] else [])
  ++ diffLights previous content
  ++ (if previous.axis0 ≠ content.axis0 then
        [Event.rlink (DriverCall.SetAxis MSP_RLINK_AXIS_ID_0 content.axis0)] else [])
  ++ (if previous.error ≠ content.error then
        [Event.rlink (DriverCall.SetError content.error)] else [])

/-- One iteration of the `while (running)` loop of `ThreadWheelchair`, given
what `msp_sig_CondVarWaitTimed` returned. -/
def ThreadWheelchair_step (sigs : msp_sigs_t) (self : main_cb_t)
    (loc : wheelchair_locals_t) : main_cb_t × wheelchair_locals_t × List Event :=
  match sigs with
  | MSP_SIGS_OK =>
    if self.wheelchair.flags &&& FLAG_WHEELCHAIR_QUIT ≠ 0 then
      ({ self with wheelchair := ⟨self.wheelchair.flags ^^^ FLAG_WHEELCHAIR_QUIT⟩ },
       { loc with running := false }, [])
    else if self.wheelchair.flags &&& FLAG_WHEELCHAIR_HEARTBEAT ≠ 0 then
      ({ self with wheelchair := ⟨self.wheelchair.flags ^^^ FLAG_WHEELCHAIR_HEARTBEAT⟩ },
       { loc with heartbeat := !loc.heartbeat }, [])
    else
      (self, loc, [])
  | MSP_SIGS_TIMEOUT =>
    let content := self.outgoing.content
    (self, { loc with previous := content },
     [Event.mtx_Lock Mutex.outgoing_cs, Event.mtx_Unlock Mutex.outgoing_cs]
       ++ diffOutgoing loc.heartbeat loc.previous content)
  | MSP_SIGS_FAILED _ =>
    (self, { loc with running := false }, [])

/-! ## `ThreadMain` -/

/-- What a getter of the driver leaves behind: its return code and the
contents of its out-parameters after the call. The driver is external; when a
call fails the contents are whatever the memory then holds. -/
structure reply_t (α : Type) where
  status : msp_status_t
  out : α

/-- The six out-parameters of `msp_rlink_GetHms`. -/
structure hms_out_t where
  inputProcess : Nat
  interProcess : Nat
  outputProcess : Nat
  selInput : Bool
  selInter : Bool
  selOutput : Bool
  deriving DecidableEq, Repr

/-- The answers of the driver to the calls of one iteration of `ThreadMain`. -/
structure rlink_replies_t where
  GetStatus : reply_t Nat
  GetDevStatus : reply_t incoming_status_t
  GetMode : reply_t Nat
  GetProfile : reply_t Nat
  GetHms : reply_t hms_out_t
  GetHorn : reply_t Bool
  GetBatteryInfo : reply_t incoming_battery_t
  GetVelocity : reply_t incoming_velocity_t
  GetSpeed : reply_t incoming_speed_t
  GetLight : msp_rlink_light_t → reply_t incoming_light_t

/-- The local `incoming_t content` of the data-ready branch after all getters
have been called: every field is an out-parameter of exactly one getter. -/
def stageIncoming (drv : rlink_replies_t) : incoming_t :=
  { status := drv.GetDevStatus.out
    hms :=
      { mode := drv.GetMode.out
        profile := drv.GetProfile.out
        inputProcess := drv.GetHms.out.inputProcess
        interProcess := drv.GetHms.out.interProcess
        outputProcess := drv.GetHms.out.outputProcess
        selInput := drv.GetHms.out.selInput
        selInter := drv.GetHms.out.selInter
        selOutput := drv.GetHms.out.selOutput }
    horn := drv.GetHorn.out
    battery := drv.GetBatteryInfo.out
    velocity := drv.GetVelocity.out
    speed := drv.GetSpeed.out
    light := fun id => (drv.GetLight id).out }

/-- The getter calls of the data-ready branch, in program order. -/
def fetchCalls : List Event :=
  [Event.rlink DriverCall.GetDevStatus, Event.rlink DriverCall.GetMode,
   Event.rlink DriverCall.GetProfile, Event.rlink DriverCall.GetHms,
   Event.rlink DriverCall.GetHorn, Event.rlink DriverCall.GetBatteryInfo,
   Event.rlink DriverCall.GetVelocity, Event.rlink DriverCall.GetSpeed]
  ++ (List.finRange 5).map fun id => Event.rlink (DriverCall.GetLight id.val)

/-- The cascade `SignalWheelChairQuit(self); SignalConsoleQuit(self);` of the
error and disconnected branches. -/
def cascadeQuit (self : main_cb_t) : main_cb_t × List Event :=
  let w := SignalWheelChairQuit self
  let c := SignalConsoleQuit w.1
  (c.1, w.2 ++ c.2)

/-- One iteration of the `while (running)` loop of `ThreadMain`, given what
`msp_sig_CondVarWait` returned and what the driver answers; the second
component is the new value of `running`. -/
def ThreadMain_step (sigs : msp_sigs_t) (drv : rlink_replies_t) (self : main_cb_t) :
    main_cb_t × Bool × List Event :=
  match sigs with
  | MSP_SIGS_OK =>
    if self.main.flags &&& FLAG_USER_QUIT ≠ 0 then
      let w := SignalWheelChairQuit
        { self with main := ⟨self.main.flags ^^^ FLAG_USER_QUIT⟩ }
      (w.1, false, w.2)
    else if drv.GetStatus.status = MSP_OK then
      let flags := drv.GetStatus.out
      if flags &&& MSP_RLINK_EV_ERROR ≠ 0 then
        let q := cascadeQuit self
        (q.1, false, Event.rlink DriverCall.GetStatus :: q.2)
      else if flags &&& MSP_RLINK_EV_DISCONNECTED ≠ 0 then
        let q := cascadeQuit self
        (q.1, false, Event.rlink DriverCall.GetStatus :: q.2)
      else if flags &&& MSP_RLINK_EV_DATA_READY ≠ 0 then
        ({ self with incoming := ⟨stageIncoming drv⟩ }, true,
         Event.rlink DriverCall.GetStatus :: fetchCalls
           ++ [Event.mtx_Lock Mutex.incoming_cs, Event.mtx_Unlock Mutex.incoming_cs])
      else
        (self, true, [Event.rlink DriverCall.GetStatus])
    else
      (self, true, [Event.rlink DriverCall.GetStatus])
  | _ =>
    (self, false, [])

/-! ## Console toggles interleaved with wake-ups of the wheelchair worker -/

/-- A move of the interleaving: the console executes `ACTION_TOGGLE_HB`, or the
wheelchair worker is woken with `MSP_SIGS_OK`. -/
inductive hb_move_t where
  | toggle
  | wake
  deriving DecidableEq, Repr

/-- Run an interleaving; a worker whose loop has ended is not woken any more. -/
def hb_run (self : main_cb_t) (loc : wheelchair_locals_t) :
    List hb_move_t → main_cb_t × wheelchair_locals_t
  | [] => (self, loc)
  | hb_move_t.toggle :: t => hb_run (ExecuteAction self ACTION_TOGGLE_HB).1 loc t
  | hb_move_t.wake :: t =>
    if loc.running then
      let r := ThreadWheelchair_step MSP_SIGS_OK self loc
      hb_run r.1 r.2.1 t
    else
      hb_run self loc t

/-- Every toggle of the interleaving is raised while no heartbeat flag is
pending, that is, each one is consumed by a wake-up before the next is
raised. -/
def togglesConsumed (pending : Bool) : List hb_move_t → Bool
  | [] => true
  | hb_move_t.toggle :: t => !pending && togglesConsumed true t
  | hb_move_t.wake :: t => togglesConsumed false t

/-! ## `StrToAction` -/

/-- Conversion of a `long` to `int`: reduction modulo `2^32` into
`[-2^31, 2^31 - 1]`. -/
def wrap_int32 (v : Int) : Int := (v + 2147483648) % 4294967296 - 2147483648

/-- The bounds of `long`, taken to be 64 bits wide. -/
def LONG_MAX : Int := 9223372036854775807
def LONG_MIN : Int := -9223372036854775808

/-- The C library's `isspace` in the "C" locale, on a byte. -/
def isspace (c : Nat) : Bool := c == 32 || (9 ≤ c && c ≤ 13)

/-- The C library's `isdigit`, on a byte. -/
def isdigit (c : Nat) : Bool := 48 ≤ c && c ≤ 57

/-- The run of decimal digits at the head of a string: the number they denote
(continuing from `acc`) and how many they are (continuing from `n`). -/
def strtol_digits : List Nat → Nat → Nat → Nat × Nat
  | [], acc, n => (acc, n)
  | c :: t, acc, n =>
    if isdigit c then strtol_digits t (acc * 10 + (c - 48)) (n + 1) else (acc, n)

/-- The C library's `strtol(str, &end, 10)` on a NUL-free byte string: white
space is skipped, then an optional sign, then decimal digits. The result is the
value, clamped to the range of `long`, and the distance `end - str`; when there
is no digit the value is 0 and `end == str`. -/
def strtol (str : List Nat) : Int × Nat :=
  let rest := str.dropWhile isspace
  let spaces := str.length - rest.length
  let negative := rest.head? == some 45
  let signed := rest.head? == some 45 || rest.head? == some 43
  let d := strtol_digits (if signed then rest.drop 1 else rest) 0 0
  if d.2 = 0 then (0, 0)
  else
    let v : Int := if negative then -(d.1 : Int) else (d.1 : Int)
    (max LONG_MIN (min LONG_MAX v), spaces + (if signed then 1 else 0) + d.2)

/-- `StrToAction`: `int value = strtol(start, &end, 10)`, then the test
`(start == end) && (value >= ACTION_NOF)`. -/
def StrToAction (str : List Nat) : action_t :=
  let r := strtol str
  let value := wrap_int32 r.1
  if r.2 = 0 ∧ value ≥ ACTION_NOF then ACTION_NOF else value

/-! ## `ThreadConsole` -/

/-- The local variables of `ThreadConsole` that live across iterations; `bfr`
holds the `CONSOLE_BFR_SIZE` bytes of the line buffer. -/
structure console_locals_t where
  running : Bool
  bfr : List Nat
  cnt : Nat

/-- The locals on entry to the loop: `running = true`, `cnt = 0`, `bfr`
zeroed. -/
def console_locals_init : console_locals_t :=
  { running := true, bfr := List.replicate CONSOLE_BFR_SIZE 0, cnt := 0 }

/-- The string that a `char*` to the start of the buffer denotes: the bytes up
to the first NUL. -/
def c_str (bfr : List Nat) : List Nat := bfr.takeWhile (fun c => c != 0)

/-- The byte that the conversion of an `int` to `char` stores. -/
def to_char (ch : Int) : Nat := (ch % 256).toNat

/-- One iteration of the `while (running)` loop of `ThreadConsole`, given what
`msp_sig_CondVarWaitTimed` returned and, for the timeout branch, the key that
`_kbhit()` and `_getch()` deliver (`none` when no key is pending). A store at
an index outside the buffer is recorded in the trace and leaves the modelled
buffer as it is. -/
def ThreadConsole_step (sigs : msp_sigs_t) (key : Option Int) (self : main_cb_t)
    (loc : console_locals_t) : main_cb_t × console_locals_t × List Event :=
  match sigs with
  | MSP_SIGS_OK =>
    if self.console.flags &&& FLAG_CONSOLE_QUIT ≠ 0 then
      ({ self with console := ⟨self.console.flags ^^^ FLAG_CONSOLE_QUIT⟩ },
       { loc with running := false }, [])
    else
      (self, loc, [])
  | MSP_SIGS_TIMEOUT =>
    match key with
    | none => (self, loc, [])
    | some ch =>
      if ch = 13 ∨ ch = 10 then
        let action := StrToAction (c_str (loc.bfr.set loc.cnt 0))
        let reset : console_locals_t :=
          { loc with cnt := 0, bfr := List.replicate CONSOLE_BFR_SIZE 0 }
        let head := [Event.console ConsoleText.newline, Event.bfr_store loc.cnt]
        if action = ACTION_NOF then
          (self, reset,
           head ++ [Event.console ConsoleText.invalid_input,
                    Event.console ConsoleText.actions])
        else if action = ACTION_QUIT then
          let q := SignalUserWantsToQuit self
          (q.1, { reset with running := false }, head ++ q.2)
        else
          let e := ExecuteAction self action
          (e.1, reset, head ++ e.2 ++ [Event.console ConsoleText.actions])
      else if loc.cnt < CONSOLE_BFR_SIZE then
        (self, { loc with bfr := loc.bfr.set loc.cnt (to_char ch), cnt := loc.cnt + 1 },
         [Event.console (ConsoleText.echo ch), Event.bfr_store loc.cnt])
      else
        (self, { loc with bfr := loc.bfr.set loc.cnt (to_char ch) },
         [Event.console (ConsoleText.echo ch), Event.bfr_store loc.cnt])
  | MSP_SIGS_FAILED _ =>
    (self, { loc with running := false }, [])

/-! ## Whole runs of the two spawned workers -/

/-- One wake of a worker: what the other threads did to the control block
while the worker was blocked in its wait, what the wait returned, and (for the
console) the pending key. -/
structure wake_t where
  env : main_cb_t → main_cb_t
  sigs : msp_sigs_t
  key : Option Int

/-- The `while (running)` loop of `ThreadWheelchair` over the given wakes. It
ends when `running` is false; when the wakes are used up first, the worker is
still in its loop. -/
def ThreadWheelchair_loop (self : main_cb_t) (loc : wheelchair_locals_t) :
    List wake_t → main_cb_t × wheelchair_locals_t × List Event
  | [] => (self, loc, [])
  | w :: rest =>
    if loc.running then
      let r := ThreadWheelchair_step w.sigs (w.env self) loc
      let t := ThreadWheelchair_loop r.1 r.2.1 rest
      (t.1, t.2.1, Event.sig_CondVarWaitTimed Signal.wheelchair 40 :: r.2.2 ++ t.2.2)
    else
      (self, loc, [])

/-- `ThreadWheelchair` from entry: the post of `started`, the lock, the loop,
and, once the loop has ended, the unlock and the post of `stopped`. -/
def ThreadWheelchair (self : main_cb_t) (wakes : List wake_t) :
    main_cb_t × wheelchair_locals_t × List Event :=
  let t := ThreadWheelchair_loop self wheelchair_locals_init wakes
  (t.1, t.2.1,
   [Event.sem_Post Gate.wheelchair_started, Event.sig_MutexLock Signal.wheelchair]
     ++ t.2.2
     ++ (if t.2.1.running then []
         else [Event.sig_MutexUnlock Signal.wheelchair,
               Event.sem_Post Gate.wheelchair_stopped]))

/-- The `while (running)` loop of `ThreadConsole` over the given wakes. -/
def ThreadConsole_loop (self : main_cb_t) (loc : console_locals_t) :
    List wake_t → main_cb_t × console_locals_t × List Event
  | [] => (self, loc, [])
  | w :: rest =>
    if loc.running then
      let r := ThreadConsole_step w.sigs w.key (w.env self) loc
      let t := ThreadConsole_loop r.1 r.2.1 rest
      (t.1, t.2.1, Event.sig_CondVarWaitTimed Signal.console 10 :: r.2.2 ++ t.2.2)
    else
      (self, loc, [])

/-- `ThreadConsole` from entry: the post of `started`, the lock, the first
`PrintActions()`, the loop, and, once the loop has ended, the unlock and the
post of `stopped`. (The call `set_conio_terminal_mode()`, compiled on Linux
only, configures the terminal and is not traced.) -/
def ThreadConsole (self : main_cb_t) (wakes : List wake_t) :
    main_cb_t × console_locals_t × List Event :=
  let t := ThreadConsole_loop self console_locals_init wakes
  (t.1, t.2.1,
   [Event.sem_Post Gate.console_started, Event.sig_MutexLock Signal.console,
    Event.console ConsoleText.actions]
     ++ t.2.2
     ++ (if t.2.1.running then []
         else [Event.sig_MutexUnlock Signal.console,
               Event.sem_Post Gate.console_stopped]))

/-- One wake of the main loop: what the other threads did to the control
block while it was blocked in its wait, what the wait returned, and what the
driver answers to the calls of the iteration. -/
structure main_wake_t where
  env : main_cb_t → main_cb_t
  sigs : msp_sigs_t
  drv : rlink_replies_t

/-- The `while (running)` loop of `ThreadMain` over the given wakes, entered
with the given value of `running`. -/
def ThreadMain_loop (self : main_cb_t) (running : Bool) :
    List main_wake_t → main_cb_t × Bool × List Event
  | [] => (self, running, [])
  | w :: rest =>
    if running then
      let r := ThreadMain_step w.sigs w.drv (w.env self)
      let t := ThreadMain_loop r.1 r.2.1 rest
      (t.1, t.2.1, Event.sig_CondVarWait Signal.main :: r.2.2 ++ t.2.2)
    else
      (self, running, [])

/-- `ThreadMain` from entry: the lock, the loop, and, once the loop has ended,
the unlock. -/
def ThreadMain (self : main_cb_t) (wakes : List main_wake_t) :
    main_cb_t × Bool × List Event :=
  let t := ThreadMain_loop self true wakes
  (t.1, t.2.1,
   [Event.sig_MutexLock Signal.main]
     ++ t.2.2
     ++ (if t.2.1 then [] else [Event.sig_MutexUnlock Signal.main]))

/-! ## The timeout branch of `ThreadWheelchair` with the driver's return codes -/

/-- A driver call paired with the return code that the driver gives to it. -/
def rlink_call (rc : DriverCall → msp_status_t) (c : DriverCall) :
    DriverCall × msp_status_t :=
  (c, rc c)

/-- The `for` loop over the light ids, with return codes. -/
def diffLights_rc (rc : DriverCall → msp_status_t) (previous content : outgoing_t) :
    List (DriverCall × msp_status_t) :=
  (List.finRange 5).flatMap fun id =>
    if previous.light id ≠ content.light id then
      [rlink_call rc (DriverCall.SetLight id.val (content.light id))]
    else []

/-- The driver calls of the `MSP_SIGS_TIMEOUT` branch, each with the code it
returns. Every call is an expression statement: no return code is stored or
tested. -/
def diffOutgoing_rc (rc : DriverCall → msp_status_t) (heartbeat : Bool)
    (previous content : outgoing_t) : List (DriverCall × msp_status_t) :=
  (if heartbeat then [rlink_call rc DriverCall.Heartbeat] else [])
  ++ (if previous.x ≠ content.x ∨ previous.y ≠ content.y then
        [rlink_call rc (DriverCall.SetXy content.x content.y)] else [])
  ++ (if previous.btn ≠ content.btn then
        [rlink_call rc (DriverCall.SetBtn MSP_RLINK_BTN_YT content.btn)] else [])
  ++ (if previous.horn ≠ content.horn then
        [rlink_call rc (DriverCall.SetHorn content.horn)] else [])
  ++ diffLights_rc rc previous content
  ++ (if previous.axis0 ≠ content.axis0 then
        [rlink_call rc (DriverCall.SetAxis MSP_RLINK_AXIS_ID_0 content.axis0)] else [])
  ++ (if previous.error ≠ content.error then
        [rlink_call rc (DriverCall.SetError content.error)] else [])

/-- The `MSP_SIGS_TIMEOUT` iteration of `ThreadWheelchair` against a driver
that answers the call `c` with the code `rc c`: the control block, the locals,
and the calls made with the codes returned. -/
def ThreadWheelchair_poll_rc (rc : DriverCall → msp_status_t) (self : main_cb_t)
    (loc : wheelchair_locals_t) :
    main_cb_t × wheelchair_locals_t × List (DriverCall × msp_status_t) :=
  let content := self.outgoing.content
  (self, { loc with previous := content },
   diffOutgoing_rc rc loc.heartbeat loc.previous content)

/-! ## The publish of `ThreadMain` against the snapshot of `ACTION_DUMP` -/

/-- The two threads that access `incoming.content`: the main loop, which
publishes, and the console worker, whose dump action takes a snapshot. -/
inductive Party where
  | main
  | console
  deriving DecidableEq, Repr

/-- The number of scalar cells of an `incoming_t`: 3 of `status`, 8 of `hms`,
`horn`, 3 of `battery`, 3 of `velocity`, 3 of `speed`, and 2 for each of the 5
lights. -/
def INCOMING_CELLS : Nat := 31

/-- The cell `active` of the light `k` copied from `src` into `dst`. -/
def copyLightActive (k : msp_rlink_light_t) (src dst : incoming_t) : incoming_t :=
  { dst with
    light := Function.update dst.light k ⟨(src.light k).active, (dst.light k).lit⟩ }

/-- The cell `lit` of the light `k` copied from `src` into `dst`. -/
def copyLightLit (k : msp_rlink_light_t) (src dst : incoming_t) : incoming_t :=
  { dst with
    light := Function.update dst.light k ⟨(dst.light k).active, (src.light k).lit⟩ }

/-- One step of `memcpy(&dst, &src, sizeof(incoming_t))`: the cell number `i`
is copied from `src` into `dst`. -/
def memcpy_cell (i : Nat) (src dst : incoming_t) : incoming_t :=
  match i with
  | 0 => { dst with status := { dst.status with oon := src.status.oon } }
  | 1 => { dst with status := { dst.status with status := src.status.status } }
  | 2 => { dst with status := { dst.status with warning := src.status.warning } }
  | 3 => { dst with hms := { dst.hms with mode := src.hms.mode } }
  | 4 => { dst with hms := { dst.hms with profile := src.hms.profile } }
  | 5 => { dst with hms := { dst.hms with inputProcess := src.hms.inputProcess } }
  | 6 => { dst with hms := { dst.hms with interProcess := src.hms.interProcess } }
  | 7 => { dst with hms := { dst.hms with outputProcess := src.hms.outputProcess } }
  | 8 => { dst with hms := { dst.hms with selInput := src.hms.selInput } }
  | 9 => { dst with hms := { dst.hms with selInter := src.hms.selInter } }
  | 10 => { dst with hms := { dst.hms with selOutput := src.hms.selOutput } }
  | 11 => { dst with horn := src.horn }
  | 12 => { dst with battery := { dst.battery with low := src.battery.low } }
  | 13 => { dst with battery := { dst.battery with gauge := src.battery.gauge } }
  | 14 => { dst with battery := { dst.battery with current := src.battery.current } }
  | 15 => { dst with velocity := { dst.velocity with m1Vel := src.velocity.m1Vel } }
  | 16 => { dst with velocity := { dst.velocity with m2Vel := src.velocity.m2Vel } }
  | 17 => { dst with velocity := { dst.velocity with turnVel := src.velocity.turnVel } }
  | 18 => { dst with speed := { dst.speed with speed := src.speed.speed } }
  | 19 => { dst with speed := { dst.speed with trueSpeed := src.speed.trueSpeed } }
  | 20 => { dst with speed :=
              { dst.speed with speedLimitApplied := src.speed.speedLimitApplied } }
  | 21 => copyLightActive 0 src dst
  | 22 => copyLightLit 0 src dst
  | 23 => copyLightActive 1 src dst
  | 24 => copyLightLit 1 src dst
  | 25 => copyLightActive 2 src dst
  | 26 => copyLightLit 2 src dst
  | 27 => copyLightActive 3 src dst
  | 28 => copyLightLit 3 src dst
  | 29 => copyLightActive 4 src dst
  | 30 => copyLightLit 4 src dst
  | _ => dst

/-- What `memcpy` has made of `dst` when the cells below `n` have been
copied. -/
def memcpy_upto : Nat → incoming_t → incoming_t → incoming_t
  | 0, _, dst => dst
  | n + 1, src, dst => memcpy_cell n src (memcpy_upto n src dst)

/-- Where a party stands in its critical section: outside it, or inside it
(holding `incoming.cs`) with the cells below `i` copied. -/
inductive copy_phase_t where
  | idle
  | copying (i : Nat)
  deriving DecidableEq, Repr

/-- The state of the two parties around `incoming.content`. -/
structure incoming_race_t where
  /-- The shared struct `self->incoming.content`. -/
  shared : incoming_t
  /-- The owner of `incoming.cs`, if it is locked. -/
  cs : Option Party
  /-- The position of the main loop in `Lock; memcpy; Unlock`. -/
  main_phase : copy_phase_t
  /-- The local `content` of the publish cycles still to come, the current
  one first. -/
  staged : List incoming_t
  /-- The position of the console in `Lock; memcpy; Unlock` of the dump. -/
  console_phase : copy_phase_t
  /-- The local `content` of the dump. -/
  content : incoming_t
  /-- The snapshots that completed dumps have taken, latest first. -/
  snapshots : List incoming_t

/-- Modelled from the spec: `msp_mtx_Lock` and `msp_mtx_Unlock` are declared in
`msp_core.h`, which is not among the sources; a thread that locks a mutex held
by another thread does not proceed until it is unlocked.

One step of the party `p`. The main loop locks `incoming.cs`, copies its
staged struct into the shared one cell by cell, and unlocks; the dump locks,
copies the shared struct into its local one cell by cell, and unlocks, which
completes a snapshot. A party that finds the mutex locked, and a main loop
with no publish cycle left, stays where it is. -/
def race_step (p : Party) (st : incoming_race_t) : incoming_race_t :=
  match p with
  | Party.main =>
    match st.main_phase, st.staged with
    | _, [] => st
    | copy_phase_t.idle, _ :: _ =>
      if st.cs = none then
        { st with cs := some Party.main, main_phase := copy_phase_t.copying 0 }
      else st
    | copy_phase_t.copying i, s :: rest =>
      if i < INCOMING_CELLS then
        { st with shared := memcpy_cell i s st.shared,
                  main_phase := copy_phase_t.copying (i + 1) }
      else
        { st with cs := none, main_phase := copy_phase_t.idle, staged := rest }
  | Party.console =>
    match st.console_phase with
    | copy_phase_t.idle =>
      if st.cs = none then
        { st with cs := some Party.console, console_phase := copy_phase_t.copying 0 }
      else st
    | copy_phase_t.copying i =>
      if i < INCOMING_CELLS then
        { st with content := memcpy_cell i st.shared st.content,
                  console_phase := copy_phase_t.copying (i + 1) }
      else
        { st with cs := none, console_phase := copy_phase_t.idle,
                  snapshots := st.content :: st.snapshots }

/-- The state after the steps of a schedule, first to last. -/
def race_run (st : incoming_race_t) : List Party → incoming_race_t
  | [] => st
  | p :: sched => race_run (race_step p st) sched

/-- The start: `incoming.content` zeroed by `Connect`, the mutex free, the
given structs staged by the publish cycles to come, and an arbitrary local
`content` of the dump. -/
def race_init (staged : List incoming_t) (garbage : incoming_t) : incoming_race_t :=
  { shared := incoming_zero
    cs := none
    main_phase := copy_phase_t.idle
    staged := staged
    console_phase := copy_phase_t.idle
    content := garbage
    snapshots := [] }

/-- The invariant of the race: either both parties are outside their critical
sections, the mutex is free and the shared struct is a published one; or the
main loop is inside, alone, with the cells below `i` of the shared struct
taken from the struct it is publishing; or the dump is inside, alone, the
shared struct is a published one and the cells below `i` of the local struct
are taken from it. Staged structs and snapshots are published ones. -/
def race_inv (published : List incoming_t) (st : incoming_race_t) : Prop :=
  (∀ s ∈ st.staged, s ∈ published)
  ∧ (∀ s ∈ st.snapshots, s ∈ published)
  ∧ ((st.main_phase = copy_phase_t.idle ∧ st.console_phase = copy_phase_t.idle
        ∧ st.cs = none ∧ st.shared ∈ published)
     ∨ (∃ i s rest m0, st.main_phase = copy_phase_t.copying i
        ∧ st.console_phase = copy_phase_t.idle ∧ st.cs = some Party.main
        ∧ st.staged = s :: rest ∧ i ≤ INCOMING_CELLS ∧ st.shared = memcpy_upto i s m0)
     ∨ (∃ i c0, st.main_phase = copy_phase_t.idle
        ∧ st.console_phase = copy_phase_t.copying i ∧ st.cs = some Party.console
        ∧ st.shared ∈ published ∧ i ≤ INCOMING_CELLS
        ∧ st.content = memcpy_upto i st.shared c0))

/-! ## Predicates and sample inputs used by the theorems -/

/-- Both coordinates of the outgoing state are multiples of 20 in
`[-100, 100]`. -/
def onGrid (self : main_cb_t) : Prop :=
  (-100 ≤ self.outgoing.content.x ∧ self.outgoing.content.x ≤ 100
      ∧ 20 ∣ self.outgoing.content.x)
  ∧ (-100 ≤ self.outgoing.content.y ∧ self.outgoing.content.y ≤ 100
      ∧ 20 ∣ self.outgoing.content.y)

/-- The outgoing state `{x:20, y:40, horn:true}`, everything else zero. -/
def scenario_outgoing : outgoing_t :=
  { x := 20
    y := 40
    btn := false
    light := fun _ => false
    horn := true
    axis0 := MSP_RLINK_AXIS_DIR_NONE
    error := 0 }

/-- A driver whose every call succeeds, reports the event mask `events` and
returns zeroed telemetry. -/
def rlink_replies_sample (events : Nat) : rlink_replies_t :=
  { GetStatus := ⟨MSP_OK, events⟩
    GetDevStatus := ⟨MSP_OK, ⟨false, 0, 0⟩⟩
    GetMode := ⟨MSP_OK, 0⟩
    GetProfile := ⟨MSP_OK, 0⟩
    GetHms := ⟨MSP_OK, ⟨0, 0, 0, false, false, false⟩⟩
    GetHorn := ⟨MSP_OK, false⟩
    GetBatteryInfo := ⟨MSP_OK, ⟨false, 0, 0⟩⟩
    GetVelocity := ⟨MSP_OK, ⟨0, 0, 0⟩⟩
    GetSpeed := ⟨MSP_OK, ⟨0, 0, 0⟩⟩
    GetLight := fun _ => ⟨MSP_OK, ⟨false, false⟩⟩ }

/-- The control block of `Connect` with the given three flag masks. -/
def cb_with_flags (m w c : Nat) : main_cb_t :=
  { Connect_init with main := ⟨m⟩, wheelchair := ⟨w⟩, console := ⟨c⟩ }

/-- A driver that reports data-ready and whose getters for the mode, the
battery and the hazard light fail (return code 2, `MSP_TIMEOUT`), while the
others succeed. -/
def rlink_replies_partial : rlink_replies_t :=
  { GetStatus := ⟨MSP_OK, MSP_RLINK_EV_DATA_READY⟩
    GetDevStatus := ⟨MSP_OK, ⟨true, 5, 1⟩⟩
    GetMode := ⟨2, 77⟩
    GetProfile := ⟨MSP_OK, 3⟩
    GetHms := ⟨MSP_OK, ⟨1, 2, 4, true, false, true⟩⟩
    GetHorn := ⟨MSP_OK, true⟩
    GetBatteryInfo := ⟨2, ⟨false, 0, 0⟩⟩
    GetVelocity := ⟨MSP_OK, ⟨10, 11, 12⟩⟩
    GetSpeed := ⟨MSP_OK, ⟨6, 7, 1⟩⟩
    GetLight := fun id => if id = MSP_RLINK_LIGHT_HAZARD then ⟨2, ⟨false, false⟩⟩
                          else ⟨MSP_OK, ⟨true, false⟩⟩ }

/-- The console output of a trace, in order. -/
def consoleTexts : List Event → List ConsoleText
  | [] => []
  | Event.console t :: r => t :: consoleTexts r
  | _ :: r => consoleTexts r

/-- A timeout wake of the console worker with the key `ch` pending and no
interference from the other threads. -/
def keyWake (ch : Int) : wake_t := ⟨id, MSP_SIGS_TIMEOUT, some ch⟩

/-- The wakes of typing the bytes of `line` and then the return key. -/
def typeLine (line : List Nat) : List wake_t :=
  line.map (fun c => keyWake (c : Int)) ++ [keyWake 13]

/-- The decimal digits of `n` as bytes, most significant first (`fuel` bounds
the number of digits). -/
def decimalAux : Nat → Nat → List Nat → List Nat
  | 0, _, acc => acc
  | fuel + 1, n, acc =>
    if n < 10 then (48 + n) :: acc
    else decimalAux fuel (n / 10) ((48 + n % 10) :: acc)

/-- The decimal digits of `n` as bytes. -/
def decimal (n : Nat) : List Nat := decimalAux (n + 1) n []

/-- The initial control block with the outgoing position set to `(x, y)`. -/
def cb_with_xy (x y : Int) : main_cb_t :=
  { Connect_init with outgoing := ⟨{ outgoing_zero with x := x, y := y }⟩ }

/-- The indices of the stores into the line buffer recorded in a trace, in
order. -/
def bfrStores : List Event → List Nat
  | [] => []
  | Event.bfr_store i :: t => i :: bfrStores t
  | _ :: t => bfrStores t

/-- All driver calls of the trace `t` are made with exactly the locks `h`
held, and `h` is what is held after `t`. -/
def callsUnder (h : held_t) (t : List Event) : Prop :=
  callsWithLocks h t = (driverCalls t).map (fun c => (c, h)) ∧ heldAfter h t = h

/-! ## Auxiliary lemmas -/

theorem driverCalls_append (a b : List Event) :
    driverCalls (a ++ b) = driverCalls a ++ driverCalls b := by
  induction a with
  | nil => rfl
  | cons e t ih => cases e <;> simp [driverCalls, ih]

theorem finRange_five : List.finRange 5 = [0, 1, 2, 3, 4] := by
  decide

theorem driverCalls_diffOutgoing (hb : Bool) (p c : outgoing_t) :
    driverCalls (diffOutgoing hb p c) =
      (if hb then [DriverCall.Heartbeat] else [])
      ++ (if p.x ≠ c.x ∨ p.y ≠ c.y then [DriverCall.SetXy c.x c.y] else [])
      ++ (if p.btn ≠ c.btn then [DriverCall.SetBtn MSP_RLINK_BTN_YT c.btn] else [])
      ++ (if p.horn ≠ c.horn then [DriverCall.SetHorn c.horn] else [])
      ++ (if p.light 0 ≠ c.light 0 then [DriverCall.SetLight 0 (c.light 0)] else [])
      ++ (if p.light 1 ≠ c.light 1 then [DriverCall.SetLight 1 (c.light 1)] else [])
      ++ (if p.light 2 ≠ c.light 2 then [DriverCall.SetLight 2 (c.light 2)] else [])
      ++ (if p.light 3 ≠ c.light 3 then [DriverCall.SetLight 3 (c.light 3)] else [])
      ++ (if p.light 4 ≠ c.light 4 then [DriverCall.SetLight 4 (c.light 4)] else [])
      ++ (if p.axis0 ≠ c.axis0 then [DriverCall.SetAxis MSP_RLINK_AXIS_ID_0 c.axis0] else [])
      ++ (if p.error ≠ c.error then [DriverCall.SetError c.error] else []) := by
  simp only [diffOutgoing, diffLights, finRange_five, driverCalls_append, List.flatMap_cons,
    List.flatMap_nil, List.append_nil, apply_ite driverCalls, driverCalls, List.append_assoc]
  rfl

theorem driverCalls_timeout (self : main_cb_t) (loc : wheelchair_locals_t) :
    driverCalls (ThreadWheelchair_step MSP_SIGS_TIMEOUT self loc).2.2
      = driverCalls (diffOutgoing loc.heartbeat loc.previous self.outgoing.content) := by
  simp [ThreadWheelchair_step, driverCalls_append, driverCalls]

theorem count_Heartbeat (hb : Bool) (p c : outgoing_t) :
    (driverCalls (diffOutgoing hb p c)).count DriverCall.Heartbeat
      = if hb then 1 else 0 := by
  rw [driverCalls_diffOutgoing]
  simp only [List.count_append, apply_ite (List.count DriverCall.Heartbeat)]
  simp

theorem count_SetXy (hb : Bool) (p c : outgoing_t) (x y : Int) :
    (driverCalls (diffOutgoing hb p c)).count (DriverCall.SetXy x y)
      = if (p.x ≠ c.x ∨ p.y ≠ c.y) ∧ x = c.x ∧ y = c.y then 1 else 0 := by
  rw [driverCalls_diffOutgoing]
  simp only [List.count_append, apply_ite (List.count (DriverCall.SetXy x y))]
  simp [List.count_cons]
  split_ifs <;> first | rfl | (exfalso; simp_all)

theorem count_SetBtn (hb : Bool) (p c : outgoing_t) (id : Nat) (v : Bool) :
    (driverCalls (diffOutgoing hb p c)).count (DriverCall.SetBtn id v)
      = if p.btn ≠ c.btn ∧ id = MSP_RLINK_BTN_YT ∧ v = c.btn then 1 else 0 := by
  rw [driverCalls_diffOutgoing]
  simp only [List.count_append, apply_ite (List.count (DriverCall.SetBtn id v))]
  simp [List.count_cons]
  split_ifs <;> first | rfl | (exfalso; simp_all)

theorem count_SetHorn (hb : Bool) (p c : outgoing_t) (v : Bool) :
    (driverCalls (diffOutgoing hb p c)).count (DriverCall.SetHorn v)
      = if p.horn ≠ c.horn ∧ v = c.horn then 1 else 0 := by
  rw [driverCalls_diffOutgoing]
  simp only [List.count_append, apply_ite (List.count (DriverCall.SetHorn v))]
  simp [List.count_cons]
  split_ifs <;> first | rfl | (exfalso; simp_all)

theorem count_SetLight (hb : Bool) (p c : outgoing_t) (id : msp_rlink_light_t) (v : Bool) :
    (driverCalls (diffOutgoing hb p c)).count (DriverCall.SetLight id.val v)
      = if p.light id ≠ c.light id ∧ v = c.light id then 1 else 0 := by
  rw [driverCalls_diffOutgoing]
  simp only [List.count_append, apply_ite (List.count (DriverCall.SetLight id.val v))]
  fin_cases id <;> simp [List.count_cons] <;>
    split_ifs <;> first | rfl | (exfalso; simp_all)

theorem count_SetLight_out_of_range (hb : Bool) (p c : outgoing_t) (n : Nat) (v : Bool) :
    (driverCalls (diffOutgoing hb p c)).count (DriverCall.SetLight (n + 5) v) = 0 := by
  rw [driverCalls_diffOutgoing]
  simp only [List.count_append, apply_ite (List.count (DriverCall.SetLight (n + 5) v))]
  simp [List.count_cons]

theorem count_SetAxis (hb : Bool) (p c : outgoing_t) (id : Nat) (d : msp_rlink_axis_dir_t) :
    (driverCalls (diffOutgoing hb p c)).count (DriverCall.SetAxis id d)
      = if p.axis0 ≠ c.axis0 ∧ id = MSP_RLINK_AXIS_ID_0 ∧ d = c.axis0 then 1 else 0 := by
  rw [driverCalls_diffOutgoing]
  simp only [List.count_append, apply_ite (List.count (DriverCall.SetAxis id d))]
  simp [List.count_cons]
  split_ifs <;> first | rfl | (exfalso; simp_all)

theorem count_SetError (hb : Bool) (p c : outgoing_t) (e : Nat) :
    (driverCalls (diffOutgoing hb p c)).count (DriverCall.SetError e)
      = if p.error ≠ c.error ∧ e = c.error then 1 else 0 := by
  rw [driverCalls_diffOutgoing]
  simp only [List.count_append, apply_ite (List.count (DriverCall.SetError e))]
  simp [List.count_cons]
  split_ifs <;> first | rfl | (exfalso; simp_all)

theorem only_heartbeat_and_setters (hb : Bool) (p c : outgoing_t) :
    (driverCalls (diffOutgoing hb p c)).filter
      (fun d => !(d == DriverCall.Heartbeat) && !d.isSetter) = [] := by
  rw [driverCalls_diffOutgoing]
  simp only [List.filter_append,
    apply_ite (List.filter (fun d => !(d == DriverCall.Heartbeat) && !d.isSetter))]
  simp [DriverCall.isSetter]

theorem setterCalls_same (hb : Bool) (c : outgoing_t) :
    (driverCalls (diffOutgoing hb c c)).filter DriverCall.isSetter = [] := by
  rw [driverCalls_diffOutgoing]
  cases hb <;> simp [DriverCall.isSetter]

theorem wrap_int8_of_range (v : Int) (h : -128 ≤ v ∧ v ≤ 127) : wrap_int8 v = v := by
  unfold wrap_int8
  rw [Int.emod_eq_of_lt (by omega) (by omega)]
  omega

theorem ExecuteAction_grid (self : main_cb_t) (a : action_t) (h : onGrid self) :
    onGrid (ExecuteAction self a).1 := by
  unfold onGrid at h
  unfold ExecuteAction
  split
  all_goals simp only [onGrid, withOutgoing, toggleLight, SignalToggleHeartbeat]
  all_goals try split_ifs
  all_goals try rw [wrap_int8_of_range _ (by omega)]
  all_goals try dsimp only
  all_goals omega

theorem ExecuteActions_grid (as : List action_t) (self : main_cb_t) (h : onGrid self) :
    onGrid (ExecuteActions self as) := by
  induction as generalizing self with
  | nil => exact h
  | cons a t ih => exact ih (ExecuteAction self a).1 (ExecuteAction_grid self a h)

theorem onGrid_zero (self : main_cb_t) : onGrid { self with outgoing := ⟨outgoing_zero⟩ } := by
  simp [onGrid, outgoing_zero]

/-! ### Bits of the flag masks -/

theorem land_two_pow_eq_zero_iff (f k : Nat) : f &&& 2 ^ k = 0 ↔ f.testBit k = false := by
  constructor
  · intro h
    have h2 := congrArg (fun n => Nat.testBit n k) h
    simpa [Nat.testBit_two_pow_self] using h2
  · intro h
    apply Nat.eq_of_testBit_eq
    intro i
    by_cases hk : k = i
    · subst hk
      simp [h]
    · simp [Nat.testBit_two_pow_of_ne hk]

theorem land_flag_eq_zero_iff {m k : Nat} (hm : m = 2 ^ k) (f : Nat) :
    f &&& m = 0 ↔ f.testBit k = false := by
  subst hm
  exact land_two_pow_eq_zero_iff f k

theorem land_flag_ne_zero_iff {m k : Nat} (hm : m = 2 ^ k) (f : Nat) :
    f &&& m ≠ 0 ↔ f.testBit k = true := by
  rw [Ne, land_flag_eq_zero_iff hm]
  simp

theorem testBit_lor_flag {m k : Nat} (hm : m = 2 ^ k) (f i : Nat) :
    (f ||| m).testBit i = if i = k then true else f.testBit i := by
  subst hm
  by_cases hk : i = k
  · subst hk
    simp [Nat.testBit_two_pow_self]
  · simp [hk, Nat.testBit_two_pow_of_ne (Ne.symm hk)]

theorem testBit_xor_flag {m k : Nat} (hm : m = 2 ^ k) (f i : Nat) :
    (f ^^^ m).testBit i = if i = k then !f.testBit i else f.testBit i := by
  subst hm
  by_cases hk : i = k
  · subst hk
    simp [Nat.testBit_two_pow_self]
  · simp [hk, Nat.testBit_two_pow_of_ne (Ne.symm hk)]

/-- What clearing a pending flag with `^=` leaves: that bit is off, every
other bit is as before. -/
theorem testBit_clear_flag {m k : Nat} (hm : m = 2 ^ k) (f i : Nat) (h : f &&& m ≠ 0) :
    (f ^^^ m).testBit i = if i = k then false else f.testBit i := by
  rw [testBit_xor_flag hm]
  by_cases hk : i = k
  · subst hk
    simp [(land_flag_ne_zero_iff hm f).1 h]
  · simp [hk]

/-- After `|=` with a flag the mask contains that flag. -/
theorem lor_flag_contains {m k : Nat} (hm : m = 2 ^ k) (f : Nat) : (f ||| m) &&& m ≠ 0 := by
  rw [land_flag_ne_zero_iff hm, testBit_lor_flag hm]
  simp

/-- A test for one flag is blind to `|=` or `^=` with another flag. -/
theorem land_flag_lor_other {m k n j : Nat} (hm : m = 2 ^ k) (hn : n = 2 ^ j) (hkj : k ≠ j)
    (f : Nat) : ((f ||| n) &&& m = 0) ↔ (f &&& m = 0) := by
  rw [land_flag_eq_zero_iff hm, land_flag_eq_zero_iff hm, testBit_lor_flag hn]
  simp [hkj]

theorem land_flag_xor_other {m k n j : Nat} (hm : m = 2 ^ k) (hn : n = 2 ^ j) (hkj : k ≠ j)
    (f : Nat) : ((f ^^^ n) &&& m = 0) ↔ (f &&& m = 0) := by
  rw [land_flag_eq_zero_iff hm, land_flag_eq_zero_iff hm, testBit_xor_flag hn]
  simp [hkj]

theorem FLAG_USER_QUIT_eq : FLAG_USER_QUIT = 2 ^ 0 := rfl
theorem FLAG_CONSOLE_QUIT_eq : FLAG_CONSOLE_QUIT = 2 ^ 1 := rfl
theorem FLAG_WHEELCHAIR_QUIT_eq : FLAG_WHEELCHAIR_QUIT = 2 ^ 2 := rfl
theorem FLAG_WHEELCHAIR_HEARTBEAT_eq : FLAG_WHEELCHAIR_HEARTBEAT = 2 ^ 3 := rfl

/-! ### The three cases of a signalled wake of the wheelchair worker -/

theorem ThreadWheelchair_step_quit (self : main_cb_t) (loc : wheelchair_locals_t)
    (h : self.wheelchair.flags &&& FLAG_WHEELCHAIR_QUIT ≠ 0) :
    ThreadWheelchair_step MSP_SIGS_OK self loc
      = ({ self with wheelchair := ⟨self.wheelchair.flags ^^^ FLAG_WHEELCHAIR_QUIT⟩ },
         { loc with running := false }, []) := by
  simp only [ThreadWheelchair_step, if_pos h]

theorem ThreadWheelchair_step_toggle (self : main_cb_t) (loc : wheelchair_locals_t)
    (hq : self.wheelchair.flags &&& FLAG_WHEELCHAIR_QUIT = 0)
    (h : self.wheelchair.flags &&& FLAG_WHEELCHAIR_HEARTBEAT ≠ 0) :
    ThreadWheelchair_step MSP_SIGS_OK self loc
      = ({ self with wheelchair := ⟨self.wheelchair.flags ^^^ FLAG_WHEELCHAIR_HEARTBEAT⟩ },
         { loc with heartbeat := !loc.heartbeat }, []) := by
  have hq2 : ¬ (self.wheelchair.flags &&& FLAG_WHEELCHAIR_QUIT ≠ 0) := by simp [hq]
  simp only [ThreadWheelchair_step, if_neg hq2, if_pos h]

theorem ThreadWheelchair_step_idle (self : main_cb_t) (loc : wheelchair_locals_t)
    (hq : self.wheelchair.flags &&& FLAG_WHEELCHAIR_QUIT = 0)
    (h : self.wheelchair.flags &&& FLAG_WHEELCHAIR_HEARTBEAT = 0) :
    ThreadWheelchair_step MSP_SIGS_OK self loc = (self, loc, []) := by
  have hq2 : ¬ (self.wheelchair.flags &&& FLAG_WHEELCHAIR_QUIT ≠ 0) := by simp [hq]
  have h2 : ¬ (self.wheelchair.flags &&& FLAG_WHEELCHAIR_HEARTBEAT ≠ 0) := by simp [h]
  simp only [ThreadWheelchair_step, if_neg hq2, if_neg h2]

/-! ### Parity of consumed heartbeat toggles -/

theorem hb_run_parity (moves : List hb_move_t) (self : main_cb_t) (loc : wheelchair_locals_t)
    (hrun : loc.running = true)
    (hq : self.wheelchair.flags &&& FLAG_WHEELCHAIR_QUIT = 0)
    (hfresh : togglesConsumed
      (decide (self.wheelchair.flags &&& FLAG_WHEELCHAIR_HEARTBEAT ≠ 0)) moves = true)
    (hdone : (hb_run self loc moves).1.wheelchair.flags &&& FLAG_WHEELCHAIR_HEARTBEAT = 0) :
    (hb_run self loc moves).2.heartbeat
      = xor loc.heartbeat
          (decide ((moves.count hb_move_t.toggle
            + (if self.wheelchair.flags &&& FLAG_WHEELCHAIR_HEARTBEAT ≠ 0 then 1 else 0)) % 2
              = 1)) := by
  induction moves generalizing self loc with
  | nil =>
    simp only [hb_run] at hdone ⊢
    simp [hdone]
  | cons m t ih =>
    cases m with
    | toggle =>
      have hp : self.wheelchair.flags &&& FLAG_WHEELCHAIR_HEARTBEAT = 0 := by
        by_contra hne
        simp [togglesConsumed, hne] at hfresh
      have ht : togglesConsumed true t = true := by
        simpa [togglesConsumed, hp] using hfresh
      have hq2 : (self.wheelchair.flags ||| FLAG_WHEELCHAIR_HEARTBEAT)
          &&& FLAG_WHEELCHAIR_QUIT = 0 :=
        (land_flag_lor_other FLAG_WHEELCHAIR_QUIT_eq FLAG_WHEELCHAIR_HEARTBEAT_eq
          (by decide) _).2 hq
      have hp2 : (self.wheelchair.flags ||| FLAG_WHEELCHAIR_HEARTBEAT)
          &&& FLAG_WHEELCHAIR_HEARTBEAT ≠ 0 :=
        lor_flag_contains FLAG_WHEELCHAIR_HEARTBEAT_eq _
      have h := ih { self with
          wheelchair := ⟨self.wheelchair.flags ||| FLAG_WHEELCHAIR_HEARTBEAT⟩ } loc hrun hq2
        (by simpa [hp2] using ht) hdone
      have hrw : hb_run self loc (hb_move_t.toggle :: t)
          = hb_run { self with
              wheelchair := ⟨self.wheelchair.flags ||| FLAG_WHEELCHAIR_HEARTBEAT⟩ } loc t := rfl
      rw [hrw, h]
      simp [hp, hp2]
    | wake =>
      have ht : togglesConsumed false t = true := by
        simpa [togglesConsumed] using hfresh
      by_cases hp : self.wheelchair.flags &&& FLAG_WHEELCHAIR_HEARTBEAT = 0
      · have hrw : hb_run self loc (hb_move_t.wake :: t) = hb_run self loc t := by
          simp only [hb_run, hrun, if_true, ThreadWheelchair_step_idle self loc hq hp]
        rw [hrw] at hdone ⊢
        have h := ih self loc hrun hq (by simpa [hp] using ht) hdone
        rw [h]
        simp
      · have hrw : hb_run self loc (hb_move_t.wake :: t)
            = hb_run { self with
                wheelchair := ⟨self.wheelchair.flags ^^^ FLAG_WHEELCHAIR_HEARTBEAT⟩ }
                { loc with heartbeat := !loc.heartbeat } t := by
          simp only [hb_run, hrun, if_true, ThreadWheelchair_step_toggle self loc hq hp]
        rw [hrw] at hdone ⊢
        have hq2 : (self.wheelchair.flags ^^^ FLAG_WHEELCHAIR_HEARTBEAT)
            &&& FLAG_WHEELCHAIR_QUIT = 0 :=
          (land_flag_xor_other FLAG_WHEELCHAIR_QUIT_eq FLAG_WHEELCHAIR_HEARTBEAT_eq
            (by decide) _).2 hq
        have hp2 : (self.wheelchair.flags ^^^ FLAG_WHEELCHAIR_HEARTBEAT)
            &&& FLAG_WHEELCHAIR_HEARTBEAT = 0 := by
          rw [land_flag_eq_zero_iff FLAG_WHEELCHAIR_HEARTBEAT_eq,
            testBit_clear_flag FLAG_WHEELCHAIR_HEARTBEAT_eq _ _ hp]
          simp
        have h := ih _ { loc with heartbeat := !loc.heartbeat } hrun hq2
          (by simpa [hp2] using ht) hdone
        rw [h]
        simp only [hp2, hp, ne_eq, not_true_eq_false, not_false_eq_true, if_true, if_false,
          Nat.add_zero]
        have hc : List.count hb_move_t.toggle (hb_move_t.wake :: t)
            = List.count hb_move_t.toggle t := by
          simp [List.count_cons]
        rw [hc]
        rcases Nat.mod_two_eq_zero_or_one (List.count hb_move_t.toggle t) with h0 | h1
        · have h2 : (List.count hb_move_t.toggle t + 1) % 2 = 1 := by omega
          cases hb : loc.heartbeat <;> simp [h0, h2]
        · have h2 : (List.count hb_move_t.toggle t + 1) % 2 = 0 := by omega
          cases hb : loc.heartbeat <;> simp [h1, h2]

/-! ### The terminating cases of a wake of the main loop -/

theorem ThreadMain_step_user_quit (drv : rlink_replies_t) (self : main_cb_t)
    (h : self.main.flags &&& FLAG_USER_QUIT ≠ 0) :
    ThreadMain_step MSP_SIGS_OK drv self
      = ((SignalWheelChairQuit { self with main := ⟨self.main.flags ^^^ FLAG_USER_QUIT⟩ }).1,
         false,
         (SignalWheelChairQuit { self with main := ⟨self.main.flags ^^^ FLAG_USER_QUIT⟩ }).2) := by
  simp only [ThreadMain_step, if_pos h]

theorem ThreadMain_step_fatal (drv : rlink_replies_t) (self : main_cb_t)
    (hq : self.main.flags &&& FLAG_USER_QUIT = 0)
    (hs : drv.GetStatus.status = MSP_OK)
    (hev : drv.GetStatus.out &&& MSP_RLINK_EV_ERROR ≠ 0
      ∨ drv.GetStatus.out &&& MSP_RLINK_EV_DISCONNECTED ≠ 0) :
    ThreadMain_step MSP_SIGS_OK drv self
      = ((cascadeQuit self).1, false,
         Event.rlink DriverCall.GetStatus :: (cascadeQuit self).2) := by
  have hq2 : ¬ (self.main.flags &&& FLAG_USER_QUIT ≠ 0) := by simp [hq]
  by_cases he : drv.GetStatus.out &&& MSP_RLINK_EV_ERROR ≠ 0
  · simp only [ThreadMain_step, if_neg hq2, if_pos hs, if_pos he]
  · have hd : drv.GetStatus.out &&& MSP_RLINK_EV_DISCONNECTED ≠ 0 := by
      rcases hev with h | h
      · exact absurd h he
      · exact h
    simp only [ThreadMain_step, if_neg hq2, if_pos hs, if_neg he, if_pos hd]

/-! ### The data-ready case of a wake of the main loop -/

theorem ThreadMain_step_data_ready (drv : rlink_replies_t) (self : main_cb_t)
    (hq : self.main.flags &&& FLAG_USER_QUIT = 0)
    (hs : drv.GetStatus.status = MSP_OK)
    (he : drv.GetStatus.out &&& MSP_RLINK_EV_ERROR = 0)
    (hd : drv.GetStatus.out &&& MSP_RLINK_EV_DISCONNECTED = 0)
    (hr : drv.GetStatus.out &&& MSP_RLINK_EV_DATA_READY ≠ 0) :
    ThreadMain_step MSP_SIGS_OK drv self
      = ({ self with incoming := ⟨stageIncoming drv⟩ }, true,
         Event.rlink DriverCall.GetStatus :: fetchCalls
           ++ [Event.mtx_Lock Mutex.incoming_cs, Event.mtx_Unlock Mutex.incoming_cs]) := by
  have hq2 : ¬ (self.main.flags &&& FLAG_USER_QUIT ≠ 0) := by simp [hq]
  have he2 : ¬ (drv.GetStatus.out &&& MSP_RLINK_EV_ERROR ≠ 0) := by simp [he]
  have hd2 : ¬ (drv.GetStatus.out &&& MSP_RLINK_EV_DISCONNECTED ≠ 0) := by simp [hd]
  simp only [ThreadMain_step, if_neg hq2, if_pos hs, if_neg he2, if_neg hd2, if_pos hr]

theorem driverCalls_fetch :
    driverCalls (Event.rlink DriverCall.GetStatus :: fetchCalls
        ++ [Event.mtx_Lock Mutex.incoming_cs, Event.mtx_Unlock Mutex.incoming_cs])
      = [DriverCall.GetStatus, DriverCall.GetDevStatus, DriverCall.GetMode,
         DriverCall.GetProfile, DriverCall.GetHms, DriverCall.GetHorn,
         DriverCall.GetBatteryInfo, DriverCall.GetVelocity, DriverCall.GetSpeed,
         DriverCall.GetLight 0, DriverCall.GetLight 1, DriverCall.GetLight 2,
         DriverCall.GetLight 3, DriverCall.GetLight 4] := by
  simp [fetchCalls, finRange_five, driverCalls]

/-! ### `StrToAction` and the completed line -/

theorem strtol_no_conversion (str : List Nat) (h : (strtol str).2 = 0) : strtol str = (0, 0) := by
  unfold strtol at h ⊢
  dsimp only at h ⊢
  split_ifs at h ⊢ <;> first | rfl | (exfalso; simp only at h; omega)

/-- When `strtol` converts nothing, `StrToAction` returns 0, which is
`ACTION_UP`. -/
theorem StrToAction_no_conversion (str : List Nat) (h : (strtol str).2 = 0) :
    StrToAction str = ACTION_UP := by
  unfold StrToAction
  rw [strtol_no_conversion str h]
  decide

theorem ThreadConsole_step_quit_line (ch : Int) (self : main_cb_t) (loc : console_locals_t)
    (hch : ch = 13 ∨ ch = 10)
    (hq : StrToAction (c_str (loc.bfr.set loc.cnt 0)) = ACTION_QUIT) :
    ThreadConsole_step MSP_SIGS_TIMEOUT (some ch) self loc
      = ((SignalUserWantsToQuit self).1,
         { running := false, bfr := List.replicate CONSOLE_BFR_SIZE 0, cnt := 0 },
         [Event.console ConsoleText.newline, Event.bfr_store loc.cnt]
           ++ (SignalUserWantsToQuit self).2) := by
  have hne : ¬ (ACTION_QUIT = ACTION_NOF) := by decide
  simp only [ThreadConsole_step, if_pos hch, hq, if_neg hne, if_true]

theorem ThreadConsole_step_action_line (ch : Int) (self : main_cb_t) (loc : console_locals_t)
    (a : action_t) (hch : ch = 13 ∨ ch = 10)
    (ha : StrToAction (c_str (loc.bfr.set loc.cnt 0)) = a)
    (h1 : a ≠ ACTION_NOF) (h2 : a ≠ ACTION_QUIT) :
    ThreadConsole_step MSP_SIGS_TIMEOUT (some ch) self loc
      = ((ExecuteAction self a).1,
         { loc with cnt := 0, bfr := List.replicate CONSOLE_BFR_SIZE 0 },
         [Event.console ConsoleText.newline, Event.bfr_store loc.cnt]
           ++ (ExecuteAction self a).2 ++ [Event.console ConsoleText.actions]) := by
  simp only [ThreadConsole_step, if_pos hch, ha, if_neg h1, if_neg h2]

theorem StrToAction_decimal (n : Nat) (hn : n ≤ 19) : StrToAction (decimal n) = (n : Int) := by
  interval_cases n <;> decide

/-! ### Return codes of the setters -/

theorem diffOutgoing_rc_calls (rc : DriverCall → msp_status_t) (hb : Bool) (p c : outgoing_t) :
    (diffOutgoing_rc rc hb p c).map Prod.fst = driverCalls (diffOutgoing hb p c) := by
  rw [driverCalls_diffOutgoing]
  simp only [diffOutgoing_rc, diffLights_rc, finRange_five, List.flatMap_cons,
    List.flatMap_nil, List.append_nil, List.map_append, apply_ite (List.map Prod.fst),
    List.map_cons, List.map_nil, rlink_call, List.append_assoc]
  rfl

theorem diffOutgoing_rc_codes (rc : DriverCall → msp_status_t) (hb : Bool) (p c : outgoing_t) :
    (diffOutgoing_rc rc hb p c).map Prod.snd
      = ((diffOutgoing_rc rc hb p c).map Prod.fst).map rc := by
  simp only [diffOutgoing_rc, diffLights_rc, finRange_five, List.flatMap_cons,
    List.flatMap_nil, List.append_nil, List.map_append, apply_ite (List.map Prod.snd),
    apply_ite (List.map Prod.fst), apply_ite (List.map rc),
    List.map_cons, List.map_nil, rlink_call, List.append_assoc]

/-! ### Semaphore posts of whole runs -/

theorem semPosts_append (a b : List Event) : semPosts (a ++ b) = semPosts a ++ semPosts b := by
  induction a with
  | nil => rfl
  | cons e t ih => cases e <;> simp [semPosts, ih]

theorem semPosts_cons_post (g : Gate) (t : List Event) :
    semPosts (Event.sem_Post g :: t) = g :: semPosts t := rfl

theorem semPosts_cons_wait (sg : Signal) (ms : Nat) (t : List Event) :
    semPosts (Event.sig_CondVarWaitTimed sg ms :: t) = semPosts t := rfl

theorem semPosts_cons_lock (sg : Signal) (t : List Event) :
    semPosts (Event.sig_MutexLock sg :: t) = semPosts t := rfl

theorem semPosts_cons_unlock (sg : Signal) (t : List Event) :
    semPosts (Event.sig_MutexUnlock sg :: t) = semPosts t := rfl

theorem semPosts_cons_console (x : ConsoleText) (t : List Event) :
    semPosts (Event.console x :: t) = semPosts t := rfl

theorem semPosts_diffOutgoing (hb : Bool) (p c : outgoing_t) :
    semPosts (diffOutgoing hb p c) = [] := by
  simp only [diffOutgoing, diffLights, finRange_five, List.flatMap_cons, List.flatMap_nil,
    List.append_nil, semPosts_append, apply_ite semPosts, semPosts, ite_self,
    List.append_nil]

theorem semPosts_ThreadWheelchair_step (sigs : msp_sigs_t) (self : main_cb_t)
    (loc : wheelchair_locals_t) : semPosts (ThreadWheelchair_step sigs self loc).2.2 = [] := by
  cases sigs with
  | MSP_SIGS_OK =>
    simp only [ThreadWheelchair_step]
    split_ifs <;> rfl
  | MSP_SIGS_TIMEOUT =>
    simp only [ThreadWheelchair_step, semPosts_append, semPosts_diffOutgoing]
    rfl
  | MSP_SIGS_FAILED code => rfl

theorem semPosts_ThreadWheelchair_loop (wakes : List wake_t) (self : main_cb_t)
    (loc : wheelchair_locals_t) : semPosts (ThreadWheelchair_loop self loc wakes).2.2 = [] := by
  induction wakes generalizing self loc with
  | nil => rfl
  | cons w rest ih =>
    simp only [ThreadWheelchair_loop]
    split_ifs
    · simp only [List.cons_append, semPosts_cons_wait, semPosts_append,
        semPosts_ThreadWheelchair_step, ih, List.append_nil]
    · rfl

theorem semPosts_ExecuteAction (self : main_cb_t) (a : action_t) :
    semPosts (ExecuteAction self a).2 = [] := by
  unfold ExecuteAction
  split <;> rfl

theorem semPosts_ThreadConsole_step (sigs : msp_sigs_t) (key : Option Int) (self : main_cb_t)
    (loc : console_locals_t) : semPosts (ThreadConsole_step sigs key self loc).2.2 = [] := by
  cases sigs with
  | MSP_SIGS_OK =>
    simp only [ThreadConsole_step]
    split_ifs <;> rfl
  | MSP_SIGS_TIMEOUT =>
    cases key with
    | none => rfl
    | some ch =>
      simp only [ThreadConsole_step]
      split_ifs <;>
        simp [semPosts_append, semPosts, semPosts_ExecuteAction, SignalUserWantsToQuit]
  | MSP_SIGS_FAILED code => rfl

theorem semPosts_ThreadConsole_loop (wakes : List wake_t) (self : main_cb_t)
    (loc : console_locals_t) : semPosts (ThreadConsole_loop self loc wakes).2.2 = [] := by
  induction wakes generalizing self loc with
  | nil => rfl
  | cons w rest ih =>
    simp only [ThreadConsole_loop]
    split_ifs
    · simp only [List.cons_append, semPosts_cons_wait, semPosts_append,
        semPosts_ThreadConsole_step, ih, List.append_nil]
    · rfl

theorem semPosts_ThreadWheelchair (self : main_cb_t) (wakes : List wake_t) :
    semPosts (ThreadWheelchair self wakes).2.2
      = Gate.wheelchair_started ::
          (if (ThreadWheelchair self wakes).2.1.running then []
           else [Gate.wheelchair_stopped]) := by
  simp only [ThreadWheelchair, List.cons_append, List.nil_append, semPosts_cons_post,
    semPosts_cons_lock, semPosts_append, semPosts_ThreadWheelchair_loop]
  split_ifs <;> rfl

theorem semPosts_ThreadConsole (self : main_cb_t) (wakes : List wake_t) :
    semPosts (ThreadConsole self wakes).2.2
      = Gate.console_started ::
          (if (ThreadConsole self wakes).2.1.running then []
           else [Gate.console_stopped]) := by
  simp only [ThreadConsole, List.cons_append, List.nil_append, semPosts_cons_post,
    semPosts_cons_lock, semPosts_cons_console, semPosts_append, semPosts_ThreadConsole_loop]
  split_ifs <;> rfl

theorem drop_length_sub_two {α : Type} (a : List α) (u p : α) :
    (a ++ [u, p]).drop ((a ++ [u, p]).length - 2) = [u, p] := by
  have h : (a ++ [u, p]).length - 2 = a.length := by simp
  rw [h, List.drop_left]

/-! ### Frame of `ExecuteAction` -/

theorem ExecuteAction_incoming (self : main_cb_t) (a : action_t) :
    (ExecuteAction self a).1.incoming = self.incoming := by
  unfold ExecuteAction
  split <;> rfl

theorem toggleLight_eq (id : msp_rlink_light_t) (o : outgoing_t) :
    toggleLight id o
      = { o with light := fun j => if j = id then !o.light j else o.light j } := by
  unfold toggleLight
  congr 1
  funext j
  by_cases h : j = id
  · subst h
    simp
  · simp [Function.update_noteq h, h]

theorem ExecuteAction_error_cases (self : main_cb_t) (a : action_t) :
    (ExecuteAction self a).1.outgoing.content.error = self.outgoing.content.error
    ∨ (ExecuteAction self a).1.outgoing.content.error = 1 := by
  unfold ExecuteAction
  split
  all_goals simp only [withOutgoing, toggleLight, SignalToggleHeartbeat]
  all_goals try split_ifs
  all_goals first
    | exact Or.inl rfl
    | exact Or.inr rfl
    | exact Or.inl trivial
    | exact Or.inr trivial

theorem ExecuteActions_error_sticky (as : List action_t) (self : main_cb_t)
    (h : self.outgoing.content.error = 1) :
    (ExecuteActions self as).outgoing.content.error = 1 := by
  induction as generalizing self with
  | nil => exact h
  | cons a t ih =>
    apply ih
    rcases ExecuteAction_error_cases self a with h2 | h2
    · rw [h2, h]
    · exact h2

/-! ### Stores into the line buffer -/

theorem bfrStores_append (a b : List Event) :
    bfrStores (a ++ b) = bfrStores a ++ bfrStores b := by
  induction a with
  | nil => rfl
  | cons e t ih => cases e <;> simp [bfrStores, ih]

theorem bfrStores_ExecuteAction (self : main_cb_t) (a : action_t) :
    bfrStores (ExecuteAction self a).2 = [] := by
  unfold ExecuteAction
  split <;> rfl

/-- Every key handled by the console worker causes exactly one store into the
line buffer, at the index `cnt`: the character itself, or the terminating NUL
when the key is a line terminator. -/
theorem bfrStores_key (ch : Int) (self : main_cb_t) (loc : console_locals_t) :
    bfrStores (ThreadConsole_step MSP_SIGS_TIMEOUT (some ch) self loc).2.2 = [loc.cnt] := by
  simp only [ThreadConsole_step]
  split_ifs <;>
    simp [bfrStores_append, bfrStores, bfrStores_ExecuteAction, SignalUserWantsToQuit]

/-- What a key that is not a line terminator does to `cnt`: it is incremented
while it is below `CONSOLE_BFR_SIZE` and stays as it is from then on. -/
theorem cnt_after_key (ch : Int) (self : main_cb_t) (loc : console_locals_t)
    (h13 : ch ≠ 13) (h10 : ch ≠ 10) :
    (ThreadConsole_step MSP_SIGS_TIMEOUT (some ch) self loc).2.1.cnt
      = if loc.cnt < CONSOLE_BFR_SIZE then loc.cnt + 1 else loc.cnt := by
  have h : ¬ (ch = 13 ∨ ch = 10) := by
    intro h
    rcases h with h | h
    · exact h13 h
    · exact h10 h
  simp only [ThreadConsole_step, if_neg h]
  split_ifs <;> rfl

/-! ### Locks held at the driver calls -/

theorem heldAfter_append (h : held_t) (a b : List Event) :
    heldAfter h (a ++ b) = heldAfter (heldAfter h a) b := by
  induction a generalizing h with
  | nil => rfl
  | cons e t ih => exact ih (heldAfterEvent h e)

theorem callsWithLocks_append (h : held_t) (a b : List Event) :
    callsWithLocks h (a ++ b) = callsWithLocks h a ++ callsWithLocks (heldAfter h a) b := by
  induction a generalizing h with
  | nil => rfl
  | cons e t ih =>
    cases e <;> simp [callsWithLocks, heldAfter, heldAfterEvent, ih]

theorem callsUnder_nil (h : held_t) : callsUnder h [] := ⟨rfl, rfl⟩

theorem callsUnder_append (h : held_t) (a b : List Event)
    (ha : callsUnder h a) (hb : callsUnder h b) : callsUnder h (a ++ b) := by
  constructor
  · rw [callsWithLocks_append, ha.1, ha.2, hb.1, driverCalls_append, List.map_append]
  · rw [heldAfter_append, ha.2, hb.2]

theorem callsUnder_rlink (h : held_t) (cs : List DriverCall) :
    callsUnder h (cs.map Event.rlink) := by
  induction cs with
  | nil => exact ⟨rfl, rfl⟩
  | cons c t ih =>
    constructor
    · simp only [List.map_cons, callsWithLocks, driverCalls, ih.1]
    · exact ih.2

theorem diffOutgoing_eq_map (hb : Bool) (p c : outgoing_t) :
    diffOutgoing hb p c = (driverCalls (diffOutgoing hb p c)).map Event.rlink := by
  rw [driverCalls_diffOutgoing]
  simp only [diffOutgoing, diffLights, finRange_five, List.flatMap_cons, List.flatMap_nil,
    List.append_nil, List.map_append, apply_ite (List.map Event.rlink), List.map_cons,
    List.map_nil, List.append_assoc]
  rfl

theorem callsUnder_diffOutgoing (h : held_t) (hb : Bool) (p c : outgoing_t) :
    callsUnder h (diffOutgoing hb p c) := by
  rw [diffOutgoing_eq_map]
  exact callsUnder_rlink h _

theorem callsUnder_ThreadWheelchair_step (sigs : msp_sigs_t) (self : main_cb_t)
    (loc : wheelchair_locals_t) :
    callsUnder ⟨[], [Signal.wheelchair]⟩ (ThreadWheelchair_step sigs self loc).2.2 := by
  cases sigs with
  | MSP_SIGS_OK =>
    simp only [ThreadWheelchair_step]
    split_ifs <;> exact callsUnder_nil _
  | MSP_SIGS_TIMEOUT =>
    simp only [ThreadWheelchair_step]
    apply callsUnder_append
    · exact ⟨rfl, rfl⟩
    · exact callsUnder_diffOutgoing _ _ _ _
  | MSP_SIGS_FAILED code => exact callsUnder_nil _

theorem callsUnder_ThreadWheelchair_loop (wakes : List wake_t) (self : main_cb_t)
    (loc : wheelchair_locals_t) :
    callsUnder ⟨[], [Signal.wheelchair]⟩ (ThreadWheelchair_loop self loc wakes).2.2 := by
  induction wakes generalizing self loc with
  | nil => exact callsUnder_nil _
  | cons w rest ih =>
    simp only [ThreadWheelchair_loop]
    split_ifs
    · have h1 : callsUnder ⟨[], [Signal.wheelchair]⟩
          [Event.sig_CondVarWaitTimed Signal.wheelchair 40] := ⟨rfl, rfl⟩
      exact callsUnder_append _ [Event.sig_CondVarWaitTimed Signal.wheelchair 40] _ h1
        (callsUnder_append _ _ _ (callsUnder_ThreadWheelchair_step _ _ _) (ih _ _))
    · exact callsUnder_nil _

theorem callsUnder_ThreadMain_step (sigs : msp_sigs_t) (drv : rlink_replies_t)
    (self : main_cb_t) :
    callsUnder ⟨[], [Signal.main]⟩ (ThreadMain_step sigs drv self).2.2 := by
  cases sigs with
  | MSP_SIGS_OK =>
    simp only [ThreadMain_step]
    split_ifs
    · exact ⟨rfl, rfl⟩
    · exact ⟨rfl, rfl⟩
    · exact ⟨rfl, rfl⟩
    · have h1 : callsUnder ⟨[], [Signal.main]⟩ (Event.rlink DriverCall.GetStatus :: fetchCalls) :=
        callsUnder_rlink _ (DriverCall.GetStatus ::
          [DriverCall.GetDevStatus, DriverCall.GetMode, DriverCall.GetProfile,
           DriverCall.GetHms, DriverCall.GetHorn, DriverCall.GetBatteryInfo,
           DriverCall.GetVelocity, DriverCall.GetSpeed]
          ++ (List.finRange 5).map fun id => DriverCall.GetLight id.val)
      exact callsUnder_append _ _ _ h1 ⟨rfl, rfl⟩
    · exact ⟨rfl, rfl⟩
    · exact ⟨rfl, rfl⟩
  | MSP_SIGS_TIMEOUT => exact callsUnder_nil _
  | MSP_SIGS_FAILED code => exact callsUnder_nil _

theorem callsUnder_ThreadMain_loop (wakes : List main_wake_t) (self : main_cb_t)
    (running : Bool) :
    callsUnder ⟨[], [Signal.main]⟩ (ThreadMain_loop self running wakes).2.2 := by
  induction wakes generalizing self running with
  | nil => exact callsUnder_nil _
  | cons w rest ih =>
    simp only [ThreadMain_loop]
    split_ifs
    · have h1 : callsUnder ⟨[], [Signal.main]⟩ [Event.sig_CondVarWait Signal.main] :=
        ⟨rfl, rfl⟩
      exact callsUnder_append _ [Event.sig_CondVarWait Signal.main] _ h1
        (callsUnder_append _ _ _ (callsUnder_ThreadMain_step _ _ _) (ih _ _))
    · exact callsUnder_nil _

/-- A run that takes the signal mutex, makes all its driver calls under that
mutex alone and afterwards only unlocks and posts. -/
theorem callsWithLocks_run (sg : Signal) (pre body post : List Event)
    (hpre : callsWithLocks ⟨[], []⟩ pre = [] ∧ heldAfter ⟨[], []⟩ pre = ⟨[], [sg]⟩)
    (hbody : callsUnder ⟨[], [sg]⟩ body)
    (hpost : ∀ h, callsWithLocks h post = []) :
    callsWithLocks ⟨[], []⟩ (pre ++ body ++ post)
      = (driverCalls body).map (fun c => (c, (⟨[], [sg]⟩ : held_t))) := by
  rw [callsWithLocks_append, callsWithLocks_append, hpre.1, heldAfter_append, hpre.2,
    hbody.1, hbody.2, hpost]
  simp

/-! ### The race around `incoming.content` -/

theorem memcpy_upto_all (src dst : incoming_t) : memcpy_upto INCOMING_CELLS src dst = src := by
  obtain ⟨s1, s2, s3, s4, s5, s6, s7⟩ := src
  obtain ⟨d1, d2, d3, d4, d5, d6, d7⟩ := dst
  simp only [INCOMING_CELLS, memcpy_upto, memcpy_cell, copyLightActive, copyLightLit]
  congr 1
  funext k
  fin_cases k <;> simp [Function.update]

theorem race_inv_init (published staged : List incoming_t) (garbage : incoming_t)
    (hz : incoming_zero ∈ published) (hs : ∀ s ∈ staged, s ∈ published) :
    race_inv published (race_init staged garbage) := by
  refine ⟨hs, ?_, Or.inl ⟨rfl, rfl, rfl, hz⟩⟩
  intro s h
  simp [race_init] at h

theorem race_inv_step (published : List incoming_t) (p : Party) (st : incoming_race_t)
    (h : race_inv published st) : race_inv published (race_step p st) := by
  obtain ⟨shared, cs, mp, staged, cp, content, snaps⟩ := st
  obtain ⟨hst, hsn, hcase⟩ := h
  simp only at hst hsn hcase
  rcases hcase with ⟨hm, hc, hcs, hsh⟩ | ⟨i, s, rest, m0, hm, hc, hcs, hstg, hi, hsh⟩
      | ⟨i, c0, hm, hc, hcs, hsh, hi, hct⟩
  · subst hm hc hcs
    cases p with
    | main =>
      cases staged with
      | nil => exact ⟨hst, hsn, Or.inl ⟨rfl, rfl, rfl, hsh⟩⟩
      | cons s rest =>
        exact ⟨hst, hsn, Or.inr (Or.inl ⟨0, s, rest, shared, rfl, rfl, rfl, rfl,
          Nat.zero_le _, rfl⟩)⟩
    | console =>
      exact ⟨hst, hsn, Or.inr (Or.inr ⟨0, content, rfl, rfl, rfl, hsh, Nat.zero_le _, rfl⟩)⟩
  · subst hm hc hcs hstg hsh
    cases p with
    | main =>
      by_cases hlt : i < INCOMING_CELLS
      · have e : race_step Party.main
            { shared := memcpy_upto i s m0, cs := some Party.main,
              main_phase := copy_phase_t.copying i, staged := s :: rest,
              console_phase := copy_phase_t.idle, content := content, snapshots := snaps }
            = { shared := memcpy_upto (i + 1) s m0, cs := some Party.main,
                main_phase := copy_phase_t.copying (i + 1), staged := s :: rest,
                console_phase := copy_phase_t.idle, content := content,
                snapshots := snaps } := by
          simp only [race_step, if_pos hlt, memcpy_upto]
        rw [e]
        exact ⟨hst, hsn, Or.inr (Or.inl ⟨i + 1, s, rest, m0, rfl, rfl, rfl, rfl, hlt, rfl⟩)⟩
      · have hiN : i = INCOMING_CELLS := Nat.le_antisymm hi (Nat.le_of_not_lt hlt)
        have e : race_step Party.main
            { shared := memcpy_upto i s m0, cs := some Party.main,
              main_phase := copy_phase_t.copying i, staged := s :: rest,
              console_phase := copy_phase_t.idle, content := content, snapshots := snaps }
            = { shared := s, cs := none,
                main_phase := copy_phase_t.idle, staged := rest,
                console_phase := copy_phase_t.idle, content := content,
                snapshots := snaps } := by
          simp only [race_step, hiN, memcpy_upto_all, if_neg (Nat.lt_irrefl INCOMING_CELLS)]
        rw [e]
        exact ⟨fun x hx => hst x (List.mem_cons_of_mem _ hx), hsn,
          Or.inl ⟨rfl, rfl, rfl, hst s (List.mem_cons_self _ _)⟩⟩
    | console =>
      exact ⟨hst, hsn, Or.inr (Or.inl ⟨i, s, rest, m0, rfl, rfl, rfl, rfl, hi, rfl⟩)⟩
  · subst hm hc hcs hct
    cases p with
    | main =>
      cases staged with
      | nil => exact ⟨hst, hsn, Or.inr (Or.inr ⟨i, c0, rfl, rfl, rfl, hsh, hi, rfl⟩)⟩
      | cons s rest =>
        exact ⟨hst, hsn, Or.inr (Or.inr ⟨i, c0, rfl, rfl, rfl, hsh, hi, rfl⟩)⟩
    | console =>
      by_cases hlt : i < INCOMING_CELLS
      · have e : race_step Party.console
            { shared := shared, cs := some Party.console,
              main_phase := copy_phase_t.idle, staged := staged,
              console_phase := copy_phase_t.copying i,
              content := memcpy_upto i shared c0, snapshots := snaps }
            = { shared := shared, cs := some Party.console,
                main_phase := copy_phase_t.idle, staged := staged,
                console_phase := copy_phase_t.copying (i + 1),
                content := memcpy_upto (i + 1) shared c0, snapshots := snaps } := by
          simp only [race_step, if_pos hlt, memcpy_upto]
        rw [e]
        exact ⟨hst, hsn, Or.inr (Or.inr ⟨i + 1, c0, rfl, rfl, rfl, hsh, hlt, rfl⟩)⟩
      · have hiN : i = INCOMING_CELLS := Nat.le_antisymm hi (Nat.le_of_not_lt hlt)
        have e : race_step Party.console
            { shared := shared, cs := some Party.console,
              main_phase := copy_phase_t.idle, staged := staged,
              console_phase := copy_phase_t.copying i,
              content := memcpy_upto i shared c0, snapshots := snaps }
            = { shared := shared, cs := none,
                main_phase := copy_phase_t.idle, staged := staged,
                console_phase := copy_phase_t.idle,
                content := shared, snapshots := shared :: snaps } := by
          simp only [race_step, hiN, memcpy_upto_all, if_neg (Nat.lt_irrefl INCOMING_CELLS)]
        rw [e]
        refine ⟨hst, ?_, Or.inl ⟨rfl, rfl, rfl, hsh⟩⟩
        intro x hx
        rcases List.mem_cons.1 hx with hx | hx
        · rw [hx]
          exact hsh
        · exact hsn x hx

theorem race_inv_run (published : List incoming_t) (sched : List Party)
    (st : incoming_race_t) (h : race_inv published st) :
    race_inv published (race_run st sched) := by
  induction sched generalizing st with
  | nil => exact h
  | cons p rest ih => exact ih _ (race_inv_step published p st h)

theorem race_run_append (st : incoming_race_t) (a b : List Party) :
    race_run st (a ++ b) = race_run (race_run st a) b := by
  induction a generalizing st with
  | nil => rfl
  | cons p a ih => exact ih _

theorem race_run_main_copy (k i : Nat) (s : incoming_t) (rest : List incoming_t)
    (m0 content : incoming_t) (cp : copy_phase_t) (snaps : List incoming_t)
    (h : i + k ≤ INCOMING_CELLS) :
    race_run
        { shared := memcpy_upto i s m0, cs := some Party.main,
          main_phase := copy_phase_t.copying i, staged := s :: rest,
          console_phase := cp, content := content, snapshots := snaps }
        (List.replicate k Party.main)
      = { shared := memcpy_upto (i + k) s m0, cs := some Party.main,
          main_phase := copy_phase_t.copying (i + k), staged := s :: rest,
          console_phase := cp, content := content, snapshots := snaps } := by
  induction k generalizing i with
  | zero => rfl
  | succ k ih =>
    have hlt : i < INCOMING_CELLS := by omega
    have e : race_step Party.main
        { shared := memcpy_upto i s m0, cs := some Party.main,
          main_phase := copy_phase_t.copying i, staged := s :: rest,
          console_phase := cp, content := content, snapshots := snaps }
        = { shared := memcpy_upto (i + 1) s m0, cs := some Party.main,
            main_phase := copy_phase_t.copying (i + 1), staged := s :: rest,
            console_phase := cp, content := content, snapshots := snaps } := by
      simp only [race_step, if_pos hlt, memcpy_upto]
    have hk : i + (k + 1) = i + 1 + k := by omega
    rw [List.replicate_succ, race_run, e, ih (i + 1) (by omega), hk]

theorem race_run_console_copy (k i : Nat) (shared c0 : incoming_t) (staged : List incoming_t)
    (mp : copy_phase_t) (snaps : List incoming_t) (h : i + k ≤ INCOMING_CELLS) :
    race_run
        { shared := shared, cs := some Party.console,
          main_phase := mp, staged := staged,
          console_phase := copy_phase_t.copying i,
          content := memcpy_upto i shared c0, snapshots := snaps }
        (List.replicate k Party.console)
      = { shared := shared, cs := some Party.console,
          main_phase := mp, staged := staged,
          console_phase := copy_phase_t.copying (i + k),
          content := memcpy_upto (i + k) shared c0, snapshots := snaps } := by
  induction k generalizing i with
  | zero => rfl
  | succ k ih =>
    have hlt : i < INCOMING_CELLS := by omega
    have e : race_step Party.console
        { shared := shared, cs := some Party.console,
          main_phase := mp, staged := staged,
          console_phase := copy_phase_t.copying i,
          content := memcpy_upto i shared c0, snapshots := snaps }
        = { shared := shared, cs := some Party.console,
            main_phase := mp, staged := staged,
            console_phase := copy_phase_t.copying (i + 1),
            content := memcpy_upto (i + 1) shared c0, snapshots := snaps } := by
      simp only [race_step, if_pos hlt, memcpy_upto]
    have hk : i + (k + 1) = i + 1 + k := by omega
    rw [List.replicate_succ, race_run, e, ih (i + 1) (by omega), hk]

/-- An undisturbed publish: lock, 31 cells, unlock. -/
theorem race_run_publish (shared s : incoming_t) (rest : List incoming_t)
    (content : incoming_t) (snaps : List incoming_t) :
    race_run
        { shared := shared, cs := none, main_phase := copy_phase_t.idle, staged := s :: rest,
          console_phase := copy_phase_t.idle, content := content, snapshots := snaps }
        (List.replicate 33 Party.main)
      = { shared := s, cs := none, main_phase := copy_phase_t.idle, staged := rest,
          console_phase := copy_phase_t.idle, content := content, snapshots := snaps } := by
  have hl : List.replicate 33 Party.main
      = Party.main :: (List.replicate 31 Party.main ++ [Party.main]) := by decide
  have h0 : race_step Party.main
      { shared := shared, cs := none, main_phase := copy_phase_t.idle, staged := s :: rest,
        console_phase := copy_phase_t.idle, content := content, snapshots := snaps }
      = { shared := memcpy_upto 0 s shared, cs := some Party.main,
          main_phase := copy_phase_t.copying 0, staged := s :: rest,
          console_phase := copy_phase_t.idle, content := content, snapshots := snaps } := rfl
  have h1 := race_run_main_copy 31 0 s rest shared content copy_phase_t.idle snaps
    (Nat.le_refl _)
  have h2 : race_step Party.main
      { shared := memcpy_upto (0 + 31) s shared, cs := some Party.main,
        main_phase := copy_phase_t.copying (0 + 31), staged := s :: rest,
        console_phase := copy_phase_t.idle, content := content, snapshots := snaps }
      = { shared := s, cs := none, main_phase := copy_phase_t.idle, staged := rest,
          console_phase := copy_phase_t.idle, content := content, snapshots := snaps } := by
    have hm : memcpy_upto (0 + 31) s shared = s := memcpy_upto_all s shared
    rw [hm]
    rfl
  rw [hl, race_run, h0, race_run_append, h1, race_run, race_run, h2]

/-- An undisturbed dump: lock, 31 cells, unlock, one more snapshot. -/
theorem race_run_dump (shared : incoming_t) (staged : List incoming_t)
    (content : incoming_t) (snaps : List incoming_t) :
    race_run
        { shared := shared, cs := none, main_phase := copy_phase_t.idle, staged := staged,
          console_phase := copy_phase_t.idle, content := content, snapshots := snaps }
        (List.replicate 33 Party.console)
      = { shared := shared, cs := none, main_phase := copy_phase_t.idle, staged := staged,
          console_phase := copy_phase_t.idle, content := shared,
          snapshots := shared :: snaps } := by
  have hl : List.replicate 33 Party.console
      = Party.console :: (List.replicate 31 Party.console ++ [Party.console]) := by decide
  have h0 : race_step Party.console
      { shared := shared, cs := none, main_phase := copy_phase_t.idle, staged := staged,
        console_phase := copy_phase_t.idle, content := content, snapshots := snaps }
      = { shared := shared, cs := some Party.console,
          main_phase := copy_phase_t.idle, staged := staged,
          console_phase := copy_phase_t.copying 0,
          content := memcpy_upto 0 shared content, snapshots := snaps } := rfl
  have h1 := race_run_console_copy 31 0 shared content staged copy_phase_t.idle snaps
    (Nat.le_refl _)
  have h2 : race_step Party.console
      { shared := shared, cs := some Party.console,
        main_phase := copy_phase_t.idle, staged := staged,
        console_phase := copy_phase_t.copying (0 + 31),
        content := memcpy_upto (0 + 31) shared content, snapshots := snaps }
      = { shared := shared, cs := none, main_phase := copy_phase_t.idle, staged := staged,
          console_phase := copy_phase_t.idle, content := shared,
          snapshots := shared :: snaps } := by
    have hm : memcpy_upto (0 + 31) shared content = shared := memcpy_upto_all shared content
    rw [hm]
    rfl
  rw [hl, race_run, h0, race_run_append, h1, race_run, race_run, h2]

/-- A publish followed by a dump: the snapshot is the struct published. -/
theorem race_run_publish_then_dump (s garbage : incoming_t) :
    (race_run (race_init [s] garbage)
        (List.replicate 33 Party.main ++ List.replicate 33 Party.console)).snapshots
      = [s] := by
  rw [race_run_append]
  have h1 := race_run_publish incoming_zero s [] garbage []
  have h2 := race_run_dump s [] garbage []
  have e : race_init [s] garbage
      = { shared := incoming_zero, cs := none, main_phase := copy_phase_t.idle,
          staged := [s], console_phase := copy_phase_t.idle, content := garbage,
          snapshots := [] } := rfl
  rw [e, h1, h2]

/-! ## Theorems -/

/-- C1: one timeout poll of the wheelchair worker emits exactly these driver
calls and no others. `Heartbeat` occurs once if heartbeat is enabled and not
at all otherwise. `SetXy x y` occurs once if `x` or `y` of the current
outgoing state differs from `previous` and the arguments are the current `x`
and `y`, and not at all otherwise. Likewise `SetBtn` (for the button
`MSP_RLINK_BTN_YT`), `SetHorn`, `SetLight id` for each of the five light ids
independently (and never for an id of 5 or more), `SetAxis` (for axis 0) and
`SetError` occur once if their field differs and the argument is the current
value, and not at all otherwise. No call other than `Heartbeat` and the
setters is made. -/
theorem C1_timeout_poll_emits_exactly_the_changed_fields
    (self : main_cb_t) (loc : wheelchair_locals_t) :
    (driverCalls (ThreadWheelchair_step MSP_SIGS_TIMEOUT self loc).2.2).count
        DriverCall.Heartbeat
      = (if loc.heartbeat then 1 else 0)
    ∧ (∀ x y : Int,
        (driverCalls (ThreadWheelchair_step MSP_SIGS_TIMEOUT self loc).2.2).count
            (DriverCall.SetXy x y)
          = if (loc.previous.x ≠ self.outgoing.content.x
                  ∨ loc.previous.y ≠ self.outgoing.content.y)
                ∧ x = self.outgoing.content.x ∧ y = self.outgoing.content.y
            then 1 else 0)
    ∧ (∀ (id : Nat) (v : Bool),
        (driverCalls (ThreadWheelchair_step MSP_SIGS_TIMEOUT self loc).2.2).count
            (DriverCall.SetBtn id v)
          = if loc.previous.btn ≠ self.outgoing.content.btn
                ∧ id = MSP_RLINK_BTN_YT ∧ v = self.outgoing.content.btn
            then 1 else 0)
    ∧ (∀ v : Bool,
        (driverCalls (ThreadWheelchair_step MSP_SIGS_TIMEOUT self loc).2.2).count
            (DriverCall.SetHorn v)
          = if loc.previous.horn ≠ self.outgoing.content.horn
                ∧ v = self.outgoing.content.horn
            then 1 else 0)
    ∧ (∀ (id : msp_rlink_light_t) (v : Bool),
        (driverCalls (ThreadWheelchair_step MSP_SIGS_TIMEOUT self loc).2.2).count
            (DriverCall.SetLight id.val v)
          = if loc.previous.light id ≠ self.outgoing.content.light id
                ∧ v = self.outgoing.content.light id
            then 1 else 0)
    ∧ (∀ (n : Nat) (v : Bool),
        (driverCalls (ThreadWheelchair_step MSP_SIGS_TIMEOUT self loc).2.2).count
            (DriverCall.SetLight (n + 5) v) = 0)
    ∧ (∀ (id : Nat) (d : msp_rlink_axis_dir_t),
        (driverCalls (ThreadWheelchair_step MSP_SIGS_TIMEOUT self loc).2.2).count
            (DriverCall.SetAxis id d)
          = if loc.previous.axis0 ≠ self.outgoing.content.axis0
                ∧ id = MSP_RLINK_AXIS_ID_0 ∧ d = self.outgoing.content.axis0
            then 1 else 0)
    ∧ (∀ e : Nat,
        (driverCalls (ThreadWheelchair_step MSP_SIGS_TIMEOUT self loc).2.2).count
            (DriverCall.SetError e)
          = if loc.previous.error ≠ self.outgoing.content.error
                ∧ e = self.outgoing.content.error
            then 1 else 0)
    ∧ (driverCalls (ThreadWheelchair_step MSP_SIGS_TIMEOUT self loc).2.2).filter
          (fun d => !(d == DriverCall.Heartbeat) && !d.isSetter) = [] := by
  rw [driverCalls_timeout]
  exact ⟨count_Heartbeat _ _ _, count_SetXy _ _ _, count_SetBtn _ _ _, count_SetHorn _ _ _,
    count_SetLight _ _ _, count_SetLight_out_of_range _ _ _, count_SetAxis _ _ _,
    count_SetError _ _ _, only_heartbeat_and_setters _ _ _⟩

/-- C2: a timeout poll stores its snapshot as `previous` and leaves the
control block as it is, so a second poll with no mutation in between emits no
setter call at all. More generally, when the next poll sees the control block
`later`, each setter is emitted at most once, and not at all when its field
(the position pair `x`, `y` for `SetXy`; the light of that id for `SetLight`)
has in `later` the value it had at the preceding poll. -/
theorem C2_unchanged_fields_are_not_sent_again
    (self later : main_cb_t) (loc : wheelchair_locals_t) :
    (ThreadWheelchair_step MSP_SIGS_TIMEOUT self loc).2.1.previous = self.outgoing.content
    ∧ (ThreadWheelchair_step MSP_SIGS_TIMEOUT self loc).1 = self
    ∧ setterCalls (ThreadWheelchair_step MSP_SIGS_TIMEOUT
          (ThreadWheelchair_step MSP_SIGS_TIMEOUT self loc).1
          (ThreadWheelchair_step MSP_SIGS_TIMEOUT self loc).2.1).2.2 = []
    ∧ (∀ x y : Int,
        (driverCalls (ThreadWheelchair_step MSP_SIGS_TIMEOUT later
            (ThreadWheelchair_step MSP_SIGS_TIMEOUT self loc).2.1).2.2).count
            (DriverCall.SetXy x y)
          ≤ if later.outgoing.content.x = self.outgoing.content.x
                ∧ later.outgoing.content.y = self.outgoing.content.y then 0 else 1)
    ∧ (∀ (id : Nat) (v : Bool),
        (driverCalls (ThreadWheelchair_step MSP_SIGS_TIMEOUT later
            (ThreadWheelchair_step MSP_SIGS_TIMEOUT self loc).2.1).2.2).count
            (DriverCall.SetBtn id v)
          ≤ if later.outgoing.content.btn = self.outgoing.content.btn then 0 else 1)
    ∧ (∀ v : Bool,
        (driverCalls (ThreadWheelchair_step MSP_SIGS_TIMEOUT later
            (ThreadWheelchair_step MSP_SIGS_TIMEOUT self loc).2.1).2.2).count
            (DriverCall.SetHorn v)
          ≤ if later.outgoing.content.horn = self.outgoing.content.horn then 0 else 1)
    ∧ (∀ (id : msp_rlink_light_t) (v : Bool),
        (driverCalls (ThreadWheelchair_step MSP_SIGS_TIMEOUT later
            (ThreadWheelchair_step MSP_SIGS_TIMEOUT self loc).2.1).2.2).count
            (DriverCall.SetLight id.val v)
          ≤ if later.outgoing.content.light id = self.outgoing.content.light id
            then 0 else 1)
    ∧ (∀ (id : Nat) (d : msp_rlink_axis_dir_t),
        (driverCalls (ThreadWheelchair_step MSP_SIGS_TIMEOUT later
            (ThreadWheelchair_step MSP_SIGS_TIMEOUT self loc).2.1).2.2).count
            (DriverCall.SetAxis id d)
          ≤ if later.outgoing.content.axis0 = self.outgoing.content.axis0 then 0 else 1)
    ∧ (∀ e : Nat,
        (driverCalls (ThreadWheelchair_step MSP_SIGS_TIMEOUT later
            (ThreadWheelchair_step MSP_SIGS_TIMEOUT self loc).2.1).2.2).count
            (DriverCall.SetError e)
          ≤ if later.outgoing.content.error = self.outgoing.content.error then 0 else 1) := by
  have hprev : (ThreadWheelchair_step MSP_SIGS_TIMEOUT self loc).2.1.previous
      = self.outgoing.content := rfl
  have hself : (ThreadWheelchair_step MSP_SIGS_TIMEOUT self loc).1 = self := rfl
  refine ⟨hprev, hself, ?_, ?_, ?_, ?_, ?_, ?_, ?_⟩
  · unfold setterCalls
    rw [driverCalls_timeout, hprev, hself]
    exact setterCalls_same _ _
  · intro x y
    rw [driverCalls_timeout, hprev, count_SetXy]
    split_ifs <;> omega
  · intro id v
    rw [driverCalls_timeout, hprev, count_SetBtn]
    split_ifs <;> first | omega | (exfalso; simp_all)
  · intro v
    rw [driverCalls_timeout, hprev, count_SetHorn]
    split_ifs <;> first | omega | (exfalso; simp_all)
  · intro id v
    rw [driverCalls_timeout, hprev, count_SetLight]
    split_ifs <;> first | omega | (exfalso; simp_all)
  · intro id d
    rw [driverCalls_timeout, hprev, count_SetAxis]
    split_ifs <;> first | omega | (exfalso; simp_all)
  · intro e
    rw [driverCalls_timeout, hprev, count_SetError]
    split_ifs <;> omega

/-- C3: after any finite sequence of action codes (in particular the console
actions 0..18, in any order and number) applied by `ExecuteAction` to a control
block whose outgoing state is all zero, `x` and `y` are each a multiple of 20
in `[-100, 100]`. In particular `n` times `up` never makes `y` exceed 100, `n`
times `down` never makes `y` less than -100, and likewise `right` and `left`
for `x`. -/
theorem C3_position_stays_on_the_grid
    (self : main_cb_t) (actions : List action_t) (n : Nat) :
    (-100 ≤ (ExecuteActions { self with outgoing := ⟨outgoing_zero⟩ } actions).outgoing.content.x
      ∧ (ExecuteActions { self with outgoing := ⟨outgoing_zero⟩ } actions).outgoing.content.x
          ≤ 100
      ∧ 20 ∣ (ExecuteActions { self with outgoing := ⟨outgoing_zero⟩ }
                actions).outgoing.content.x)
    ∧ (-100 ≤ (ExecuteActions { self with outgoing := ⟨outgoing_zero⟩ }
                actions).outgoing.content.y
      ∧ (ExecuteActions { self with outgoing := ⟨outgoing_zero⟩ } actions).outgoing.content.y
          ≤ 100
      ∧ 20 ∣ (ExecuteActions { self with outgoing := ⟨outgoing_zero⟩ }
                actions).outgoing.content.y)
    ∧ (ExecuteActions { self with outgoing := ⟨outgoing_zero⟩ }
          (List.replicate n ACTION_UP)).outgoing.content.y ≤ 100
    ∧ -100 ≤ (ExecuteActions { self with outgoing := ⟨outgoing_zero⟩ }
          (List.replicate n ACTION_DOWN)).outgoing.content.y
    ∧ (ExecuteActions { self with outgoing := ⟨outgoing_zero⟩ }
          (List.replicate n ACTION_RIGHT)).outgoing.content.x ≤ 100
    ∧ -100 ≤ (ExecuteActions { self with outgoing := ⟨outgoing_zero⟩ }
          (List.replicate n ACTION_LEFT)).outgoing.content.x := by
  have h := fun as => ExecuteActions_grid as _ (onGrid_zero self)
  exact ⟨(h actions).1, (h actions).2, (h _).2.2.1, (h _).2.1, (h _).1.2.1, (h _).1.1⟩

/-- C4: starting from a control block whose outgoing state is all zero, the
actions up, up, right, toggle-horn lead to the outgoing state
`{x:20, y:40, btn:false, all lights false, horn:true, axis0:none, error:0}`. -/
theorem C4_up_up_right_horn_scenario (self : main_cb_t) :
    (ExecuteActions { self with outgoing := ⟨outgoing_zero⟩ }
        [ACTION_UP, ACTION_UP, ACTION_RIGHT, ACTION_TOGGLE_HORN]).outgoing.content
      = { x := 20, y := 40, btn := false, light := fun _ => false, horn := true,
          axis0 := MSP_RLINK_AXIS_DIR_NONE, error := 0 } := by
  rfl

/-- C5, as stated, fails: with `previous` all zero and the current outgoing
state `{x:20, y:40, horn:true}`, the timeout poll emits two setter calls, not
four. -/
theorem C5_counterexample_two_setter_calls :
    (setterCalls (ThreadWheelchair_step MSP_SIGS_TIMEOUT
        { Connect_init with outgoing := ⟨scenario_outgoing⟩ }
        wheelchair_locals_init).2.2).length = 2 := by
  decide

/-- C5, amended: with `previous` all zero and the current outgoing state
`{x:20, y:40, horn:true}`, the timeout poll emits exactly two setter calls,
`SetXy(20, 40)` and `SetHorn(true)`, in that order, preceded by a heartbeat if
heartbeat is enabled; no setter is emitted for the button, for a light, for the
axis or for the error code. -/
theorem C5_scenario_poll_emits_SetXy_and_SetHorn
    (self : main_cb_t) (loc : wheelchair_locals_t) :
    setterCalls (ThreadWheelchair_step MSP_SIGS_TIMEOUT
        { self with outgoing := ⟨scenario_outgoing⟩ }
        { loc with previous := outgoing_zero }).2.2
      = [DriverCall.SetXy 20 40, DriverCall.SetHorn true]
    ∧ driverCalls (ThreadWheelchair_step MSP_SIGS_TIMEOUT
        { self with outgoing := ⟨scenario_outgoing⟩ }
        { loc with previous := outgoing_zero }).2.2
      = (if loc.heartbeat then [DriverCall.Heartbeat] else [])
          ++ [DriverCall.SetXy 20 40, DriverCall.SetHorn true] := by
  unfold setterCalls
  rw [driverCalls_timeout, driverCalls_diffOutgoing]
  cases loc.heartbeat <;>
    simp [scenario_outgoing, outgoing_zero, DriverCall.isSetter]

/-- C6: for every control block, whatever `x` and `y` hold, `ExecuteAction`
with `ACTION_NEUTRAL` yields `x = 0` and `y = 0` and leaves the button, the
lights, the horn, the axis direction and the error code as they were; the
flag masks and the incoming state are untouched as well. -/
theorem C6_neutral_resets_x_and_y (self : main_cb_t) :
    (ExecuteAction self ACTION_NEUTRAL).1.outgoing.content.x = 0
    ∧ (ExecuteAction self ACTION_NEUTRAL).1.outgoing.content.y = 0
    ∧ (ExecuteAction self ACTION_NEUTRAL).1.outgoing.content.btn = self.outgoing.content.btn
    ∧ (ExecuteAction self ACTION_NEUTRAL).1.outgoing.content.light
        = self.outgoing.content.light
    ∧ (ExecuteAction self ACTION_NEUTRAL).1.outgoing.content.horn = self.outgoing.content.horn
    ∧ (ExecuteAction self ACTION_NEUTRAL).1.outgoing.content.axis0
        = self.outgoing.content.axis0
    ∧ (ExecuteAction self ACTION_NEUTRAL).1.outgoing.content.error
        = self.outgoing.content.error
    ∧ (ExecuteAction self ACTION_NEUTRAL).1.main = self.main
    ∧ (ExecuteAction self ACTION_NEUTRAL).1.wheelchair = self.wheelchair
    ∧ (ExecuteAction self ACTION_NEUTRAL).1.console = self.console
    ∧ (ExecuteAction self ACTION_NEUTRAL).1.incoming = self.incoming :=
  ⟨rfl, rfl, rfl, rfl, rfl, rfl, rfl, rfl, rfl, rfl, rfl⟩

/-- C7, as stated, fails: starting from the initial control block (no flag
pending, heartbeat enabled), two toggle actions followed by one signalled wake
leave no heartbeat flag pending, the number of toggles is 2, and yet the
heartbeat-enabled bit has changed from `true` to `false`: the second raise of
a flag that is already pending is absorbed by the `|=`. -/
theorem C7_counterexample_two_toggles_one_wake :
    (hb_run Connect_init wheelchair_locals_init
        [hb_move_t.toggle, hb_move_t.toggle, hb_move_t.wake]).1.wheelchair.flags
          &&& FLAG_WHEELCHAIR_HEARTBEAT = 0
    ∧ List.count hb_move_t.toggle [hb_move_t.toggle, hb_move_t.toggle, hb_move_t.wake] = 2
    ∧ wheelchair_locals_init.heartbeat = true
    ∧ (hb_run Connect_init wheelchair_locals_init
        [hb_move_t.toggle, hb_move_t.toggle, hb_move_t.wake]).2.heartbeat = false := by
  decide

/-- C7, amended: take any interleaving of toggle-heartbeat actions with
signalled wake-ups of a running wheelchair worker, started with neither the
quit flag nor the heartbeat flag pending, in which every toggle is raised while
no heartbeat flag is pending (each toggle is consumed by a wake-up before the
next toggle is raised). Once the worker has consumed every pending heartbeat
flag, its heartbeat-enabled bit equals the original value when the number of
toggles is even and the negation of the original value when it is odd. -/
theorem C7_toggle_parity_when_every_toggle_is_consumed
    (moves : List hb_move_t) (self : main_cb_t) (loc : wheelchair_locals_t)
    (hrun : loc.running = true)
    (hquit : self.wheelchair.flags &&& FLAG_WHEELCHAIR_QUIT = 0)
    (hstart : self.wheelchair.flags &&& FLAG_WHEELCHAIR_HEARTBEAT = 0)
    (hfresh : togglesConsumed false moves = true)
    (hdone : (hb_run self loc moves).1.wheelchair.flags &&& FLAG_WHEELCHAIR_HEARTBEAT = 0) :
    (hb_run self loc moves).2.heartbeat
      = if moves.count hb_move_t.toggle % 2 = 0 then loc.heartbeat else !loc.heartbeat := by
  have h := hb_run_parity moves self loc hrun hquit (by simpa [hstart] using hfresh) hdone
  rw [h]
  simp only [hstart, ne_eq, not_true_eq_false, if_false, Nat.add_zero]
  rcases Nat.mod_two_eq_zero_or_one (List.count hb_move_t.toggle moves) with h0 | h1
  · cases hb : loc.heartbeat <;> simp [h0]
  · cases hb : loc.heartbeat <;> simp [h1]

/-- Witness of C7: three toggles, each followed by a wake-up, from the initial
control block: the heartbeat-enabled bit ends negated. -/
theorem C7_toggle_parity_witness :
    wheelchair_locals_init.running = true
    ∧ Connect_init.wheelchair.flags &&& FLAG_WHEELCHAIR_QUIT = 0
    ∧ Connect_init.wheelchair.flags &&& FLAG_WHEELCHAIR_HEARTBEAT = 0
    ∧ togglesConsumed false
        [hb_move_t.toggle, hb_move_t.wake, hb_move_t.toggle, hb_move_t.wake,
         hb_move_t.toggle, hb_move_t.wake] = true
    ∧ (hb_run Connect_init wheelchair_locals_init
        [hb_move_t.toggle, hb_move_t.wake, hb_move_t.toggle, hb_move_t.wake,
         hb_move_t.toggle, hb_move_t.wake]).2.heartbeat
        = if List.count hb_move_t.toggle
              [hb_move_t.toggle, hb_move_t.wake, hb_move_t.toggle, hb_move_t.wake,
               hb_move_t.toggle, hb_move_t.wake] % 2 = 0
          then wheelchair_locals_init.heartbeat else !wheelchair_locals_init.heartbeat :=
  ⟨by decide, by decide, by decide, by decide,
   C7_toggle_parity_when_every_toggle_is_consumed
     [hb_move_t.toggle, hb_move_t.wake, hb_move_t.toggle, hb_move_t.wake,
      hb_move_t.toggle, hb_move_t.wake]
     Connect_init wheelchair_locals_init (by decide) (by decide) (by decide) (by decide)
     (by decide)⟩

/-- C8: a signalled wake of the wheelchair worker handles the flags in fixed
precedence and never calls the driver. If the quit bit (bit 2) is set, the
worker stops, bit 2 of the mask is cleared and every other bit, a pending
heartbeat-toggle bit included, is unchanged, and the heartbeat-enabled bit is
unchanged. Otherwise, if the heartbeat-toggle bit (bit 3) is set, the
heartbeat-enabled bit is negated, bit 3 is cleared and every other bit is
unchanged, and the worker keeps running. If neither bit is set, mask,
heartbeat-enabled bit and running are unchanged. In every case `previous` and
the rest of the control block are unchanged. -/
theorem C8_signalled_wake_handles_flags_in_precedence
    (self : main_cb_t) (loc : wheelchair_locals_t) :
    (self.wheelchair.flags &&& FLAG_WHEELCHAIR_QUIT ≠ 0 →
      (ThreadWheelchair_step MSP_SIGS_OK self loc).2.1.running = false
      ∧ (∀ i, (ThreadWheelchair_step MSP_SIGS_OK self loc).1.wheelchair.flags.testBit i
            = if i = 2 then false else self.wheelchair.flags.testBit i)
      ∧ (ThreadWheelchair_step MSP_SIGS_OK self loc).2.1.heartbeat = loc.heartbeat)
    ∧ (self.wheelchair.flags &&& FLAG_WHEELCHAIR_QUIT = 0 →
       self.wheelchair.flags &&& FLAG_WHEELCHAIR_HEARTBEAT ≠ 0 →
      (ThreadWheelchair_step MSP_SIGS_OK self loc).2.1.running = loc.running
      ∧ (∀ i, (ThreadWheelchair_step MSP_SIGS_OK self loc).1.wheelchair.flags.testBit i
            = if i = 3 then false else self.wheelchair.flags.testBit i)
      ∧ (ThreadWheelchair_step MSP_SIGS_OK self loc).2.1.heartbeat = !loc.heartbeat)
    ∧ (self.wheelchair.flags &&& FLAG_WHEELCHAIR_QUIT = 0 →
       self.wheelchair.flags &&& FLAG_WHEELCHAIR_HEARTBEAT = 0 →
      (ThreadWheelchair_step MSP_SIGS_OK self loc).2.1.running = loc.running
      ∧ (ThreadWheelchair_step MSP_SIGS_OK self loc).1.wheelchair.flags
          = self.wheelchair.flags
      ∧ (ThreadWheelchair_step MSP_SIGS_OK self loc).2.1.heartbeat = loc.heartbeat)
    ∧ driverCalls (ThreadWheelchair_step MSP_SIGS_OK self loc).2.2 = []
    ∧ (ThreadWheelchair_step MSP_SIGS_OK self loc).2.1.previous = loc.previous
    ∧ (ThreadWheelchair_step MSP_SIGS_OK self loc).1.main = self.main
    ∧ (ThreadWheelchair_step MSP_SIGS_OK self loc).1.console = self.console
    ∧ (ThreadWheelchair_step MSP_SIGS_OK self loc).1.incoming = self.incoming
    ∧ (ThreadWheelchair_step MSP_SIGS_OK self loc).1.outgoing = self.outgoing := by
  refine ⟨?_, ?_, ?_, ?_⟩
  · intro hq
    rw [ThreadWheelchair_step_quit self loc hq]
    exact ⟨rfl, fun i => testBit_clear_flag FLAG_WHEELCHAIR_QUIT_eq _ i hq, rfl⟩
  · intro hq hh
    rw [ThreadWheelchair_step_toggle self loc hq hh]
    exact ⟨rfl, fun i => testBit_clear_flag FLAG_WHEELCHAIR_HEARTBEAT_eq _ i hh, rfl⟩
  · intro hq hh
    rw [ThreadWheelchair_step_idle self loc hq hh]
    exact ⟨rfl, rfl, rfl⟩
  · by_cases hq : self.wheelchair.flags &&& FLAG_WHEELCHAIR_QUIT = 0
    · by_cases hh : self.wheelchair.flags &&& FLAG_WHEELCHAIR_HEARTBEAT = 0
      · rw [ThreadWheelchair_step_idle self loc hq hh]
        exact ⟨rfl, rfl, rfl, rfl, rfl, rfl⟩
      · rw [ThreadWheelchair_step_toggle self loc hq hh]
        exact ⟨rfl, rfl, rfl, rfl, rfl, rfl⟩
    · rw [ThreadWheelchair_step_quit self loc hq]
      exact ⟨rfl, rfl, rfl, rfl, rfl, rfl⟩

/-- Witness of C8 at three masks: quit and heartbeat-toggle both pending
(`0x0c`), only heartbeat-toggle pending (`0x08`), and nothing pending. -/
theorem C8_signalled_wake_witness :
    ((ThreadWheelchair_step MSP_SIGS_OK (cb_with_flags 0 0x0c 0)
          wheelchair_locals_init).2.1.running = false
      ∧ (∀ i, (ThreadWheelchair_step MSP_SIGS_OK (cb_with_flags 0 0x0c 0)
            wheelchair_locals_init).1.wheelchair.flags.testBit i
            = if i = 2 then false else (cb_with_flags 0 0x0c 0).wheelchair.flags.testBit i)
      ∧ (ThreadWheelchair_step MSP_SIGS_OK (cb_with_flags 0 0x0c 0)
          wheelchair_locals_init).2.1.heartbeat = wheelchair_locals_init.heartbeat)
    ∧ ((ThreadWheelchair_step MSP_SIGS_OK (cb_with_flags 0 0x08 0)
          wheelchair_locals_init).2.1.running = wheelchair_locals_init.running
      ∧ (∀ i, (ThreadWheelchair_step MSP_SIGS_OK (cb_with_flags 0 0x08 0)
            wheelchair_locals_init).1.wheelchair.flags.testBit i
            = if i = 3 then false else (cb_with_flags 0 0x08 0).wheelchair.flags.testBit i)
      ∧ (ThreadWheelchair_step MSP_SIGS_OK (cb_with_flags 0 0x08 0)
          wheelchair_locals_init).2.1.heartbeat = !wheelchair_locals_init.heartbeat)
    ∧ ((ThreadWheelchair_step MSP_SIGS_OK (cb_with_flags 0 0 0)
          wheelchair_locals_init).2.1.running = wheelchair_locals_init.running
      ∧ (ThreadWheelchair_step MSP_SIGS_OK (cb_with_flags 0 0 0)
          wheelchair_locals_init).1.wheelchair.flags = (cb_with_flags 0 0 0).wheelchair.flags
      ∧ (ThreadWheelchair_step MSP_SIGS_OK (cb_with_flags 0 0 0)
          wheelchair_locals_init).2.1.heartbeat = wheelchair_locals_init.heartbeat) :=
  ⟨(C8_signalled_wake_handles_flags_in_precedence (cb_with_flags 0 0x0c 0)
      wheelchair_locals_init).1 (by decide),
   (C8_signalled_wake_handles_flags_in_precedence (cb_with_flags 0 0x08 0)
      wheelchair_locals_init).2.1 (by decide) (by decide),
   (C8_signalled_wake_handles_flags_in_precedence (cb_with_flags 0 0 0)
      wheelchair_locals_init).2.2.1 (by decide) (by decide)⟩

/-- C9, as stated, fails: the main loop is woken with only the user-quit flag
pending on the main mask and with empty wheelchair and console masks; after
the step the main loop has stopped and the wheelchair mask holds
`FLAG_WHEELCHAIR_QUIT`, but the console mask is still empty, so it does not
contain `FLAG_CONSOLE_QUIT`. -/
theorem C9_counterexample_console_mask_not_raised :
    (cb_with_flags FLAG_USER_QUIT 0 0).main.flags &&& FLAG_USER_QUIT = FLAG_USER_QUIT
    ∧ (ThreadMain_step MSP_SIGS_OK (rlink_replies_sample 0)
        (cb_with_flags FLAG_USER_QUIT 0 0)).2.1 = false
    ∧ (ThreadMain_step MSP_SIGS_OK (rlink_replies_sample 0)
        (cb_with_flags FLAG_USER_QUIT 0 0)).1.wheelchair.flags = FLAG_WHEELCHAIR_QUIT
    ∧ (ThreadMain_step MSP_SIGS_OK (rlink_replies_sample 0)
        (cb_with_flags FLAG_USER_QUIT 0 0)).1.console.flags = 0
    ∧ (ThreadMain_step MSP_SIGS_OK (rlink_replies_sample 0)
        (cb_with_flags FLAG_USER_QUIT 0 0)).1.console.flags &&& FLAG_CONSOLE_QUIT = 0 := by
  decide

/-- C9, amended: whenever the main loop handles a wake with the user-quit flag
pending on the main mask, it raises the quit flag of the wheelchair worker
only: afterwards the wheelchair mask is the old one with `FLAG_WHEELCHAIR_QUIT`
or-ed in (so it contains that flag), the console mask is unchanged, the
user-quit bit (bit 0) of the main mask is cleared with every other bit
unchanged, the main loop stops, and no driver call has been made. -/
theorem C9_user_quit_raises_wheelchair_quit_only
    (drv : rlink_replies_t) (self : main_cb_t)
    (h : self.main.flags &&& FLAG_USER_QUIT ≠ 0) :
    (ThreadMain_step MSP_SIGS_OK drv self).1.wheelchair.flags
        = self.wheelchair.flags ||| FLAG_WHEELCHAIR_QUIT
    ∧ (ThreadMain_step MSP_SIGS_OK drv self).1.wheelchair.flags &&& FLAG_WHEELCHAIR_QUIT ≠ 0
    ∧ (ThreadMain_step MSP_SIGS_OK drv self).1.console.flags = self.console.flags
    ∧ (∀ i, (ThreadMain_step MSP_SIGS_OK drv self).1.main.flags.testBit i
          = if i = 0 then false else self.main.flags.testBit i)
    ∧ (ThreadMain_step MSP_SIGS_OK drv self).2.1 = false
    ∧ driverCalls (ThreadMain_step MSP_SIGS_OK drv self).2.2 = [] := by
  rw [ThreadMain_step_user_quit drv self h]
  exact ⟨rfl, lor_flag_contains FLAG_WHEELCHAIR_QUIT_eq _, rfl,
    fun i => testBit_clear_flag FLAG_USER_QUIT_eq _ i h, rfl, rfl⟩

/-- Witness of C9: the main mask `0x01`, the console mask `0x00`. -/
theorem C9_user_quit_witness :
    (cb_with_flags FLAG_USER_QUIT 0 0).main.flags &&& FLAG_USER_QUIT ≠ 0
    ∧ (ThreadMain_step MSP_SIGS_OK (rlink_replies_sample 0)
        (cb_with_flags FLAG_USER_QUIT 0 0)).1.wheelchair.flags &&& FLAG_WHEELCHAIR_QUIT ≠ 0
    ∧ (ThreadMain_step MSP_SIGS_OK (rlink_replies_sample 0)
        (cb_with_flags FLAG_USER_QUIT 0 0)).1.console.flags
        = (cb_with_flags FLAG_USER_QUIT 0 0).console.flags
    ∧ (ThreadMain_step MSP_SIGS_OK (rlink_replies_sample 0)
        (cb_with_flags FLAG_USER_QUIT 0 0)).2.1 = false :=
  ⟨by decide,
   (C9_user_quit_raises_wheelchair_quit_only (rlink_replies_sample 0)
      (cb_with_flags FLAG_USER_QUIT 0 0) (by decide)).2.1,
   (C9_user_quit_raises_wheelchair_quit_only (rlink_replies_sample 0)
      (cb_with_flags FLAG_USER_QUIT 0 0) (by decide)).2.2.1,
   (C9_user_quit_raises_wheelchair_quit_only (rlink_replies_sample 0)
      (cb_with_flags FLAG_USER_QUIT 0 0) (by decide)).2.2.2.2.1⟩

/-- C10: on a wake of the main loop with no user-quit pending, on which
`msp_rlink_GetStatus` succeeds and reports the error event or the disconnected
event (whatever other event bits, data-ready included, are set), the main loop
raises the quit flag on the wheelchair mask and on the console mask, stops,
calls no driver function besides `GetStatus` (no telemetry is fetched), and
leaves the incoming state, the outgoing state and the main mask unchanged. -/
theorem C10_error_or_disconnect_cascades_quit
    (drv : rlink_replies_t) (self : main_cb_t)
    (hq : self.main.flags &&& FLAG_USER_QUIT = 0)
    (hs : drv.GetStatus.status = MSP_OK)
    (hev : drv.GetStatus.out &&& MSP_RLINK_EV_ERROR ≠ 0
      ∨ drv.GetStatus.out &&& MSP_RLINK_EV_DISCONNECTED ≠ 0) :
    (ThreadMain_step MSP_SIGS_OK drv self).1.wheelchair.flags
        = self.wheelchair.flags ||| FLAG_WHEELCHAIR_QUIT
    ∧ (ThreadMain_step MSP_SIGS_OK drv self).1.wheelchair.flags &&& FLAG_WHEELCHAIR_QUIT ≠ 0
    ∧ (ThreadMain_step MSP_SIGS_OK drv self).1.console.flags
        = self.console.flags ||| FLAG_CONSOLE_QUIT
    ∧ (ThreadMain_step MSP_SIGS_OK drv self).1.console.flags &&& FLAG_CONSOLE_QUIT ≠ 0
    ∧ (ThreadMain_step MSP_SIGS_OK drv self).2.1 = false
    ∧ driverCalls (ThreadMain_step MSP_SIGS_OK drv self).2.2 = [DriverCall.GetStatus]
    ∧ (ThreadMain_step MSP_SIGS_OK drv self).1.incoming = self.incoming
    ∧ (ThreadMain_step MSP_SIGS_OK drv self).1.outgoing = self.outgoing
    ∧ (ThreadMain_step MSP_SIGS_OK drv self).1.main = self.main := by
  rw [ThreadMain_step_fatal drv self hq hs hev]
  exact ⟨rfl, lor_flag_contains FLAG_WHEELCHAIR_QUIT_eq _, rfl,
    lor_flag_contains FLAG_CONSOLE_QUIT_eq _, rfl, rfl, rfl, rfl, rfl⟩

/-- Witness of C10: the driver reports the error event together with
data-ready (`0x06`) to the initial control block. -/
theorem C10_error_or_disconnect_witness :
    Connect_init.main.flags &&& FLAG_USER_QUIT = 0
    ∧ (rlink_replies_sample (MSP_RLINK_EV_ERROR ||| MSP_RLINK_EV_DATA_READY)).GetStatus.status
        = MSP_OK
    ∧ (ThreadMain_step MSP_SIGS_OK
        (rlink_replies_sample (MSP_RLINK_EV_ERROR ||| MSP_RLINK_EV_DATA_READY))
        Connect_init).2.1 = false
    ∧ driverCalls (ThreadMain_step MSP_SIGS_OK
        (rlink_replies_sample (MSP_RLINK_EV_ERROR ||| MSP_RLINK_EV_DATA_READY))
        Connect_init).2.2 = [DriverCall.GetStatus]
    ∧ (ThreadMain_step MSP_SIGS_OK
        (rlink_replies_sample (MSP_RLINK_EV_ERROR ||| MSP_RLINK_EV_DATA_READY))
        Connect_init).1.incoming = Connect_init.incoming :=
  ⟨by decide, rfl,
   (C10_error_or_disconnect_cascades_quit
      (rlink_replies_sample (MSP_RLINK_EV_ERROR ||| MSP_RLINK_EV_DATA_READY)) Connect_init
      (by decide) rfl (Or.inl (by decide))).2.2.2.2.1,
   (C10_error_or_disconnect_cascades_quit
      (rlink_replies_sample (MSP_RLINK_EV_ERROR ||| MSP_RLINK_EV_DATA_READY)) Connect_init
      (by decide) rfl (Or.inl (by decide))).2.2.2.2.2.1,
   (C10_error_or_disconnect_cascades_quit
      (rlink_replies_sample (MSP_RLINK_EV_ERROR ||| MSP_RLINK_EV_DATA_READY)) Connect_init
      (by decide) rfl (Or.inl (by decide))).2.2.2.2.2.2.1⟩

/-- C11: on a wake of the main loop with no user-quit pending, on which
`msp_rlink_GetStatus` succeeds and reports data-ready and neither error nor
disconnected, the shared incoming state after the step holds, sub-field by
sub-field, what the driver returned through the out-parameters of the getter
of that sub-field: device status, mode, profile, the six host-mode-selection
fields, horn, battery, velocity, speed, and for each light id `i` the pair
active/lit at index `i`. The main loop keeps running and no flag mask changes,
so no quit flag is raised. (This holds whether or not the getters report
success; in particular when all of them do.) -/
theorem C11_data_ready_publishes_driver_values
    (drv : rlink_replies_t) (self : main_cb_t)
    (hq : self.main.flags &&& FLAG_USER_QUIT = 0)
    (hs : drv.GetStatus.status = MSP_OK)
    (he : drv.GetStatus.out &&& MSP_RLINK_EV_ERROR = 0)
    (hd : drv.GetStatus.out &&& MSP_RLINK_EV_DISCONNECTED = 0)
    (hr : drv.GetStatus.out &&& MSP_RLINK_EV_DATA_READY ≠ 0) :
    (ThreadMain_step MSP_SIGS_OK drv self).1.incoming.content.status = drv.GetDevStatus.out
    ∧ (ThreadMain_step MSP_SIGS_OK drv self).1.incoming.content.hms.mode = drv.GetMode.out
    ∧ (ThreadMain_step MSP_SIGS_OK drv self).1.incoming.content.hms.profile
        = drv.GetProfile.out
    ∧ (ThreadMain_step MSP_SIGS_OK drv self).1.incoming.content.hms.inputProcess
        = drv.GetHms.out.inputProcess
    ∧ (ThreadMain_step MSP_SIGS_OK drv self).1.incoming.content.hms.interProcess
        = drv.GetHms.out.interProcess
    ∧ (ThreadMain_step MSP_SIGS_OK drv self).1.incoming.content.hms.outputProcess
        = drv.GetHms.out.outputProcess
    ∧ (ThreadMain_step MSP_SIGS_OK drv self).1.incoming.content.hms.selInput
        = drv.GetHms.out.selInput
    ∧ (ThreadMain_step MSP_SIGS_OK drv self).1.incoming.content.hms.selInter
        = drv.GetHms.out.selInter
    ∧ (ThreadMain_step MSP_SIGS_OK drv self).1.incoming.content.hms.selOutput
        = drv.GetHms.out.selOutput
    ∧ (ThreadMain_step MSP_SIGS_OK drv self).1.incoming.content.horn = drv.GetHorn.out
    ∧ (ThreadMain_step MSP_SIGS_OK drv self).1.incoming.content.battery
        = drv.GetBatteryInfo.out
    ∧ (ThreadMain_step MSP_SIGS_OK drv self).1.incoming.content.velocity
        = drv.GetVelocity.out
    ∧ (ThreadMain_step MSP_SIGS_OK drv self).1.incoming.content.speed = drv.GetSpeed.out
    ∧ (∀ id : msp_rlink_light_t,
        (ThreadMain_step MSP_SIGS_OK drv self).1.incoming.content.light id
          = (drv.GetLight id).out)
    ∧ (ThreadMain_step MSP_SIGS_OK drv self).2.1 = true
    ∧ (ThreadMain_step MSP_SIGS_OK drv self).1.wheelchair = self.wheelchair
    ∧ (ThreadMain_step MSP_SIGS_OK drv self).1.console = self.console
    ∧ (ThreadMain_step MSP_SIGS_OK drv self).1.main = self.main := by
  rw [ThreadMain_step_data_ready drv self hq hs he hd hr]
  exact ⟨rfl, rfl, rfl, rfl, rfl, rfl, rfl, rfl, rfl, rfl, rfl, rfl, rfl, fun _ => rfl,
    rfl, rfl, rfl, rfl⟩

/-- Witness of C11: the driver reports data-ready alone (`0x04`) to the initial
control block. -/
theorem C11_data_ready_witness :
    Connect_init.main.flags &&& FLAG_USER_QUIT = 0
    ∧ (rlink_replies_sample MSP_RLINK_EV_DATA_READY).GetStatus.status = MSP_OK
    ∧ (ThreadMain_step MSP_SIGS_OK (rlink_replies_sample MSP_RLINK_EV_DATA_READY)
        Connect_init).1.incoming.content.status
        = (rlink_replies_sample MSP_RLINK_EV_DATA_READY).GetDevStatus.out
    ∧ (ThreadMain_step MSP_SIGS_OK (rlink_replies_sample MSP_RLINK_EV_DATA_READY)
        Connect_init).2.1 = true :=
  ⟨by decide, rfl,
   (C11_data_ready_publishes_driver_values (rlink_replies_sample MSP_RLINK_EV_DATA_READY)
      Connect_init (by decide) rfl (by decide) (by decide) (by decide)).1,
   (C11_data_ready_publishes_driver_values (rlink_replies_sample MSP_RLINK_EV_DATA_READY)
      Connect_init (by decide) rfl (by decide) (by decide)
      (by decide)).2.2.2.2.2.2.2.2.2.2.2.2.2.2.1⟩

/-- C12: on a data-ready step of the main loop (no user-quit pending,
`msp_rlink_GetStatus` succeeds and reports data-ready and neither error nor
disconnected), whatever return codes the telemetry getters give: every getter
is called, in the fixed order and once each (five times `GetLight`, ids 0 to
4); each sub-field whose getter returned `MSP_OK` is published with the value
that getter delivered, whatever the other getters returned; the publish (the
copy under `incoming.cs`) follows the calls; the main loop keeps running and
no flag mask changes. -/
theorem C12_failed_getters_do_not_abort_the_batch
    (drv : rlink_replies_t) (self : main_cb_t)
    (hq : self.main.flags &&& FLAG_USER_QUIT = 0)
    (hs : drv.GetStatus.status = MSP_OK)
    (he : drv.GetStatus.out &&& MSP_RLINK_EV_ERROR = 0)
    (hd : drv.GetStatus.out &&& MSP_RLINK_EV_DISCONNECTED = 0)
    (hr : drv.GetStatus.out &&& MSP_RLINK_EV_DATA_READY ≠ 0) :
    driverCalls (ThreadMain_step MSP_SIGS_OK drv self).2.2
      = [DriverCall.GetStatus, DriverCall.GetDevStatus, DriverCall.GetMode,
         DriverCall.GetProfile, DriverCall.GetHms, DriverCall.GetHorn,
         DriverCall.GetBatteryInfo, DriverCall.GetVelocity, DriverCall.GetSpeed,
         DriverCall.GetLight 0, DriverCall.GetLight 1, DriverCall.GetLight 2,
         DriverCall.GetLight 3, DriverCall.GetLight 4]
    ∧ (ThreadMain_step MSP_SIGS_OK drv self).2.2
        = (driverCalls (ThreadMain_step MSP_SIGS_OK drv self).2.2).map Event.rlink
          ++ [Event.mtx_Lock Mutex.incoming_cs, Event.mtx_Unlock Mutex.incoming_cs]
    ∧ (drv.GetDevStatus.status = MSP_OK →
        (ThreadMain_step MSP_SIGS_OK drv self).1.incoming.content.status
          = drv.GetDevStatus.out)
    ∧ (drv.GetMode.status = MSP_OK →
        (ThreadMain_step MSP_SIGS_OK drv self).1.incoming.content.hms.mode = drv.GetMode.out)
    ∧ (drv.GetProfile.status = MSP_OK →
        (ThreadMain_step MSP_SIGS_OK drv self).1.incoming.content.hms.profile
          = drv.GetProfile.out)
    ∧ (drv.GetHms.status = MSP_OK →
        (ThreadMain_step MSP_SIGS_OK drv self).1.incoming.content.hms.inputProcess
            = drv.GetHms.out.inputProcess
        ∧ (ThreadMain_step MSP_SIGS_OK drv self).1.incoming.content.hms.interProcess
            = drv.GetHms.out.interProcess
        ∧ (ThreadMain_step MSP_SIGS_OK drv self).1.incoming.content.hms.outputProcess
            = drv.GetHms.out.outputProcess
        ∧ (ThreadMain_step MSP_SIGS_OK drv self).1.incoming.content.hms.selInput
            = drv.GetHms.out.selInput
        ∧ (ThreadMain_step MSP_SIGS_OK drv self).1.incoming.content.hms.selInter
            = drv.GetHms.out.selInter
        ∧ (ThreadMain_step MSP_SIGS_OK drv self).1.incoming.content.hms.selOutput
            = drv.GetHms.out.selOutput)
    ∧ (drv.GetHorn.status = MSP_OK →
        (ThreadMain_step MSP_SIGS_OK drv self).1.incoming.content.horn = drv.GetHorn.out)
    ∧ (drv.GetBatteryInfo.status = MSP_OK →
        (ThreadMain_step MSP_SIGS_OK drv self).1.incoming.content.battery
          = drv.GetBatteryInfo.out)
    ∧ (drv.GetVelocity.status = MSP_OK →
        (ThreadMain_step MSP_SIGS_OK drv self).1.incoming.content.velocity
          = drv.GetVelocity.out)
    ∧ (drv.GetSpeed.status = MSP_OK →
        (ThreadMain_step MSP_SIGS_OK drv self).1.incoming.content.speed = drv.GetSpeed.out)
    ∧ (∀ id : msp_rlink_light_t, (drv.GetLight id).status = MSP_OK →
        (ThreadMain_step MSP_SIGS_OK drv self).1.incoming.content.light id
          = (drv.GetLight id).out)
    ∧ (ThreadMain_step MSP_SIGS_OK drv self).2.1 = true
    ∧ (ThreadMain_step MSP_SIGS_OK drv self).1.wheelchair = self.wheelchair
    ∧ (ThreadMain_step MSP_SIGS_OK drv self).1.console = self.console
    ∧ (ThreadMain_step MSP_SIGS_OK drv self).1.main = self.main := by
  rw [ThreadMain_step_data_ready drv self hq hs he hd hr]
  refine ⟨driverCalls_fetch, ?_, fun _ => rfl, fun _ => rfl, fun _ => rfl,
    fun _ => ⟨rfl, rfl, rfl, rfl, rfl, rfl⟩, fun _ => rfl, fun _ => rfl, fun _ => rfl,
    fun _ => rfl, fun _ _ => rfl, rfl, rfl, rfl, rfl⟩
  rw [driverCalls_fetch]
  simp [fetchCalls, finRange_five]
  exact ⟨rfl, rfl⟩

/-- Witness of C12: with the getters for the mode, the battery and the hazard
light failing, all fourteen calls are made and the device status, the light
`left` and the velocity are published as delivered. -/
theorem C12_failed_getters_witness :
    Connect_init.main.flags &&& FLAG_USER_QUIT = 0
    ∧ rlink_replies_partial.GetMode.status = 2
    ∧ (driverCalls (ThreadMain_step MSP_SIGS_OK rlink_replies_partial Connect_init).2.2).length
        = 14
    ∧ (ThreadMain_step MSP_SIGS_OK rlink_replies_partial Connect_init).1.incoming.content.status
        = ⟨true, 5, 1⟩
    ∧ (ThreadMain_step MSP_SIGS_OK rlink_replies_partial Connect_init).1.incoming.content.light
          MSP_RLINK_LIGHT_LEFT
        = ⟨true, false⟩
    ∧ (ThreadMain_step MSP_SIGS_OK rlink_replies_partial Connect_init).1.incoming.content.velocity
        = ⟨10, 11, 12⟩
    ∧ (ThreadMain_step MSP_SIGS_OK rlink_replies_partial Connect_init).2.1 = true :=
  ⟨by decide, rfl,
   congrArg List.length
     (C12_failed_getters_do_not_abort_the_batch rlink_replies_partial Connect_init
       (by decide) rfl (by decide) (by decide) (by decide)).1,
   (C12_failed_getters_do_not_abort_the_batch rlink_replies_partial Connect_init
       (by decide) rfl (by decide) (by decide) (by decide)).2.2.1 rfl,
   (C12_failed_getters_do_not_abort_the_batch rlink_replies_partial Connect_init
       (by decide) rfl (by decide) (by decide) (by decide)).2.2.2.2.2.2.2.2.2.2.1
       MSP_RLINK_LIGHT_LEFT rfl,
   (C12_failed_getters_do_not_abort_the_batch rlink_replies_partial Connect_init
       (by decide) rfl (by decide) (by decide) (by decide)).2.2.2.2.2.2.2.2.1 rfl,
   (C12_failed_getters_do_not_abort_the_batch rlink_replies_partial Connect_init
       (by decide) rfl (by decide) (by decide) (by decide)).2.2.2.2.2.2.2.2.2.2.2.1⟩

/-- C13, evaluated on the code: the claim fails. For the empty line and for
the line `abc` the conversion consumes nothing, yet `StrToAction` returns 0
(`ACTION_UP`), not `ACTION_NOF`: the test `(start == end) && (value >=
ACTION_NOF)` is false because the value is 0. The console worker, started on
the initial control block and given the line, then executes `up`: the outgoing
`y` becomes 20, and what it prints after the echo is the newline and the menu,
without the invalid-input message. -/
theorem C13_non_integer_line_executes_up :
    (strtol []).2 = 0
    ∧ StrToAction [] = ACTION_UP
    ∧ (ThreadConsole Connect_init (typeLine [])).1.outgoing.content.y = 20
    ∧ consoleTexts (ThreadConsole Connect_init (typeLine [])).2.2
        = [ConsoleText.actions, ConsoleText.newline, ConsoleText.actions]
    ∧ (strtol [97, 98, 99]).2 = 0
    ∧ StrToAction [97, 98, 99] = ACTION_UP
    ∧ (ThreadConsole Connect_init (typeLine [97, 98, 99])).1.outgoing.content.y = 20
    ∧ consoleTexts (ThreadConsole Connect_init (typeLine [97, 98, 99])).2.2
        = [ConsoleText.actions, ConsoleText.echo 97, ConsoleText.echo 98, ConsoleText.echo 99,
           ConsoleText.newline, ConsoleText.actions] := by
  decide

/-- C14, evaluated on the code: the claim fails. The lines `25` and `-3` parse
as integers outside 0..19, and `StrToAction` returns 25 and -3, not
`ACTION_NOF`. The console worker, given the line `25`, prints the newline and
the menu without the invalid-input message (it calls `ExecuteAction` with 25,
whose `default` branch does nothing: the outgoing `x` and `y` stay 0). Only the
line `20` reaches the invalid-input branch. -/
theorem C14_out_of_range_code_is_not_reported :
    StrToAction [50, 53] = 25
    ∧ StrToAction [45, 51] = -3
    ∧ consoleTexts (ThreadConsole Connect_init (typeLine [50, 53])).2.2
        = [ConsoleText.actions, ConsoleText.echo 50, ConsoleText.echo 53,
           ConsoleText.newline, ConsoleText.actions]
    ∧ (ThreadConsole Connect_init (typeLine [50, 53])).1.outgoing.content.x = 0
    ∧ (ThreadConsole Connect_init (typeLine [50, 53])).1.outgoing.content.y = 0
    ∧ (ThreadConsole Connect_init (typeLine [50, 53])).2.1.running = true
    ∧ StrToAction [50, 48] = ACTION_NOF
    ∧ consoleTexts (ThreadConsole Connect_init (typeLine [50, 48])).2.2
        = [ConsoleText.actions, ConsoleText.echo 50, ConsoleText.echo 48,
           ConsoleText.newline, ConsoleText.invalid_input, ConsoleText.actions] := by
  decide

/-- C15: for every `n` from 0 to 19 the line made of the decimal digits of `n`
is mapped by `StrToAction` to the action code `n`, which is not `ACTION_NOF`
(the enumerators have the ordinals 0 = up, 1 = down, 2 = left, 3 = right,
4 = neutral, 18 = dump, 19 = quit, 20 = `ACTION_NOF`). So when the console
worker completes a line (return or newline key) whose buffer holds these
digits, it dispatches that action: for `n` up to 18 the control block becomes
what `ExecuteAction` with the code `n` makes of it, the worker's `running` is
unchanged and the invalid-input message is not printed; for 19 the quit branch
is taken. -/
theorem C15_digits_map_to_their_action
    (n : Nat) (hn : n ≤ 19) (ch : Int) (self : main_cb_t) (loc : console_locals_t)
    (hch : ch = 13 ∨ ch = 10)
    (hline : c_str (loc.bfr.set loc.cnt 0) = decimal n) :
    StrToAction (decimal n) = (n : Int)
    ∧ StrToAction (decimal n) ≠ ACTION_NOF
    ∧ (ACTION_UP = 0 ∧ ACTION_DOWN = 1 ∧ ACTION_LEFT = 2 ∧ ACTION_RIGHT = 3
        ∧ ACTION_NEUTRAL = 4 ∧ ACTION_DUMP = 18 ∧ ACTION_QUIT = 19 ∧ ACTION_NOF = 20)
    ∧ (ThreadConsole_step MSP_SIGS_TIMEOUT (some ch) self loc).1
        = (if n = 19 then (SignalUserWantsToQuit self).1
           else (ExecuteAction self (n : Int)).1)
    ∧ (ThreadConsole_step MSP_SIGS_TIMEOUT (some ch) self loc).2.1.running
        = (if n = 19 then false else loc.running)
    ∧ (ThreadConsole_step MSP_SIGS_TIMEOUT (some ch) self loc).2.2
        = [Event.console ConsoleText.newline, Event.bfr_store loc.cnt]
          ++ (if n = 19 then (SignalUserWantsToQuit self).2
              else (ExecuteAction self (n : Int)).2 ++ [Event.console ConsoleText.actions]) := by
  have ha := StrToAction_decimal n hn
  have hnof : (n : Int) ≠ ACTION_NOF := by
    unfold ACTION_NOF
    omega
  refine ⟨ha, by rw [ha]; exact hnof, by decide, ?_⟩
  by_cases h19 : n = 19
  · subst h19
    rw [ThreadConsole_step_quit_line ch self loc hch (by rw [hline]; exact ha)]
    simp
  · have hq : (n : Int) ≠ ACTION_QUIT := by
      unfold ACTION_QUIT
      omega
    rw [ThreadConsole_step_action_line ch self loc (n : Int) hch (by rw [hline]; exact ha)
      hnof hq]
    simp [h19]

/-- Witness of C15: the key `7` typed into a fresh buffer, then the return
key: the action 7 (toggle brake light) is executed. -/
theorem C15_digits_witness :
    c_str ((ThreadConsole_loop Connect_init console_locals_init [keyWake 55]).2.1.bfr.set
        (ThreadConsole_loop Connect_init console_locals_init [keyWake 55]).2.1.cnt 0)
      = decimal 7
    ∧ StrToAction (decimal 7) = ((7 : Nat) : Int)
    ∧ (ThreadConsole_step MSP_SIGS_TIMEOUT (some 13) Connect_init
        (ThreadConsole_loop Connect_init console_locals_init [keyWake 55]).2.1).1
        = (if 7 = 19 then (SignalUserWantsToQuit Connect_init).1
           else (ExecuteAction Connect_init ((7 : Nat) : Int)).1) :=
  ⟨by decide,
   (C15_digits_map_to_their_action 7 (by decide) 13 Connect_init
      (ThreadConsole_loop Connect_init console_locals_init [keyWake 55]).2.1
      (Or.inl rfl) (by decide)).1,
   (C15_digits_map_to_their_action 7 (by decide) 13 Connect_init
      (ThreadConsole_loop Connect_init console_locals_init [keyWake 55]).2.1
      (Or.inl rfl) (by decide)).2.2.2.1⟩

/-- C16: when the console worker completes a line (return or newline key) that
`StrToAction` maps to `ACTION_QUIT`, it or-s `FLAG_USER_QUIT` into the main
mask (so the mask contains it), ends its own loop, and leaves the outgoing
state, the incoming state and the wheelchair and console masks unchanged. Its
trace is the newline, the store of the terminating NUL and the three
operations of `SignalUserWantsToQuit` on the main signal: `ExecuteAction` is
not called. -/
theorem C16_quit_line_raises_user_quit
    (ch : Int) (self : main_cb_t) (loc : console_locals_t)
    (hch : ch = 13 ∨ ch = 10)
    (hq : StrToAction (c_str (loc.bfr.set loc.cnt 0)) = ACTION_QUIT) :
    (ThreadConsole_step MSP_SIGS_TIMEOUT (some ch) self loc).1.main.flags
        = self.main.flags ||| FLAG_USER_QUIT
    ∧ (ThreadConsole_step MSP_SIGS_TIMEOUT (some ch) self loc).1.main.flags
        &&& FLAG_USER_QUIT ≠ 0
    ∧ (ThreadConsole_step MSP_SIGS_TIMEOUT (some ch) self loc).2.1.running = false
    ∧ (ThreadConsole_step MSP_SIGS_TIMEOUT (some ch) self loc).1.outgoing = self.outgoing
    ∧ (ThreadConsole_step MSP_SIGS_TIMEOUT (some ch) self loc).1.incoming = self.incoming
    ∧ (ThreadConsole_step MSP_SIGS_TIMEOUT (some ch) self loc).1.wheelchair = self.wheelchair
    ∧ (ThreadConsole_step MSP_SIGS_TIMEOUT (some ch) self loc).1.console = self.console
    ∧ (ThreadConsole_step MSP_SIGS_TIMEOUT (some ch) self loc).2.2
        = [Event.console ConsoleText.newline, Event.bfr_store loc.cnt,
           Event.sig_MutexLock Signal.main, Event.sig_CondVarSignal Signal.main,
           Event.sig_MutexUnlock Signal.main] := by
  rw [ThreadConsole_step_quit_line ch self loc hch hq]
  exact ⟨rfl, lor_flag_contains FLAG_USER_QUIT_eq _, rfl, rfl, rfl, rfl, rfl, rfl⟩

/-- Witness of C16: the keys `1`, `9` typed into a fresh buffer, then the
return key. -/
theorem C16_quit_line_witness :
    StrToAction (c_str
        ((ThreadConsole_loop Connect_init console_locals_init
            [keyWake 49, keyWake 57]).2.1.bfr.set
          (ThreadConsole_loop Connect_init console_locals_init
            [keyWake 49, keyWake 57]).2.1.cnt 0)) = ACTION_QUIT
    ∧ (ThreadConsole_step MSP_SIGS_TIMEOUT (some 13) Connect_init
        (ThreadConsole_loop Connect_init console_locals_init
          [keyWake 49, keyWake 57]).2.1).1.main.flags
        = Connect_init.main.flags ||| FLAG_USER_QUIT
    ∧ (ThreadConsole_step MSP_SIGS_TIMEOUT (some 13) Connect_init
        (ThreadConsole_loop Connect_init console_locals_init
          [keyWake 49, keyWake 57]).2.1).2.1.running = false :=
  ⟨by decide,
   (C16_quit_line_raises_user_quit 13 Connect_init
      (ThreadConsole_loop Connect_init console_locals_init [keyWake 49, keyWake 57]).2.1
      (Or.inl rfl) (by decide)).1,
   (C16_quit_line_raises_user_quit 13 Connect_init
      (ThreadConsole_loop Connect_init console_locals_init [keyWake 49, keyWake 57]).2.1
      (Or.inl rfl) (by decide)).2.2.1⟩

/-- C17: each of the four raise operations replaces its target mask by the
bitwise or of the old mask with its single flag (`0x08` on wheelchair, `0x01`
on main, `0x02` on console, `0x04` on wheelchair). Afterwards that bit (3, 0,
1, 2 respectively) is set and every other bit of that mask is as before, the
two other masks and the incoming and outgoing states are unchanged, and
raising the same flag a second time yields the same mask as raising it once. -/
theorem C17_raise_is_bitwise_or (self : main_cb_t) :
    (FLAG_WHEELCHAIR_HEARTBEAT = 0x08 ∧ FLAG_USER_QUIT = 0x01
      ∧ FLAG_CONSOLE_QUIT = 0x02 ∧ FLAG_WHEELCHAIR_QUIT = 0x04)
    ∧ ((SignalToggleHeartbeat self).1.wheelchair.flags
          = self.wheelchair.flags ||| FLAG_WHEELCHAIR_HEARTBEAT
      ∧ (∀ i, (SignalToggleHeartbeat self).1.wheelchair.flags.testBit i
            = if i = 3 then true else self.wheelchair.flags.testBit i)
      ∧ (SignalToggleHeartbeat self).1.main = self.main
      ∧ (SignalToggleHeartbeat self).1.console = self.console
      ∧ (SignalToggleHeartbeat self).1.incoming = self.incoming
      ∧ (SignalToggleHeartbeat self).1.outgoing = self.outgoing
      ∧ (SignalToggleHeartbeat (SignalToggleHeartbeat self).1).1.wheelchair.flags
          = (SignalToggleHeartbeat self).1.wheelchair.flags)
    ∧ ((SignalUserWantsToQuit self).1.main.flags = self.main.flags ||| FLAG_USER_QUIT
      ∧ (∀ i, (SignalUserWantsToQuit self).1.main.flags.testBit i
            = if i = 0 then true else self.main.flags.testBit i)
      ∧ (SignalUserWantsToQuit self).1.wheelchair = self.wheelchair
      ∧ (SignalUserWantsToQuit self).1.console = self.console
      ∧ (SignalUserWantsToQuit self).1.incoming = self.incoming
      ∧ (SignalUserWantsToQuit self).1.outgoing = self.outgoing
      ∧ (SignalUserWantsToQuit (SignalUserWantsToQuit self).1).1.main.flags
          = (SignalUserWantsToQuit self).1.main.flags)
    ∧ ((SignalConsoleQuit self).1.console.flags = self.console.flags ||| FLAG_CONSOLE_QUIT
      ∧ (∀ i, (SignalConsoleQuit self).1.console.flags.testBit i
            = if i = 1 then true else self.console.flags.testBit i)
      ∧ (SignalConsoleQuit self).1.main = self.main
      ∧ (SignalConsoleQuit self).1.wheelchair = self.wheelchair
      ∧ (SignalConsoleQuit self).1.incoming = self.incoming
      ∧ (SignalConsoleQuit self).1.outgoing = self.outgoing
      ∧ (SignalConsoleQuit (SignalConsoleQuit self).1).1.console.flags
          = (SignalConsoleQuit self).1.console.flags)
    ∧ ((SignalWheelChairQuit self).1.wheelchair.flags
          = self.wheelchair.flags ||| FLAG_WHEELCHAIR_QUIT
      ∧ (∀ i, (SignalWheelChairQuit self).1.wheelchair.flags.testBit i
            = if i = 2 then true else self.wheelchair.flags.testBit i)
      ∧ (SignalWheelChairQuit self).1.main = self.main
      ∧ (SignalWheelChairQuit self).1.console = self.console
      ∧ (SignalWheelChairQuit self).1.incoming = self.incoming
      ∧ (SignalWheelChairQuit self).1.outgoing = self.outgoing
      ∧ (SignalWheelChairQuit (SignalWheelChairQuit self).1).1.wheelchair.flags
          = (SignalWheelChairQuit self).1.wheelchair.flags) := by
  have idem : ∀ f m : Nat, (f ||| m) ||| m = f ||| m := by
    intro f m
    rw [Nat.lor_assoc, Nat.or_self]
  exact ⟨by decide,
    ⟨rfl, fun i => testBit_lor_flag FLAG_WHEELCHAIR_HEARTBEAT_eq _ i, rfl, rfl, rfl, rfl,
      idem _ _⟩,
    ⟨rfl, fun i => testBit_lor_flag FLAG_USER_QUIT_eq _ i, rfl, rfl, rfl, rfl, idem _ _⟩,
    ⟨rfl, fun i => testBit_lor_flag FLAG_CONSOLE_QUIT_eq _ i, rfl, rfl, rfl, rfl, idem _ _⟩,
    ⟨rfl, fun i => testBit_lor_flag FLAG_WHEELCHAIR_QUIT_eq _ i, rfl, rfl, rfl, rfl,
      idem _ _⟩⟩

/-- C18: in a timeout poll of the wheelchair worker, whatever code `rc` the
driver returns to each call: `running` is unchanged (the worker keeps
running), the control block is unchanged, the calls made are those of the
poll in which every call succeeds (which are the driver calls of
`ThreadWheelchair_step`), each call did receive its code from `rc`, and
`previous` becomes the polled snapshot. Consequently what the next poll sends
does not depend on the codes returned in this one, and when the outgoing state
is not mutated in between the next poll makes no setter call at all, so a
failed send is not repeated. -/
theorem C18_setter_failures_are_ignored
    (rc rc2 : DriverCall → msp_status_t) (self later : main_cb_t)
    (loc : wheelchair_locals_t) :
    (ThreadWheelchair_poll_rc rc self loc).2.1.running = loc.running
    ∧ (ThreadWheelchair_poll_rc rc self loc).1 = self
    ∧ (ThreadWheelchair_poll_rc rc self loc).2.2.map Prod.fst
        = (ThreadWheelchair_poll_rc (fun _ => MSP_OK) self loc).2.2.map Prod.fst
    ∧ (ThreadWheelchair_poll_rc rc self loc).2.2.map Prod.fst
        = driverCalls (ThreadWheelchair_step MSP_SIGS_TIMEOUT self loc).2.2
    ∧ (ThreadWheelchair_poll_rc rc self loc).2.2.map Prod.snd
        = ((ThreadWheelchair_poll_rc rc self loc).2.2.map Prod.fst).map rc
    ∧ (ThreadWheelchair_poll_rc rc self loc).2.1.previous = self.outgoing.content
    ∧ (ThreadWheelchair_poll_rc rc self loc).2.1
        = (ThreadWheelchair_step MSP_SIGS_TIMEOUT self loc).2.1
    ∧ (ThreadWheelchair_poll_rc rc2 later (ThreadWheelchair_poll_rc rc self loc).2.1).2.2.map
          Prod.fst
        = (ThreadWheelchair_poll_rc rc2 later
            (ThreadWheelchair_poll_rc (fun _ => MSP_OK) self loc).2.1).2.2.map Prod.fst
    ∧ ((ThreadWheelchair_poll_rc rc2 (ThreadWheelchair_poll_rc rc self loc).1
          (ThreadWheelchair_poll_rc rc self loc).2.1).2.2.map Prod.fst).filter
          DriverCall.isSetter = [] := by
  refine ⟨rfl, rfl, ?_, ?_, ?_, rfl, rfl, rfl, ?_⟩
  · simp only [ThreadWheelchair_poll_rc, diffOutgoing_rc_calls]
  · simp only [ThreadWheelchair_poll_rc, diffOutgoing_rc_calls, driverCalls_timeout]
  · exact diffOutgoing_rc_codes _ _ _ _
  · simp only [ThreadWheelchair_poll_rc, diffOutgoing_rc_calls]
    exact setterCalls_same _ _

/-- C19: in every run of the wheelchair worker and of the console worker the
`stopped` gate of that worker is posted once if the loop has ended and not at
all while it has not; when the loop has ended (by the quit flag, by the
console's quit action or by a failed wait alike: whenever `running` is false)
the last two events of the run are the unlock of the worker's signal mutex
followed by the post of `stopped`. An iteration whose wait returns a status
other than OK or TIMEOUT only sets `running` to false: the control block is
unchanged and the trace of the iteration is empty, so no driver call is
made. -/
theorem C19_stopped_gate_is_posted_once_after_unlock
    (self : main_cb_t) (wheel_wakes console_wakes : List wake_t) :
    (semPosts (ThreadWheelchair self wheel_wakes).2.2).count Gate.wheelchair_stopped
        = (if (ThreadWheelchair self wheel_wakes).2.1.running then 0 else 1)
    ∧ ((ThreadWheelchair self wheel_wakes).2.1.running = false →
        (ThreadWheelchair self wheel_wakes).2.2.drop
            ((ThreadWheelchair self wheel_wakes).2.2.length - 2)
          = [Event.sig_MutexUnlock Signal.wheelchair, Event.sem_Post Gate.wheelchair_stopped])
    ∧ (semPosts (ThreadConsole self console_wakes).2.2).count Gate.console_stopped
        = (if (ThreadConsole self console_wakes).2.1.running then 0 else 1)
    ∧ ((ThreadConsole self console_wakes).2.1.running = false →
        (ThreadConsole self console_wakes).2.2.drop
            ((ThreadConsole self console_wakes).2.2.length - 2)
          = [Event.sig_MutexUnlock Signal.console, Event.sem_Post Gate.console_stopped])
    ∧ (∀ (code : Nat) (loc : wheelchair_locals_t),
        ThreadWheelchair_step (MSP_SIGS_FAILED code) self loc
          = (self, { loc with running := false }, []))
    ∧ (∀ (code : Nat) (key : Option Int) (loc : console_locals_t),
        ThreadConsole_step (MSP_SIGS_FAILED code) key self loc
          = (self, { loc with running := false }, [])) := by
  refine ⟨?_, ?_, ?_, ?_, fun _ _ => rfl, fun _ _ _ => rfl⟩
  · rw [semPosts_ThreadWheelchair]
    split_ifs <;> decide
  · intro h
    have h2 : (ThreadWheelchair_loop self wheelchair_locals_init wheel_wakes).2.1.running
        = false := h
    simp only [ThreadWheelchair, h2, Bool.false_eq_true, if_false]
    exact drop_length_sub_two _ _ _
  · rw [semPosts_ThreadConsole]
    split_ifs <;> decide
  · intro h
    have h2 : (ThreadConsole_loop self console_locals_init console_wakes).2.1.running
        = false := h
    simp only [ThreadConsole, h2, Bool.false_eq_true, if_false]
    exact drop_length_sub_two _ _ _

/-- Witness of C19: the wheelchair worker polls once and then its wait fails;
the console worker is given the line `19` (quit). -/
theorem C19_stopped_gate_witness :
    (ThreadWheelchair Connect_init
        [⟨id, MSP_SIGS_TIMEOUT, none⟩, ⟨id, MSP_SIGS_FAILED 1, none⟩]).2.1.running = false
    ∧ (ThreadWheelchair Connect_init
          [⟨id, MSP_SIGS_TIMEOUT, none⟩, ⟨id, MSP_SIGS_FAILED 1, none⟩]).2.2.drop
          ((ThreadWheelchair Connect_init
            [⟨id, MSP_SIGS_TIMEOUT, none⟩, ⟨id, MSP_SIGS_FAILED 1, none⟩]).2.2.length - 2)
        = [Event.sig_MutexUnlock Signal.wheelchair, Event.sem_Post Gate.wheelchair_stopped]
    ∧ (ThreadConsole Connect_init (typeLine [49, 57])).2.1.running = false
    ∧ (ThreadConsole Connect_init (typeLine [49, 57])).2.2.drop
          ((ThreadConsole Connect_init (typeLine [49, 57])).2.2.length - 2)
        = [Event.sig_MutexUnlock Signal.console, Event.sem_Post Gate.console_stopped] :=
  ⟨by decide,
   (C19_stopped_gate_is_posted_once_after_unlock Connect_init
      [⟨id, MSP_SIGS_TIMEOUT, none⟩, ⟨id, MSP_SIGS_FAILED 1, none⟩]
      (typeLine [49, 57])).2.1 (by decide),
   by decide,
   (C19_stopped_gate_is_posted_once_after_unlock Connect_init
      [⟨id, MSP_SIGS_TIMEOUT, none⟩, ⟨id, MSP_SIGS_FAILED 1, none⟩]
      (typeLine [49, 57])).2.2.2.1 (by decide)⟩

/-- C20, as stated, fails: in the run of either worker the signal mutex of the
worker is not held when `started` is posted (no lock event precedes the post);
in both runs `started` is posted once. -/
theorem C20_counterexample_started_posted_before_lock :
    holdsSignal Signal.wheelchair false
        (beforePost Gate.wheelchair_started
          (ThreadWheelchair Connect_init [⟨id, MSP_SIGS_TIMEOUT, none⟩]).2.2) = false
    ∧ (semPosts (ThreadWheelchair Connect_init [⟨id, MSP_SIGS_TIMEOUT, none⟩]).2.2).count
        Gate.wheelchair_started = 1
    ∧ holdsSignal Signal.console false
        (beforePost Gate.console_started
          (ThreadConsole Connect_init [⟨id, MSP_SIGS_TIMEOUT, none⟩]).2.2) = false
    ∧ (semPosts (ThreadConsole Connect_init [⟨id, MSP_SIGS_TIMEOUT, none⟩]).2.2).count
        Gate.console_started = 1 := by
  decide

/-- C20, amended: in every run of the wheelchair worker and of the console
worker the `started` gate is posted exactly once, as the first event of the
run: the post comes before the worker acquires its own signal mutex, which is
the next event, so the mutex is not held at the post, and before the first
wait (the console prints its menu in between). -/
theorem C20_started_gate_is_posted_once_before_the_lock
    (self : main_cb_t) (wheel_wakes console_wakes : List wake_t) :
    (semPosts (ThreadWheelchair self wheel_wakes).2.2).count Gate.wheelchair_started = 1
    ∧ (ThreadWheelchair self wheel_wakes).2.2.take 2
        = [Event.sem_Post Gate.wheelchair_started, Event.sig_MutexLock Signal.wheelchair]
    ∧ holdsSignal Signal.wheelchair false
        (beforePost Gate.wheelchair_started (ThreadWheelchair self wheel_wakes).2.2) = false
    ∧ (semPosts (ThreadConsole self console_wakes).2.2).count Gate.console_started = 1
    ∧ (ThreadConsole self console_wakes).2.2.take 3
        = [Event.sem_Post Gate.console_started, Event.sig_MutexLock Signal.console,
           Event.console ConsoleText.actions]
    ∧ holdsSignal Signal.console false
        (beforePost Gate.console_started (ThreadConsole self console_wakes).2.2) = false := by
  refine ⟨?_, rfl, rfl, ?_, rfl, rfl⟩
  · rw [semPosts_ThreadWheelchair]
    split_ifs <;> decide
  · rw [semPosts_ThreadConsole]
    split_ifs <;> decide

/-- C23: `ExecuteAction` changes only the outgoing field that the action names.
`up` and `down` change only `y` (by the guarded step of 20), `left` and `right`
only `x`, `neutral` only `x` and `y`; button press and release set only `btn`,
to true and to false; each light toggle negates the light of its own id and no
other; horn toggle negates only `horn`; axis up, down and stop set only
`axis0`; trigger-error sets only `error`, to `0x01`; toggle-heartbeat and dump
leave the outgoing state as it is. No action code at all modifies the incoming
state. -/
theorem C23_actions_change_only_their_field (self : main_cb_t) :
    (ExecuteAction self ACTION_UP).1.outgoing.content
        = { self.outgoing.content with
            y := if self.outgoing.content.y < 100
                 then wrap_int8 (self.outgoing.content.y + 20)
                 else self.outgoing.content.y }
    ∧ (ExecuteAction self ACTION_DOWN).1.outgoing.content
        = { self.outgoing.content with
            y := if -100 < self.outgoing.content.y
                 then wrap_int8 (self.outgoing.content.y - 20)
                 else self.outgoing.content.y }
    ∧ (ExecuteAction self ACTION_LEFT).1.outgoing.content
        = { self.outgoing.content with
            x := if -100 < self.outgoing.content.x
                 then wrap_int8 (self.outgoing.content.x - 20)
                 else self.outgoing.content.x }
    ∧ (ExecuteAction self ACTION_RIGHT).1.outgoing.content
        = { self.outgoing.content with
            x := if self.outgoing.content.x < 100
                 then wrap_int8 (self.outgoing.content.x + 20)
                 else self.outgoing.content.x }
    ∧ (ExecuteAction self ACTION_NEUTRAL).1.outgoing.content
        = { self.outgoing.content with x := 0, y := 0 }
    ∧ (ExecuteAction self ACTION_BUTTON_PRESS).1.outgoing.content
        = { self.outgoing.content with btn := true }
    ∧ (ExecuteAction self ACTION_BUTTON_RELEASE).1.outgoing.content
        = { self.outgoing.content with btn := false }
    ∧ (ExecuteAction self ACTION_TOGGLE_LIGHT_BRAKE).1.outgoing.content
        = { self.outgoing.content with
            light := fun j => if j = MSP_RLINK_LIGHT_BRAKE
              then !self.outgoing.content.light j else self.outgoing.content.light j }
    ∧ (ExecuteAction self ACTION_TOGGLE_LIGHT_DIP).1.outgoing.content
        = { self.outgoing.content with
            light := fun j => if j = MSP_RLINK_LIGHT_DIP
              then !self.outgoing.content.light j else self.outgoing.content.light j }
    ∧ (ExecuteAction self ACTION_TOGGLE_LIGHT_HAZARD).1.outgoing.content
        = { self.outgoing.content with
            light := fun j => if j = MSP_RLINK_LIGHT_HAZARD
              then !self.outgoing.content.light j else self.outgoing.content.light j }
    ∧ (ExecuteAction self ACTION_TOGGLE_LIGHT_LEFT).1.outgoing.content
        = { self.outgoing.content with
            light := fun j => if j = MSP_RLINK_LIGHT_LEFT
              then !self.outgoing.content.light j else self.outgoing.content.light j }
    ∧ (ExecuteAction self ACTION_TOGGLE_LIGHT_RIGHT).1.outgoing.content
        = { self.outgoing.content with
            light := fun j => if j = MSP_RLINK_LIGHT_RIGHT
              then !self.outgoing.content.light j else self.outgoing.content.light j }
    ∧ (ExecuteAction self ACTION_TOGGLE_HORN).1.outgoing.content
        = { self.outgoing.content with horn := !self.outgoing.content.horn }
    ∧ (ExecuteAction self ACTION_AXIS_0_UP).1.outgoing.content
        = { self.outgoing.content with axis0 := MSP_RLINK_AXIS_DIR_UP }
    ∧ (ExecuteAction self ACTION_AXIS_0_DOWN).1.outgoing.content
        = { self.outgoing.content with axis0 := MSP_RLINK_AXIS_DIR_DOWN }
    ∧ (ExecuteAction self ACTION_AXIS_0_STOP).1.outgoing.content
        = { self.outgoing.content with axis0 := MSP_RLINK_AXIS_DIR_NONE }
    ∧ (ExecuteAction self ACTION_TRIGGER_ERROR).1.outgoing.content
        = { self.outgoing.content with error := 0x01 }
    ∧ (ExecuteAction self ACTION_TOGGLE_HB).1.outgoing = self.outgoing
    ∧ (ExecuteAction self ACTION_DUMP).1.outgoing = self.outgoing
    ∧ (∀ a : action_t, (ExecuteAction self a).1.incoming = self.incoming) := by
  have hup : (ExecuteAction self ACTION_UP).1.outgoing.content
      = if self.outgoing.content.y < 100
        then { self.outgoing.content with y := wrap_int8 (self.outgoing.content.y + 20) }
        else self.outgoing.content := rfl
  have hdown : (ExecuteAction self ACTION_DOWN).1.outgoing.content
      = if -100 < self.outgoing.content.y
        then { self.outgoing.content with y := wrap_int8 (self.outgoing.content.y - 20) }
        else self.outgoing.content := rfl
  have hleft : (ExecuteAction self ACTION_LEFT).1.outgoing.content
      = if -100 < self.outgoing.content.x
        then { self.outgoing.content with x := wrap_int8 (self.outgoing.content.x - 20) }
        else self.outgoing.content := rfl
  have hright : (ExecuteAction self ACTION_RIGHT).1.outgoing.content
      = if self.outgoing.content.x < 100
        then { self.outgoing.content with x := wrap_int8 (self.outgoing.content.x + 20) }
        else self.outgoing.content := rfl
  have hl : ∀ id : msp_rlink_light_t,
      (withOutgoing self (toggleLight id)).1.outgoing.content
        = { self.outgoing.content with
            light := fun j => if j = id
              then !self.outgoing.content.light j else self.outgoing.content.light j } :=
    fun id => toggleLight_eq id self.outgoing.content
  refine ⟨?_, ?_, ?_, ?_, rfl, rfl, rfl, hl _, hl _, hl _, hl _, hl _, rfl, rfl, rfl, rfl,
    rfl, rfl, rfl, ExecuteAction_incoming self⟩
  · rw [hup]; split_ifs <;> rfl
  · rw [hdown]; split_ifs <;> rfl
  · rw [hleft]; split_ifs <;> rfl
  · rw [hright]; split_ifs <;> rfl

/-- C25: a timeout wake of the wheelchair worker does not depend on its
control mask and does not modify it: whatever the mask holds (the quit flag or
the heartbeat-toggle flag included), the control block after the poll is the
one before it, the heartbeat-enabled bit and `running` are unchanged, and
trace and locals are the same as for any other mask. -/
theorem C25_timeout_leaves_the_mask_alone
    (self : main_cb_t) (loc : wheelchair_locals_t) (mask : Nat) :
    (ThreadWheelchair_step MSP_SIGS_TIMEOUT self loc).1 = self
    ∧ (ThreadWheelchair_step MSP_SIGS_TIMEOUT self loc).1.wheelchair.flags
        = self.wheelchair.flags
    ∧ (ThreadWheelchair_step MSP_SIGS_TIMEOUT self loc).2.1.heartbeat = loc.heartbeat
    ∧ (ThreadWheelchair_step MSP_SIGS_TIMEOUT self loc).2.1.running = loc.running
    ∧ (ThreadWheelchair_step MSP_SIGS_TIMEOUT { self with wheelchair := ⟨mask⟩ } loc).2
        = (ThreadWheelchair_step MSP_SIGS_TIMEOUT self loc).2
    ∧ (ThreadWheelchair_step MSP_SIGS_TIMEOUT { self with wheelchair := ⟨mask⟩ }
        loc).1.wheelchair.flags = mask :=
  ⟨rfl, rfl, rfl, rfl, rfl, rfl⟩

/-- C26: when the wait of the main loop returns a status other than OK, the
main loop stops and does nothing else: the control block (the three masks and
the incoming state included) is unchanged and the trace is empty, so no quit
flag is raised on either worker and no driver call is made. -/
theorem C26_failed_wait_stops_main_without_cascade
    (sigs : msp_sigs_t) (drv : rlink_replies_t) (self : main_cb_t)
    (h : sigs ≠ MSP_SIGS_OK) :
    (ThreadMain_step sigs drv self).2.1 = false
    ∧ (ThreadMain_step sigs drv self).1 = self
    ∧ (ThreadMain_step sigs drv self).1.wheelchair = self.wheelchair
    ∧ (ThreadMain_step sigs drv self).1.console = self.console
    ∧ (ThreadMain_step sigs drv self).1.main = self.main
    ∧ (ThreadMain_step sigs drv self).1.incoming = self.incoming
    ∧ (ThreadMain_step sigs drv self).2.2 = []
    ∧ driverCalls (ThreadMain_step sigs drv self).2.2 = [] := by
  cases sigs with
  | MSP_SIGS_OK => exact absurd rfl h
  | MSP_SIGS_TIMEOUT => exact ⟨rfl, rfl, rfl, rfl, rfl, rfl, rfl, rfl⟩
  | MSP_SIGS_FAILED code => exact ⟨rfl, rfl, rfl, rfl, rfl, rfl, rfl, rfl⟩

/-- Witness of C26: the wait fails with code 1 while a user-quit is pending and
the driver reports an error: nothing is cascaded. -/
theorem C26_failed_wait_witness :
    (ThreadMain_step (MSP_SIGS_FAILED 1) (rlink_replies_sample MSP_RLINK_EV_ERROR)
        (cb_with_flags FLAG_USER_QUIT 0 0)).2.1 = false
    ∧ (ThreadMain_step (MSP_SIGS_FAILED 1) (rlink_replies_sample MSP_RLINK_EV_ERROR)
        (cb_with_flags FLAG_USER_QUIT 0 0)).1 = cb_with_flags FLAG_USER_QUIT 0 0 :=
  ⟨(C26_failed_wait_stops_main_without_cascade (MSP_SIGS_FAILED 1)
      (rlink_replies_sample MSP_RLINK_EV_ERROR) (cb_with_flags FLAG_USER_QUIT 0 0)
      (by decide)).1,
   (C26_failed_wait_stops_main_without_cascade (MSP_SIGS_FAILED 1)
      (rlink_replies_sample MSP_RLINK_EV_ERROR) (cb_with_flags FLAG_USER_QUIT 0 0)
      (by decide)).2.1⟩

/-- C27: once the trigger-error action has been executed the outgoing error
code is `0x01`, and it is `0x01` after every finite sequence of further action
codes: each action leaves the error code as it is or sets it to `0x01`. -/
theorem C27_error_code_is_never_reset
    (self : main_cb_t) (actions : List action_t) (a : action_t) :
    (ExecuteAction self ACTION_TRIGGER_ERROR).1.outgoing.content.error = 0x01
    ∧ (ExecuteActions (ExecuteAction self ACTION_TRIGGER_ERROR).1
        actions).outgoing.content.error = 0x01
    ∧ ((ExecuteAction self a).1.outgoing.content.error = self.outgoing.content.error
        ∨ (ExecuteAction self a).1.outgoing.content.error = 0x01) :=
  ⟨rfl, ExecuteActions_error_sticky actions _ rfl, ExecuteAction_error_cases self a⟩

/-- C28: for every `int8_t` value of `x` and `y` (from -128 to 127, reachable or
not) the four movement actions store the exact integer result: `up` and
`right` add 20 exactly when the value is below 100, `down` and `left` subtract
20 exactly when it is above -100, the result is again within -128 and 127, and
no reduction modulo `2^8` takes effect. -/
theorem C28_movement_never_wraps (self : main_cb_t)
    (hx : -128 ≤ self.outgoing.content.x ∧ self.outgoing.content.x ≤ 127)
    (hy : -128 ≤ self.outgoing.content.y ∧ self.outgoing.content.y ≤ 127) :
    ((ExecuteAction self ACTION_UP).1.outgoing.content.y
        = (if self.outgoing.content.y < 100 then self.outgoing.content.y + 20
           else self.outgoing.content.y)
      ∧ -128 ≤ (ExecuteAction self ACTION_UP).1.outgoing.content.y
      ∧ (ExecuteAction self ACTION_UP).1.outgoing.content.y ≤ 127)
    ∧ ((ExecuteAction self ACTION_DOWN).1.outgoing.content.y
        = (if -100 < self.outgoing.content.y then self.outgoing.content.y - 20
           else self.outgoing.content.y)
      ∧ -128 ≤ (ExecuteAction self ACTION_DOWN).1.outgoing.content.y
      ∧ (ExecuteAction self ACTION_DOWN).1.outgoing.content.y ≤ 127)
    ∧ ((ExecuteAction self ACTION_LEFT).1.outgoing.content.x
        = (if -100 < self.outgoing.content.x then self.outgoing.content.x - 20
           else self.outgoing.content.x)
      ∧ -128 ≤ (ExecuteAction self ACTION_LEFT).1.outgoing.content.x
      ∧ (ExecuteAction self ACTION_LEFT).1.outgoing.content.x ≤ 127)
    ∧ ((ExecuteAction self ACTION_RIGHT).1.outgoing.content.x
        = (if self.outgoing.content.x < 100 then self.outgoing.content.x + 20
           else self.outgoing.content.x)
      ∧ -128 ≤ (ExecuteAction self ACTION_RIGHT).1.outgoing.content.x
      ∧ (ExecuteAction self ACTION_RIGHT).1.outgoing.content.x ≤ 127) := by
  have hup : (ExecuteAction self ACTION_UP).1.outgoing.content
      = if self.outgoing.content.y < 100
        then { self.outgoing.content with y := wrap_int8 (self.outgoing.content.y + 20) }
        else self.outgoing.content := rfl
  have hdown : (ExecuteAction self ACTION_DOWN).1.outgoing.content
      = if -100 < self.outgoing.content.y
        then { self.outgoing.content with y := wrap_int8 (self.outgoing.content.y - 20) }
        else self.outgoing.content := rfl
  have hleft : (ExecuteAction self ACTION_LEFT).1.outgoing.content
      = if -100 < self.outgoing.content.x
        then { self.outgoing.content with x := wrap_int8 (self.outgoing.content.x - 20) }
        else self.outgoing.content := rfl
  have hright : (ExecuteAction self ACTION_RIGHT).1.outgoing.content
      = if self.outgoing.content.x < 100
        then { self.outgoing.content with x := wrap_int8 (self.outgoing.content.x + 20) }
        else self.outgoing.content := rfl
  rw [hup, hdown, hleft, hright]
  refine ⟨?_, ?_, ?_, ?_⟩
  all_goals split_ifs
  all_goals try rw [wrap_int8_of_range _ (by omega)]
  all_goals try dsimp only
  all_goals omega

/-- Witness of C28: the unreachable position `x = -99`, `y = 99`: `up` stores
119 and `left` stores -119. -/
theorem C28_movement_witness :
    (-128 ≤ (cb_with_xy (-99) 99).outgoing.content.x
      ∧ (cb_with_xy (-99) 99).outgoing.content.x ≤ 127)
    ∧ (ExecuteAction (cb_with_xy (-99) 99) ACTION_UP).1.outgoing.content.y
        = (if (cb_with_xy (-99) 99).outgoing.content.y < 100
           then (cb_with_xy (-99) 99).outgoing.content.y + 20
           else (cb_with_xy (-99) 99).outgoing.content.y)
    ∧ (ExecuteAction (cb_with_xy (-99) 99) ACTION_LEFT).1.outgoing.content.x
        = (if -100 < (cb_with_xy (-99) 99).outgoing.content.x
           then (cb_with_xy (-99) 99).outgoing.content.x - 20
           else (cb_with_xy (-99) 99).outgoing.content.x) :=
  ⟨by decide,
   (C28_movement_never_wraps (cb_with_xy (-99) 99) (by decide) (by decide)).1.1,
   (C28_movement_never_wraps (cb_with_xy (-99) 99) (by decide) (by decide)).2.2.1.1⟩

/-- C24, evaluated on the code: the claim fails. After 256 characters typed
into a fresh buffer `cnt` equals `CONSOLE_BFR_SIZE` (256) and stays there; the
next character is then stored at index 256, and so is the terminating NUL of a
return key: both stores are one past the last element (index 255) of the
buffer. -/
theorem C24_store_one_past_the_buffer :
    CONSOLE_BFR_SIZE = 256
    ∧ (ThreadConsole_loop Connect_init console_locals_init
        (List.replicate 256 (keyWake 97))).2.1.cnt = 256
    ∧ bfrStores (ThreadConsole_step MSP_SIGS_TIMEOUT (some 97) Connect_init
        (ThreadConsole_loop Connect_init console_locals_init
          (List.replicate 256 (keyWake 97))).2.1).2.2 = [256]
    ∧ (ThreadConsole_step MSP_SIGS_TIMEOUT (some 97) Connect_init
        (ThreadConsole_loop Connect_init console_locals_init
          (List.replicate 256 (keyWake 97))).2.1).2.1.cnt = 256
    ∧ bfrStores (ThreadConsole_step MSP_SIGS_TIMEOUT (some 13) Connect_init
        (ThreadConsole_loop Connect_init console_locals_init
          (List.replicate 256 (keyWake 97))).2.1).2.2 = [256] := by
  have h : (ThreadConsole_loop Connect_init console_locals_init
      (List.replicate 256 (keyWake 97))).2.1.cnt = 256 := by decide
  refine ⟨rfl, h, ?_, ?_, ?_⟩
  · rw [bfrStores_key, h]
  · rw [cnt_after_key 97 _ _ (by decide) (by decide), h]
    decide
  · rw [bfrStores_key, h]

/-- C21, as stated, fails: the heartbeat call of a poll of the wheelchair
worker is made with the mutex of `wheelchair.signal` held, and the `GetStatus`
call of the main loop with the mutex of `main.signal` held (no shared-state
mutex is held at either call). -/
theorem C21_counterexample_signal_mutex_held_at_calls :
    callsWithLocks ⟨[], []⟩
        (ThreadWheelchair Connect_init [⟨id, MSP_SIGS_TIMEOUT, none⟩]).2.2
      = [(DriverCall.Heartbeat, ⟨[], [Signal.wheelchair]⟩)]
    ∧ callsWithLocks ⟨[], []⟩
        (ThreadMain Connect_init [⟨id, MSP_SIGS_OK, rlink_replies_sample 0⟩]).2.2
      = [(DriverCall.GetStatus, ⟨[], [Signal.main]⟩)] := by
  decide

/-- C21, amended: in every run of the wheelchair worker and of the main loop,
at every call into the driver the calling worker holds no shared-state mutex
(neither `outgoing.cs` nor `incoming.cs`) and holds exactly one signal mutex,
its own: the worker locks it before its loop and unlocks it after the loop. -/
theorem C21_driver_calls_hold_only_the_own_signal_mutex
    (self : main_cb_t) (wheel_wakes : List wake_t) (main_wakes : List main_wake_t) :
    callsWithLocks ⟨[], []⟩ (ThreadWheelchair self wheel_wakes).2.2
      = (driverCalls (ThreadWheelchair self wheel_wakes).2.2).map
          (fun c => (c, (⟨[], [Signal.wheelchair]⟩ : held_t)))
    ∧ callsWithLocks ⟨[], []⟩ (ThreadMain self main_wakes).2.2
      = (driverCalls (ThreadMain self main_wakes).2.2).map
          (fun c => (c, (⟨[], [Signal.main]⟩ : held_t))) := by
  constructor
  · have hd : driverCalls (ThreadWheelchair self wheel_wakes).2.2
        = driverCalls (ThreadWheelchair_loop self wheelchair_locals_init wheel_wakes).2.2 := by
      simp only [ThreadWheelchair, driverCalls_append]
      split_ifs <;> simp [driverCalls]
    rw [hd]
    apply callsWithLocks_run Signal.wheelchair
    · exact ⟨rfl, rfl⟩
    · exact callsUnder_ThreadWheelchair_loop _ _ _
    · intro h
      split_ifs <;> rfl
  · have hd : driverCalls (ThreadMain self main_wakes).2.2
        = driverCalls (ThreadMain_loop self true main_wakes).2.2 := by
      simp only [ThreadMain, driverCalls_append]
      split_ifs <;> simp [driverCalls]
    rw [hd]
    apply callsWithLocks_run Signal.main
    · exact ⟨rfl, rfl⟩
    · exact callsUnder_ThreadMain_loop _ _ _
    · intro h
      split_ifs <;> rfl

/-- C22: for every list of structs staged by the publish cycles of the main
loop, every initial content of the dump's local struct and every interleaving
of the steps of the main loop and of the dump (each one `Lock(incoming.cs)`,
a cell-by-cell `memcpy`, `Unlock(incoming.cs)`), each snapshot a completed dump
has taken equals the all-zero struct left by `Connect` or the whole staged
struct of one single publish cycle; it is never a mix of the cells of two
cycles. -/
theorem C22_snapshot_is_one_publish_cycle (staged : List incoming_t) (garbage : incoming_t)
    (sched : List Party) (snap : incoming_t)
    (h : snap ∈ (race_run (race_init staged garbage) sched).snapshots) :
    snap = incoming_zero ∨ snap ∈ staged := by
  have hinv := race_inv_run (incoming_zero :: staged) sched (race_init staged garbage)
    (race_inv_init (incoming_zero :: staged) staged garbage (List.mem_cons_self _ _)
      (fun s hs => List.mem_cons_of_mem _ hs))
  exact List.mem_cons.1 (hinv.2.1 snap h)

/-- Witness for C22: the main loop publishes one staged struct in 33 steps,
then the dump takes its snapshot in 33 steps; the snapshot is that struct. -/
theorem C22_snapshot_witness :
    stageIncoming rlink_replies_partial
        ∈ (race_run (race_init [stageIncoming rlink_replies_partial] incoming_zero)
            (List.replicate 33 Party.main ++ List.replicate 33 Party.console)).snapshots
    ∧ (stageIncoming rlink_replies_partial = incoming_zero
        ∨ stageIncoming rlink_replies_partial ∈ [stageIncoming rlink_replies_partial]) :=
  have h : stageIncoming rlink_replies_partial
      ∈ (race_run (race_init [stageIncoming rlink_replies_partial] incoming_zero)
          (List.replicate 33 Party.main ++ List.replicate 33 Party.console)).snapshots := by
    rw [race_run_publish_then_dump]
    exact List.mem_singleton_self _
  ⟨h, C22_snapshot_is_one_publish_cycle [stageIncoming rlink_replies_partial] incoming_zero
    (List.replicate 33 Party.main ++ List.replicate 33 Party.console)
    (stageIncoming rlink_replies_partial) h⟩

end JoystickCommunicator
